import Mathlib

/-!
# JUMP: a shallow embedding of the game core

The definitions below follow `src/script.js` (classes `GameState` and `JumpGame`) and
`src/precision-judgment-system.js` (classes `AntiCheatSystem`, `PrecisionJudgmentSystem`,
`DualBackupStorage` and `GameSystemIntegration`).

Modelling conventions.

* JavaScript numbers are taken in a linearly ordered field `α` (exact arithmetic, no
  rounding); concrete evaluations use `ℚ`, the launch curve uses `ℝ`. `NaN` is modelled
  where the judge can produce it, as the value `none` of an `Option α`.
* `score`, `combo`, `perfectCount` and `maxCombo` only ever hold integers and are kept in `ℤ`.
* Mutable object state becomes explicit state passing: every method is a function
  `GameState α → GameState α`.
* What a method reads from its host (window size, clock, `Math.sin`, `Math.PI`) is the
  record `Env`; the clock readings taken during one call are one value `now`.
  `Math.cos` and `Math.sqrt` are the record `JsMath`, the values of `Math.random()` read
  by one call of `generatePlatform` are the record `PlatformDraws`.
* `attachedPlatform` is a reference to a platform object; it is kept as the platform
  record it points to. The only method that writes a platform, `updatePlatforms`, moves
  this record together with the one in the list.
* DOM updates, sounds, logging and timers have no effect on the game state and are left
  out, as is the telemetry field `landingAngle`, which no modelled method reads.
* A text kept in a store is identified with what it denotes: each key of
  `DualBackupStorage` holds values of the shape its writer gives it (`StorageKey.Value`),
  so `JSON.stringify` followed by `JSON.parse` is the identity. A store that fails is a
  store whose `getItem` or `setItem` throws.
* An `async` method is the function from the state at its call to its result; the delay
  inside `performSecondaryValidation` only postpones the result.
-/

namespace JumpGame

/-- Any object with `x`, `y`, `width`, `height`, as `isColliding` takes it. -/
structure Rect (α : Type) where
  x : α
  y : α
  width : α
  height : α
  deriving DecidableEq

/-- The record `state.character`. -/
structure Character (α : Type) where
  x : α
  y : α
  width : α
  height : α
  vx : α
  vy : α
  isJumping : Bool
  deriving DecidableEq

/-- A platform object. The first two platforms of a session are created without
`speed`, `moveRange` and `originalX`, hence the options (`none` is `undefined`). -/
structure Platform (α : Type) where
  x : α
  y : α
  width : α
  height : α
  speed : Option α
  moveRange : Option α
  originalX : Option α
  id : α
  deriving DecidableEq

/-- One entry of `jumpData.trajectory`. -/
structure MotionSample (α : Type) where
  x : α
  y : α
  vx : α
  vy : α
  timestamp : α
  deriving DecidableEq

/-- The record `state.jumpData`. -/
structure JumpData (α : Type) where
  reactionTime : α
  positionDelta : α
  perfectStreak : ℤ
  trajectory : List (MotionSample α)
  landingVelocity : α × α
  optimalTiming : α
  actualTiming : α
  deriving DecidableEq

/-- The fields of `GameState` that the physics and collision code reads or writes. -/
structure GameState (α : Type) where
  score : ℤ
  combo : ℤ
  perfectCount : ℤ
  maxCombo : ℤ
  isPlaying : Bool
  isCharging : Bool
  power : α
  character : Character α
  platforms : List (Platform α)
  gameSpeed : α
  platformSpeed : α
  lastPlatformX : α
  jumpData : JumpData α
  gameStartTime : α
  lastJumpTime : α
  fallStartTime : Option α
  attachedPlatform : Option (Platform α)
  platformAttachmentOffset : α
  bottomCollisionLine : Option (Rect α)
  deriving DecidableEq

/-- What the methods read from the host: `window.innerWidth`, `window.innerHeight`,
`Date.now()`, `Math.sin` and `Math.PI`. -/
structure Env (α : Type) where
  innerWidth : α
  innerHeight : α
  now : α
  sin : α → α
  PI : α

variable {α : Type} [LinearOrderedField α]

/-- The character seen as a rectangle. -/
def Character.rect (c : Character α) : Rect α :=
  { x := c.x, y := c.y, width := c.width, height := c.height }

/-- The platform seen as a rectangle. -/
def Platform.rect (p : Platform α) : Rect α :=
  { x := p.x, y := p.y, width := p.width, height := p.height }

/-- `isColliding(rect1, rect2)`: strict overlap of two boxes. -/
def isColliding (rect1 rect2 : Rect α) : Bool :=
  decide (rect1.x < rect2.x + rect2.width) &&
  decide (rect1.x + rect1.width > rect2.x) &&
  decide (rect1.y < rect2.y + rect2.height) &&
  decide (rect1.y + rect1.height > rect2.y)

/-- `createBottomCollisionLine()`: the strip made from the window size. -/
def createBottomCollisionLine (env : Env α) (s : GameState α) : GameState α :=
  { s with
    bottomCollisionLine :=
      some { x := 0, y := env.innerHeight - 10, width := env.innerWidth, height := 5 } }

/-- `gameOver()`, its effect on the game state: the run stops. The score submission
that follows the first `await` touches no field of `GameState`. -/
def gameOver (s : GameState α) : GameState α :=
  { s with isPlaying := false }

/-- `trackJumpStart()`. -/
def trackJumpStart (env : Env α) (s : GameState α) : GameState α :=
  { s with
    jumpData := { s.jumpData with
      reactionTime := env.now - s.lastJumpTime
      trajectory := [] }
    gameStartTime := if s.gameStartTime = 0 then env.now else s.gameStartTime }

/-- `trackJumpLanding(platform)`. -/
def trackJumpLanding (env : Env α) (platform : Platform α) (s : GameState α) : GameState α :=
  let char := s.character
  let platformCenter := platform.x + platform.width / 2
  let charCenter := char.x + char.width / 2
  { s with
    jumpData := { s.jumpData with
      positionDelta := |platformCenter - charCenter|
      landingVelocity := (char.vx, char.vy)
      actualTiming := env.now - s.gameStartTime
      trajectory := s.jumpData.trajectory ++
        [{ x := char.x, y := char.y, vx := char.vx, vy := char.vy, timestamp := env.now }] }
    lastJumpTime := env.now }

/-- `perfectLanding()`. -/
def perfectLanding (s : GameState α) : GameState α :=
  let combo := min (s.combo + 1) 5
  { s with
    perfectCount := s.perfectCount + 1
    combo := combo
    maxCombo := max s.maxCombo combo
    score := s.score + 5 * combo }

/-- `jump(e)`. -/
def jump (env : Env α) (s : GameState α) : GameState α :=
  if !s.isCharging || s.character.isJumping then s
  else
    let power := min s.power 150 / 100
    let s1 : GameState α :=
      match s.attachedPlatform with
      | some platform =>
        let platformSpeed := platform.speed.getD 0
        { s with
          isCharging := false
          character := { s.character with vx := (50 + power * 200) / 20 + platformSpeed }
          attachedPlatform := none
          platformAttachmentOffset := 0 }
      | none =>
        { s with
          isCharging := false
          character := { s.character with vx := (50 + power * 200) / 20 } }
    let s2 : GameState α :=
      { s1 with
        character := { s1.character with vy := -(env.sin (power * env.PI)) * 15, isJumping := true }
        power := 0 }
    trackJumpStart env s2

/-- The last two checks of `checkGameFailureConditions` (5: flew too high, 6: speed
sanity), reached from each branch of check 4 that does not return. -/
def checkGameFailureTail (s : GameState α) : GameState α :=
  let char := s.character
  if char.y < -500 then gameOver s
  else if |char.vx| > 50 ∨ |char.vy| > 30 then gameOver s
  else s

/-- `checkGameFailureConditions()`. Every `gameOver(); return;` of the source is a
branch ending in `gameOver`. `!this.state.fallStartTime` holds for `null` and for `0`. -/
def checkGameFailureConditions (env : Env α) (s : GameState α) : GameState α :=
  let char := s.character
  let screenBottom := env.innerHeight
  let charBottom := char.y + char.height
  if char.x < -200 ∨ char.x > env.innerWidth + 200 then
    gameOver { s with character := { char with isJumping := false, vx := 0, vy := 0 } }
  else if charBottom > screenBottom + 50 then gameOver s
  else if char.x + char.width < -100 ∨ char.x > env.innerWidth + 100 then gameOver s
  else if char.y > screenBottom then gameOver s
  else if char.vy > 15 ∧ char.y > screenBottom * 0.8 then gameOver s
  else if charBottom ≥ screenBottom - 10 ∧ char.vy > 0 then gameOver s
  else if char.y > screenBottom * 0.9 ∧ char.vy > 5 then
    let currentTime := env.now
    if s.fallStartTime = none ∨ s.fallStartTime = some 0 then
      checkGameFailureTail { s with fallStartTime := some currentTime }
    else if currentTime - s.fallStartTime.getD 0 > 1000 then gameOver s
    else checkGameFailureTail s
  else checkGameFailureTail { s with fallStartTime := none }

/-- The first part of the body of `updatePhysics`: the integration step and the
recording of the motion sample (at most 50 of them). -/
def integrateAndRecord (env : Env α) (s : GameState α) : GameState α :=
  let char := s.character
  let char1 : Character α :=
    { char with x := char.x + char.vx * s.gameSpeed, y := char.y + char.vy, vy := char.vy + 0.8 }
  let jumpData1 : JumpData α :=
    if s.jumpData.trajectory.length < 50 then
      { s.jumpData with
        trajectory := s.jumpData.trajectory ++
          [{ x := char1.x, y := char1.y, vx := char1.vx, vy := char1.vy,
             timestamp := env.now }] }
    else s.jumpData
  { s with character := char1, jumpData := jumpData1 }

/-- `updatePhysics()`: integration and recording, then the failure checks, then the guard
against a character at rest in the air. -/
def updatePhysics (env : Env α) (s : GameState α) : GameState α :=
  if s.character.isJumping then
    let s2 := checkGameFailureConditions env (integrateAndRecord env s)
    if s2.character.vx = 0 ∧ s2.character.vy = 0 ∧ s2.character.y < 400 then
      { s2 with character := { s2.character with vy := 0.1 } }
    else s2
  else s

/-- Step 2 of `checkCollisions`: keep a grounded character at its offset on the
platform it is attached to, and release it when it has left the platform. -/
def syncAttachment (s : GameState α) : GameState α :=
  match s.attachedPlatform with
  | none => s
  | some platform =>
    if s.character.isJumping then s
    else
      let char := s.character
      let targetX := platform.x + s.platformAttachmentOffset
      let deltaX := targetX - char.x
      let char1 : Character α := if |deltaX| > 2 then { char with x := targetX } else char
      if char1.x + char1.width < platform.x ∨ char1.x > platform.x + platform.width then
        { s with
          character := { char1 with isJumping := true }
          attachedPlatform := none
          platformAttachmentOffset := 0 }
      else { s with character := char1 }

/-- The `onGround` search of step 4 of `checkCollisions`. -/
def onGround (char : Character α) (platforms : List (Platform α)) : Bool :=
  platforms.any fun platform =>
    decide (char.y + char.height ≥ platform.y - 5) && decide (char.y + char.height ≤ platform.y + 5) &&
    decide (char.x + char.width > platform.x) && decide (char.x < platform.x + platform.width)

/-- Step 4 of `checkCollisions`: a character that is neither jumping nor standing on a
platform is put back into the jumping state. -/
def resetIfNotOnGround (s : GameState α) : GameState α :=
  if !s.character.isJumping ∧ s.character.y < 500 then
    if onGround s.character s.platforms then s
    else
      { s with
        character := { s.character with isJumping := true }
        attachedPlatform := none
        platformAttachmentOffset := 0 }
  else s

/-- The test a platform passes in the loop of `checkCollisions` for the character to land
on it: valid size, box collision, descending, bottom edge within `landingTolerance` of the
platform top, horizontal overlap. -/
def landingTest (char : Character α) (platform : Platform α) : Bool :=
  !(decide (platform.width = 0) || decide (platform.height = 0) ||
      decide (platform.width ≤ 0) || decide (platform.height ≤ 0)) &&
  isColliding char.rect platform.rect &&
  decide (char.vy > 0) &&
  (let charBottom := char.y + char.height
   let platformTop := platform.y
   let landingTolerance : α := 25
   decide (charBottom ≥ platformTop - landingTolerance) &&
   decide (charBottom ≤ platformTop + landingTolerance)) &&
  (let charLeft := char.x
   let charRight := char.x + char.width
   let platformLeft := platform.x
   let platformRight := platform.x + platform.width
   decide (charLeft < platformRight) && decide (charRight > platformLeft))

/-- The body of the loop of `checkCollisions` once a platform has passed the test: snap,
attach, record the landing, score. -/
def landOn (env : Env α) (platform : Platform α) (s : GameState α) : GameState α :=
  let char := s.character
  let platformTop := platform.y
  let char1 : Character α :=
    { char with y := platformTop - char.height, vx := 0, vy := 0, isJumping := false }
  let s1 : GameState α :=
    { s with
      character := char1
      attachedPlatform := some platform
      platformAttachmentOffset := char1.x - platform.x }
  let s2 := trackJumpLanding env platform s1
  let platformCenter := platform.x + platform.width / 2
  let charCenter := char1.x + char1.width / 2
  let distance := |platformCenter - charCenter|
  let isPerfect := decide (distance < 20)
  let s3 := if isPerfect then perfectLanding s2 else { s2 with combo := 1 }
  { s3 with score := s3.score + 10 * s3.combo }

/-- Steps 1 to 4 of `checkCollisions`. `Except.error` is an early `return` with the
state it leaves; `Except.ok` is the state with which the platform loop starts. -/
def checkCollisionsBeforeLoop (s : GameState α) : Except (GameState α) (GameState α) :=
  let hitsBottomLine : Bool :=
    match s.bottomCollisionLine with
    | some line => isColliding s.character.rect line
    | none => false
  if hitsBottomLine then Except.error (gameOver s)
  else
    let s2 := syncAttachment s
    if s2.character.isJumping ∧ s2.character.vy ≤ 0 then Except.error s2
    else Except.ok (resetIfNotOnGround s2)

/-- The platform on which `checkCollisions` lands the character, if it lands: the first
platform of the list that passes the test (the loop ends with `break` there). -/
def landingPlatform (s : GameState α) : Option (Platform α) :=
  match checkCollisionsBeforeLoop s with
  | Except.error _ => none
  | Except.ok s4 => s4.platforms.find? (landingTest s4.character)

/-- `checkCollisions()`. The closing call of `checkFallingThroughPlatforms` only computes
a boolean that is dropped. -/
def checkCollisions (env : Env α) (s : GameState α) : GameState α :=
  match checkCollisionsBeforeLoop s with
  | Except.error s1 => s1
  | Except.ok s4 =>
    match s4.platforms.find? (landingTest s4.character) with
    | some platform => landOn env platform s4
    | none => s4


/-! ## Concrete inputs -/

/-- A host with an 800 × 600 window. `sin` and `PI` are placeholders: no method evaluated
on this host reads them. -/
def sampleEnv : Env ℚ :=
  { innerWidth := 800, innerHeight := 600, now := 1000, sin := fun _ => 0, PI := 0 }

/-- The first platform of a session, as `generateInitialPlatforms` builds it. -/
def firstPlatform : Platform ℚ :=
  { x := 80, y := 320, width := 250, height := 20,
    speed := none, moveRange := none, originalX := none, id := 1 }

/-- A run in an 800 × 600 window with the first platform only and an airborne character of
the standard size 40 × 40 at `(x, y)` with vertical velocity `vy`. -/
def airborneAt (x y vy : ℚ) : GameState ℚ :=
  { score := 0, combo := 1, perfectCount := 0, maxCombo := 1,
    isPlaying := true, isCharging := false, power := 0,
    character := { x := x, y := y, width := 40, height := 40, vx := 5, vy := vy, isJumping := true },
    platforms := [firstPlatform],
    gameSpeed := 1, platformSpeed := 1 / 2, lastPlatformX := 330,
    jumpData :=
      { reactionTime := 0, positionDelta := 0, perfectStreak := 0, trajectory := [],
        landingVelocity := (0, 0), optimalTiming := 500, actualTiming := 0 },
    gameStartTime := 0, lastJumpTime := 0, fallStartTime := none,
    attachedPlatform := none, platformAttachmentOffset := 0,
    bottomCollisionLine := some { x := 0, y := 590, width := 800, height := 5 } }

/-- A grounded character standing on the first platform while the player charges a jump
with the given power; `attached` is the platform it is attached to, if any. -/
def chargingState (power : α) (attached : Option (Platform α)) : GameState α :=
  { score := 0, combo := 1, perfectCount := 0, maxCombo := 1,
    isPlaying := true, isCharging := true, power := power,
    character := { x := 140, y := 280, width := 40, height := 40, vx := 0, vy := 0, isJumping := false },
    platforms :=
      [{ x := 80, y := 320, width := 250, height := 20,
         speed := none, moveRange := none, originalX := none, id := 1 }],
    gameSpeed := 1, platformSpeed := 1 / 2, lastPlatformX := 330,
    jumpData :=
      { reactionTime := 0, positionDelta := 0, perfectStreak := 0, trajectory := [],
        landingVelocity := (0, 0), optimalTiming := 500, actualTiming := 0 },
    gameStartTime := 0, lastJumpTime := 0, fallStartTime := none,
    attachedPlatform := attached, platformAttachmentOffset := 60,
    bottomCollisionLine := some { x := 0, y := 590, width := 800, height := 5 } }

/-- An airborne, descending character in contact with the first platform, whose motion
trace already holds 50 samples: a fall that follows a release from a platform appends to
the trace of the jump before it, since only `jump` empties the trace. -/
def fullTraceState : GameState ℚ :=
  { airborneAt 140 290 3 with
    jumpData :=
      { (airborneAt 140 290 3).jumpData with
        trajectory :=
          List.replicate 50 { x := 140, y := 290, vx := 5, vy := 3, timestamp := 900 } } }

/-- A grounded character attached to the first platform with offset 60, standing 10
units to the right of its place on the platform, in an 800 × 600 window. -/
def groundedOffPlace : GameState ℚ :=
  { airborneAt 150 280 0 with
    character := { x := 150, y := 280, width := 40, height := 40, vx := 0, vy := 0, isJumping := false }
    attachedPlatform := some firstPlatform
    platformAttachmentOffset := 60 }

/-- The state `groundedOffPlace` in a window only 325 high: the bottom strip, created at
`y = 315`, crosses the character, which stands on the platform at `y = 320`. -/
def groundedOnStrip : GameState ℚ :=
  { groundedOffPlace with
    bottomCollisionLine := some { x := 0, y := 315, width := 800, height := 5 } }

/-! ## Platform generation and scrolling -/

/-- The values of `Math.random()` read by one call of `generatePlatform`, in reading
order: for the width, the distance, the height change, the push away from the edge of the
height range (read only when the clamped height is near it), the id, the choice of a
moving platform, its speed, its direction and its move range. Each lies in `[0, 1)`. -/
structure PlatformDraws (α : Type) where
  width : α
  distance : α
  heightChange : α
  edge : α
  id : α
  moving : α
  speed : α
  direction : α
  moveRange : α

/-- `generatePlatform()`. -/
def generatePlatform (env : Env α) (d : PlatformDraws α) (s : GameState α) : GameState α :=
  let screenWidth := env.innerWidth
  let minDistance : α := 100
  let maxDistance : α := 180
  let minHeight : α := 200
  let maxHeight : α := 400
  let platformWidth := max 50 (60 + d.width * 40)
  let platformHeight : α := 20
  let position : α × α :=
    match s.platforms.getLast? with
    | none => (max (screenWidth * 0.3) (s.lastPlatformX + minDistance), 300)
    | some lastPlatform =>
      let lastRight := lastPlatform.x + lastPlatform.width
      let distance := minDistance + d.distance * (maxDistance - minDistance)
      let lastY := lastPlatform.y
      let maxHeightChange : α := 80
      let heightChange := (d.heightChange - 0.5) * maxHeightChange * 2
      let clamped := max minHeight (min maxHeight (lastY + heightChange))
      let platformY :=
        if clamped < minHeight + 50 then minHeight + 50 + d.edge * 50
        else if clamped > maxHeight - 50 then maxHeight - 50 - d.edge * 50
        else clamped
      (lastRight + distance, platformY)
  let platformX := max (screenWidth * 0.5) position.1
  let platform : Platform α :=
    { x := platformX
      y := position.2
      width := platformWidth
      height := platformHeight
      id := env.now + d.id
      speed := some (if d.moving > 0.7 then (d.speed - 0.5) * 2 else 0)
      moveRange := some (50 + d.moveRange * 100)
      originalX := some platformX }
  { s with platforms := s.platforms ++ [platform], lastPlatformX := platform.x }

/-- `generateInitialPlatforms()`: the fixed first platform (its id from the draws
`draws 0`), the character placed on it, the second platform at a bounded offset (its
height, its width and its id from the draws `draws 1`, each call of `Math.random()` being
a draw of its own), then three calls of `generatePlatform` with the draws `draws 2`,
`draws 3`, `draws 4`. -/
def generateInitialPlatforms (env : Env α) (draws : ℕ → PlatformDraws α) (s : GameState α) :
    GameState α :=
  let firstPlatform : Platform α :=
    { x := 80, y := 320, width := 250, height := 20, id := env.now + (draws 0).id,
      speed := none, moveRange := none, originalX := none }
  let secondPlatform : Platform α :=
    { x := firstPlatform.x + firstPlatform.width + 120
      y := 280 + (draws 1).heightChange * 60
      width := 80 + (draws 1).width * 40
      height := 20
      id := env.now + (draws 1).id + 1
      speed := none, moveRange := none, originalX := none }
  let s2 : GameState α :=
    { s with
      platforms := [firstPlatform, secondPlatform]
      lastPlatformX := secondPlatform.x + secondPlatform.width
      character :=
        { s.character with x := firstPlatform.x + 60, y := firstPlatform.y - s.character.height } }
  generatePlatform env (draws 4) (generatePlatform env (draws 3) (generatePlatform env (draws 2) s2))

/-- The value of `rightmostX` in `ensurePlatformsContinuity`: 0 for an empty list, otherwise
`Math.max(...platforms.map(p => p.x + p.width))`. -/
def rightmostX (platforms : List (Platform α)) : α :=
  match platforms.map fun p => p.x + p.width with
  | [] => 0
  | edge :: edges => edges.foldl max edge

/-- The first loop of `ensurePlatformsContinuity`: generate while the right of the screen
is not covered and fewer than 8 platforms exist. `k` counts the calls of
`generatePlatform` made so far, the next one reads the draws `draws k`. -/
def coverageLoop (env : Env α) (draws : ℕ → PlatformDraws α) (k : ℕ) (s : GameState α) :
    GameState α × ℕ :=
  if rightmostX s.platforms < env.innerWidth + 200 ∧ s.platforms.length < 8 then
    coverageLoop env draws (k + 1) (generatePlatform env (draws k) s)
  else (s, k)
termination_by 8 - s.platforms.length
decreasing_by
  simp only [generatePlatform, List.length_append, List.length_singleton]
  omega

/-- The second loop of `ensurePlatformsContinuity`: generate while fewer than 4 platforms
exist. -/
def minimumLoop (env : Env α) (draws : ℕ → PlatformDraws α) (k : ℕ) (s : GameState α) :
    GameState α × ℕ :=
  if s.platforms.length < 4 then
    minimumLoop env draws (k + 1) (generatePlatform env (draws k) s)
  else (s, k)
termination_by 4 - s.platforms.length
decreasing_by
  simp only [generatePlatform, List.length_append, List.length_singleton]
  omega

/-- `ensurePlatformsContinuity()`. -/
def ensurePlatformsContinuity (env : Env α) (draws : ℕ → PlatformDraws α) (s : GameState α) :
    GameState α :=
  let r := coverageLoop env draws 0 s
  (minimumLoop env draws r.2 r.1).1

/-- The body of the first loop of `updatePlatforms` for one platform: scroll to the left,
then, for a moving platform, take the oscillating position when it is in range. A platform
without `speed` (`undefined !== 0` holds) computes `NaN`, which fails both comparisons. -/
def movePlatform (env : Env α) (s : GameState α) (platform : Platform α) : Platform α :=
  let scrolled : Platform α := { platform with x := platform.x - s.platformSpeed * s.gameSpeed }
  match platform.speed, platform.moveRange, platform.originalX with
  | some speed, some moveRange, some originalX =>
    if speed ≠ 0 then
      let currentTime := env.now
      let moveOffset := env.sin (currentTime * 0.001 * speed) * moveRange
      let newX := originalX + moveOffset
      if newX > -scrolled.width ∧ newX < env.innerWidth + 200 then { scrolled with x := newX }
      else scrolled
    else scrolled
  | _, _, _ => scrolled

/-- `updatePlatforms()`: move, refresh the bottom strip, drop the platforms that have left
the screen, restore the coverage, ramp the speeds. The platform the character is attached
to is the same object as the one in the list, so it moves with it. -/
def updatePlatforms (env : Env α) (draws : ℕ → PlatformDraws α) (s : GameState α) :
    GameState α :=
  let s1 : GameState α :=
    { s with
      platforms := (s.platforms.map (movePlatform env s)).filter fun platform =>
        decide (platform.x + platform.width > -100)
      attachedPlatform := s.attachedPlatform.map fun platform =>
        if platform ∈ s.platforms then movePlatform env s platform else platform
      bottomCollisionLine := s.bottomCollisionLine.map fun line =>
        { line with x := 0, width := env.innerWidth } }
  let s2 := ensurePlatformsContinuity env draws s1
  if s2.score > 0 ∧ s2.score % 100 = 0 then
    { s2 with gameSpeed := s2.gameSpeed + 0.1, platformSpeed := s2.platformSpeed + 0.05 }
  else s2

/-- A run of `updatePlatforms` ticks, each with its own host readings and draws. -/
def updatePlatformsTicks (ticks : List (Env α × (ℕ → PlatformDraws α))) (s : GameState α) :
    GameState α :=
  ticks.foldl (fun t tick => updatePlatforms tick.1 tick.2 t) s

/-! ## Trajectory prediction -/

/-- `Math.cos` and `Math.sqrt`, read by the predictor and by the judge. -/
structure JsMath (α : Type) where
  cos : α → α
  sqrt : α → α

/-- The record returned by `predictLandingPosition`. -/
structure LandingPrediction (α : Type) where
  x : α
  y : α
  time : α
  velocity : α × α
  distance : α

/-- `predictLandingPosition(power)`; `power = none` is the default argument `null`. -/
def predictLandingPosition (env : Env α) (m : JsMath α) (power : Option α) (s : GameState α) :
    LandingPrediction α :=
  let currentPower := power.getD s.power
  let powerRatio := currentPower / 100
  let startX := s.character.x + s.character.width / 2
  let startY := s.character.y
  let gravity : α := 0.8
  let baseVelocity : α := 8
  let maxVelocity : α := 20
  let initialVelocity := baseVelocity + (maxVelocity - baseVelocity) * powerRatio
  let angle := -env.PI / 4
  let vx := initialVelocity * m.cos angle
  let vy := initialVelocity * env.sin angle
  let flightTime := (-2 * vy) / gravity
  let landingX := startX + vx * flightTime
  let landingY := startY + vy * flightTime + 0.5 * gravity * flightTime * flightTime
  { x := landingX, y := landingY, time := flightTime, velocity := (vx, vy),
    distance := vx * flightTime }

/-- The launch velocity in the words of the specification (4.1, 4.4): with `r = p / 100`,
`vx = (50 + 200 r) / 20` and `vy = −15 sin(π r)`. -/
def specLaunchVelocity (env : Env α) (p : α) : α × α :=
  ((50 + 200 * (p / 100)) / 20, -15 * env.sin (env.PI * (p / 100)))

/-- The labels of `calculateLandingQuality`. -/
inductive LandingLabel where
  | perfect
  | excellent
  | good
  | ok
  | miss
  deriving DecidableEq

/-- The record returned by `calculateLandingQuality`. -/
structure LandingQuality (α : Type) where
  quality : LandingLabel
  score : α
  accuracy : α

/-- `calculateLandingQuality(accuracy, landingVelocity)`. -/
def calculateLandingQuality (accuracy : α) (landingVelocity : α × α) : LandingQuality α :=
  let band : LandingLabel × α :=
    if accuracy ≥ 0.9 then (LandingLabel.perfect, 100)
    else if accuracy ≥ 0.7 then (LandingLabel.excellent, 70)
    else if accuracy ≥ 0.5 then (LandingLabel.good, 40)
    else if accuracy ≥ 0.3 then (LandingLabel.ok, 20)
    else (LandingLabel.miss, 0)
  let speedPenalty := |landingVelocity.2| * 2
  { quality := band.1, score := max 0 (band.2 - speedPenalty), accuracy := accuracy }

/-! ## Precision judgment and anti-cheat (`src/precision-judgment-system.js`)

A number that may be `NaN` is an `Option α`, `none` being `NaN`; a field that may be
absent is an `Option` too, `none` being `undefined`. -/

/-- A trajectory entry as `calculateAcceleration` reads it: the fields `time`, `vx` and
`vy`. -/
structure TrajectoryPoint (α : Type) where
  time : Option α
  vx : Option α
  vy : Option α

/-- What the judge reads in a sample recorded by the game (`updatePhysics`,
`trackJumpLanding`): the game stores the clock reading in the field `timestamp`, so the
field `time` is absent. -/
def MotionSample.toTrajectoryPoint (sample : MotionSample α) : TrajectoryPoint α :=
  { time := none, vx := some sample.vx, vy := some sample.vy }

/-- The `jumpData` object handed to `processGameScore`, `detectCheating` and
`multiDimensionalJudgment`; `playerPosition` and `targetPosition` are pairs `(x, y)`. -/
structure SubmittedJumpData (α : Type) where
  reactionTime : α
  positionDelta : α
  perfectStreak : ℤ
  trajectory : List (TrajectoryPoint α)
  landingVelocity : Option (α × α)
  landingAngle : Option α
  optimalTiming : α
  actualTiming : α
  playerPosition : α × α
  targetPosition : α × α

/-- The labels of `makeJudgment`. -/
inductive JudgmentLabel where
  | perfect
  | excellent
  | good
  | acceptable
  | miss
  deriving DecidableEq

/-- The object returned by `getPlayerSkill`; only `level` is read by the judge. -/
structure PlayerSkill (α : Type) where
  level : Option α
  gamesPlayed : α
  avgScore : α

/-- The record `judgmentThresholds` and the result of `getDynamicThresholds`. -/
structure JudgmentThresholds (α : Type) where
  perfect : α
  excellent : α
  good : α
  acceptable : α

/-- The field `dimensions` of a judgment. -/
structure JudgmentDimensions (α : Type) where
  positionAccuracy : α
  timingPrecision : α
  trajectorySmoothness : Option α
  landingStability : α

/-- The record returned by `multiDimensionalJudgment`. -/
structure JudgmentResult (α : Type) where
  compositeScore : Option α
  dimensions : JudgmentDimensions α
  judgment : JudgmentLabel
  confidence : Option α

/-- `calculatePositionAccuracy(playerPos, targetPos)`. -/
def calculatePositionAccuracy (m : JsMath α) (playerPos targetPos : α × α) : α :=
  let distance := m.sqrt ((playerPos.1 - targetPos.1) ^ 2 + (playerPos.2 - targetPos.2) ^ 2)
  let maxDistance : α := 50
  let accuracy := max 0 (1 - distance / maxDistance)
  min 1 accuracy

/-- `calculateTimingPrecision(jumpData)`. -/
def calculateTimingPrecision (jumpData : SubmittedJumpData α) : α :=
  let timingDiff := |jumpData.actualTiming - jumpData.optimalTiming|
  let maxTimingDiff : α := 200
  let precision := max 0 (1 - timingDiff / maxTimingDiff)
  min 1 precision

/-- `calculateAcceleration(pos1, pos2)`. With an absent `time` the difference `dt` is
`NaN`, the test `dt === 0` fails and the quotient is `NaN`. -/
def calculateAcceleration (m : JsMath α) (pos1 pos2 : TrajectoryPoint α) : Option α :=
  match pos2.time, pos1.time with
  | some time2, some time1 =>
    let dt := time2 - time1
    if dt = 0 then some 0
    else
      let dvx := pos2.vx.getD 0 - pos1.vx.getD 0
      let dvy := pos2.vy.getD 0 - pos1.vy.getD 0
      some (m.sqrt (dvx * dvx + dvy * dvy) / dt)
  | _, _ => none

/-- The summands of the loop of `calculateTrajectorySmoothness`, one for each triplet of
consecutive entries: `Math.max(0, 1 - jerk / 100)`, which is `NaN` when the jerk is. -/
def smoothnessTerms (m : JsMath α) : List (TrajectoryPoint α) → List (Option α)
  | pos0 :: pos1 :: pos2 :: rest =>
    (do
      let accel1 ← calculateAcceleration m pos0 pos1
      let accel2 ← calculateAcceleration m pos1 pos2
      let jerk := |accel2 - accel1|
      pure (max 0 (1 - jerk / 100))) :: smoothnessTerms m (pos1 :: pos2 :: rest)
  | _ => []

/-- `calculateTrajectorySmoothness(jumpData)`. -/
def calculateTrajectorySmoothness (m : JsMath α) (jumpData : SubmittedJumpData α) : Option α :=
  let trajectory := jumpData.trajectory
  if trajectory.length < 3 then some 0.5
  else
    let totalSmoothness : Option α :=
      (smoothnessTerms m trajectory).foldl
        (fun total term => do
          let t ← total
          let x ← term
          pure (t + x))
        (some 0)
    totalSmoothness.map fun total => total / ((trajectory.length : α) - 2)

/-- `calculateLandingStability(jumpData)`. -/
def calculateLandingStability (m : JsMath α) (jumpData : SubmittedJumpData α) : α :=
  let landingVelocity := jumpData.landingVelocity.getD (0, 0)
  let landingAngle := jumpData.landingAngle.getD 0
  let velocityMagnitude :=
    m.sqrt (landingVelocity.1 * landingVelocity.1 + landingVelocity.2 * landingVelocity.2)
  let velocityStability := max 0 (1 - velocityMagnitude / 200)
  let angleStability := max 0 (1 - |landingAngle| / 45)
  velocityStability * 0.7 + angleStability * 0.3

/-- `getDynamicThresholds(playerSkill)`; `playerSkill.level || 1` is 1 for an absent level
and for level 0. -/
def getDynamicThresholds (playerSkill : PlayerSkill α) : JudgmentThresholds α :=
  let skillLevel : α :=
    match playerSkill.level with
    | some level => if level = 0 then 1 else level
    | none => 1
  let skillMultiplier := max 0.8 (1 - (skillLevel - 1) * 0.05)
  { perfect := 5 * skillMultiplier
    excellent := 10 * skillMultiplier
    good := 15 * skillMultiplier
    acceptable := 20 * skillMultiplier }

/-- `makeJudgment(compositeScore, thresholds)`; every comparison with `NaN` fails. -/
def makeJudgment (compositeScore : Option α) (_thresholds : JudgmentThresholds α) :
    JudgmentLabel :=
  match compositeScore with
  | some score =>
    if score ≥ 0.95 then JudgmentLabel.perfect
    else if score ≥ 0.9 then JudgmentLabel.excellent
    else if score ≥ 0.8 then JudgmentLabel.good
    else if score ≥ 0.7 then JudgmentLabel.acceptable
    else JudgmentLabel.miss
  | none => JudgmentLabel.miss

/-- `calculateConfidence(compositeScore, judgment)`. -/
def calculateConfidence (compositeScore : Option α) (judgment : JudgmentLabel) : Option α :=
  let baseConfidence : α :=
    match judgment with
    | JudgmentLabel.perfect => 0.95
    | JudgmentLabel.excellent => 0.9
    | JudgmentLabel.good => 0.8
    | JudgmentLabel.acceptable => 0.7
    | JudgmentLabel.miss => 0.3
  compositeScore.map fun score => max 0.1 (1 - |score - baseConfidence|)

/-- `multiDimensionalJudgment(playerPosition, targetPosition, jumpData, playerSkill)`. -/
def multiDimensionalJudgment (m : JsMath α) (playerPosition targetPosition : α × α)
    (jumpData : SubmittedJumpData α) (playerSkill : PlayerSkill α) : JudgmentResult α :=
  let positionAccuracy := calculatePositionAccuracy m playerPosition targetPosition
  let timingPrecision := calculateTimingPrecision jumpData
  let trajectorySmoothness := calculateTrajectorySmoothness m jumpData
  let landingStability := calculateLandingStability m jumpData
  let compositeScore : Option α :=
    trajectorySmoothness.map fun smoothness =>
      positionAccuracy * 0.4 + timingPrecision * 0.3 + smoothness * 0.2 + landingStability * 0.1
  let adjustedThresholds := getDynamicThresholds playerSkill
  let judgment := makeJudgment compositeScore adjustedThresholds
  { compositeScore := compositeScore
    dimensions :=
      { positionAccuracy := positionAccuracy
        timingPrecision := timingPrecision
        trajectorySmoothness := trajectorySmoothness
        landingStability := landingStability }
    judgment := judgment
    confidence := calculateConfidence compositeScore judgment }

/-- The acceleration between two recorded samples in the words of the specification:
the velocity change divided by the time elapsed between the two samples (0 when no time
has elapsed, division by zero being 0). -/
def specAcceleration (m : JsMath α) (sample1 sample2 : MotionSample α) : α :=
  m.sqrt ((sample2.vx - sample1.vx) ^ 2 + (sample2.vy - sample1.vy) ^ 2) /
    (sample2.timestamp - sample1.timestamp)

/-- The values `clamp(1 − jerk / 100, 0, 1)` of the consecutive triplets of a recorded
trajectory, the jerk being the absolute difference of the two successive accelerations. -/
def specJerkScores (m : JsMath α) : List (MotionSample α) → List α
  | sample0 :: sample1 :: sample2 :: rest =>
    min 1 (max 0 (1 - |specAcceleration m sample1 sample2 -
      specAcceleration m sample0 sample1| / 100)) ::
      specJerkScores m (sample1 :: sample2 :: rest)
  | _ => []

/-- The trajectory smoothness in the words of the specification (4.5), on the samples the
game records: the mean of `specJerkScores`, and 0.5 for fewer than 3 samples. -/
def specTrajectorySmoothness (m : JsMath α) (trajectory : List (MotionSample α)) : α :=
  if trajectory.length < 3 then 0.5
  else (specJerkScores m trajectory).sum / ((specJerkScores m trajectory).length : α)

/-- The `jumpData` object that `gameOver` builds from the game state and hands to
`processGameScore`: the trajectory is the list of recorded samples itself, the streak is
`perfectCount`, the target is `getLastPlatformPosition()`. The landing angle is
`Math.atan2(vy, vx)` taken by `trackJumpLanding` after both velocities were set to 0,
that is 0. -/
def submittedJumpData (s : GameState α) : SubmittedJumpData α :=
  { reactionTime := s.jumpData.reactionTime
    positionDelta := s.jumpData.positionDelta
    perfectStreak := s.perfectCount
    trajectory := s.jumpData.trajectory.map MotionSample.toTrajectoryPoint
    landingVelocity := some s.jumpData.landingVelocity
    landingAngle := some 0
    optimalTiming := s.jumpData.optimalTiming
    actualTiming := s.jumpData.actualTiming
    playerPosition := (s.character.x, s.character.y)
    targetPosition :=
      match s.platforms.getLast? with
      | none => (0, 0)
      | some lastPlatform => (lastPlatform.x + lastPlatform.width / 2, lastPlatform.y) }

/-- The severity of a violation: the strings `'high'` and `'medium'`, or any other. -/
inductive Severity where
  | high
  | medium
  | other
  deriving DecidableEq

/-- The four kinds of violation that `detectCheating` reports. -/
inductive ViolationType where
  | impossible_score
  | speed_hack
  | position_teleport
  | perfect_streak
  deriving DecidableEq

/-- The four risk levels. -/
inductive RiskLevel where
  | low
  | medium
  | high
  | critical
  deriving DecidableEq

/-- A violation record; the text field `details` is left out. -/
structure Violation (α : Type) where
  type : ViolationType
  severity : Severity
  timestamp : α

/-- An entry of `suspiciousScores`. -/
structure SuspiciousRecord (α : Type) where
  score : α
  violations : List (Violation α)
  timestamp : α

/-- An entry of `playerBehaviorBaseline`. -/
structure BehaviorBaseline (α : Type) where
  gamesPlayed : ℕ
  avgScore : α
  avgReactionTime : α
  scoreVariance : α
  lastUpdate : α

/-- The mutable fields of `AntiCheatSystem`; a `Map` keyed by player id is a function
from ids (taken in `ℕ`) to optional entries. The thresholds of `cheatingPatterns` are
constants, written where they are read. -/
structure AntiCheatSystem (α : Type) where
  suspiciousScores : ℕ → Option (List (SuspiciousRecord α))
  playerBehaviorBaseline : ℕ → Option (BehaviorBaseline α)

/-- The record returned by `detectCheating`. -/
structure DetectionResult (α : Type) where
  isCheating : Bool
  violations : List (Violation α)
  riskLevel : RiskLevel

/-- `calculateRiskLevel(violations)`. -/
def calculateRiskLevel (violations : List (Violation α)) : RiskLevel :=
  if violations.length = 0 then RiskLevel.low
  else
    let highSeverityCount := (violations.filter fun v => v.severity = Severity.high).length
    let mediumSeverityCount := (violations.filter fun v => v.severity = Severity.medium).length
    if highSeverityCount ≥ 2 ∨ (highSeverityCount ≥ 1 ∧ mediumSeverityCount ≥ 2) then
      RiskLevel.critical
    else if highSeverityCount ≥ 1 ∨ mediumSeverityCount ≥ 3 then RiskLevel.high
    else if mediumSeverityCount ≥ 1 then RiskLevel.medium
    else RiskLevel.low

/-- `cleanupOldRecords(playerId)`: keep the records of the last 30 days. -/
def cleanupOldRecords (env : Env α) (playerId : ℕ) (sys : AntiCheatSystem α) :
    AntiCheatSystem α :=
  let thirtyDaysAgo := env.now - 30 * 24 * 60 * 60 * 1000
  let records := (sys.suspiciousScores playerId).getD []
  let filteredRecords := records.filter fun record => decide (record.timestamp > thirtyDaysAgo)
  if filteredRecords.length = 0 then
    { sys with suspiciousScores := Function.update sys.suspiciousScores playerId none }
  else
    { sys with
      suspiciousScores := Function.update sys.suspiciousScores playerId (some filteredRecords) }

/-- `recordSuspiciousBehavior(playerId, violations, score)`. -/
def recordSuspiciousBehavior (env : Env α) (playerId : ℕ) (violations : List (Violation α))
    (score : α) (sys : AntiCheatSystem α) : AntiCheatSystem α :=
  let records := (sys.suspiciousScores playerId).getD []
  let sys1 : AntiCheatSystem α :=
    { sys with
      suspiciousScores := Function.update sys.suspiciousScores playerId
        (some (records ++ [{ score := score, violations := violations, timestamp := env.now }])) }
  cleanupOldRecords env playerId sys1

/-- `detectCheating(playerId, score, jumpData)`: the four rules, each pushing its violation
when its condition holds, then the record of the suspicious behaviour; the result and the
system after the call. -/
def detectCheating (env : Env α) (playerId : ℕ) (score : α) (jumpData : SubmittedJumpData α)
    (sys : AntiCheatSystem α) : DetectionResult α × AntiCheatSystem α :=
  let currentTime := env.now
  let violations0 : List (Violation α) := []
  let violations1 :=
    if score > 10000 then
      violations0 ++ [{ type := ViolationType.impossible_score, severity := Severity.high,
                        timestamp := currentTime }]
    else violations0
  let violations2 :=
    if jumpData.reactionTime < 200 then
      violations1 ++ [{ type := ViolationType.speed_hack, severity := Severity.medium,
                        timestamp := currentTime }]
    else violations1
  let violations3 :=
    if jumpData.positionDelta > 100 then
      violations2 ++ [{ type := ViolationType.position_teleport, severity := Severity.high,
                        timestamp := currentTime }]
    else violations2
  let violations :=
    if jumpData.perfectStreak > 50 then
      violations3 ++ [{ type := ViolationType.perfect_streak, severity := Severity.medium,
                        timestamp := currentTime }]
    else violations3
  let sys1 :=
    if violations.length > 0 then recordSuspiciousBehavior env playerId violations score sys
    else sys
  ({ isCheating := decide (violations.length > 0)
     violations := violations
     riskLevel := calculateRiskLevel violations }, sys1)

/-! ## Concrete inputs for platforms, predictor and judge -/

/-- A host with a 1920 × 1080 window. -/
def wideEnv : Env ℚ :=
  { innerWidth := 1920, innerHeight := 1080, now := 1000, sin := fun _ => 0, PI := 0 }

/-- Draws that are all one half. -/
def halfDraws : PlatformDraws ℚ :=
  { width := 1 / 2, distance := 1 / 2, heightChange := 1 / 2, edge := 1 / 2, id := 1 / 2,
    moving := 1 / 2, speed := 1 / 2, direction := 1 / 2, moveRange := 1 / 2 }

/-- Three samples as `updatePhysics` records them in free flight, 16 ms apart: `vx` is
constant and `vy` grows by 0.8 a tick. -/
def recordedFlight : List (MotionSample α) :=
  [{ x := 150, y := 270, vx := 10, vy := -9.2, timestamp := 1000 },
   { x := 160, y := 260.8, vx := 10, vy := -8.4, timestamp := 1016 },
   { x := 170, y := 252.4, vx := 10, vy := -7.6, timestamp := 1032 }]

/-- A submitted `jumpData` with numeric fields and a trajectory whose entries carry the
field `time`. -/
def timedJumpData : SubmittedJumpData α :=
  { reactionTime := 350, positionDelta := 12, perfectStreak := 3
    trajectory :=
      [{ time := some 1000, vx := some 10, vy := some (-9.2) },
       { time := some 1016, vx := some 10, vy := some (-8.4) },
       { time := some 1032, vx := some 10, vy := some (-7.6) }]
    landingVelocity := some (0, 0), landingAngle := some 0
    optimalTiming := 500, actualTiming := 480
    playerPosition := (150, 280), targetPosition := (153, 284) }

/-- A game state at the end of a run whose motion trace is `recordedFlight`. -/
def flightRecordedState : GameState α :=
  { (chargingState 0 none : GameState α) with
    isCharging := false
    jumpData :=
      { reactionTime := 350, positionDelta := 12, perfectStreak := 0,
        trajectory := recordedFlight,
        landingVelocity := (0, 0), optimalTiming := 500, actualTiming := 480 } }

/-! ## The platform loop and the hit forecast -/

/-- The platform loop of `checkCollisions`, statement by statement: `continue` on a
platform without a valid size, the nested tests, and `break` after the landing. Nothing
is written before the landing, so the state is handed on unchanged. -/
def platformLoop (env : Env α) : List (Platform α) → GameState α → GameState α
  | [], s => s
  | platform :: rest, s =>
    if platform.width = 0 ∨ platform.height = 0 ∨ platform.width ≤ 0 ∨ platform.height ≤ 0 then
      platformLoop env rest s
    else if isColliding s.character.rect platform.rect then
      if s.character.vy > 0 then
        let charBottom := s.character.y + s.character.height
        let platformTop := platform.y
        let landingTolerance : α := 25
        if charBottom ≥ platformTop - landingTolerance ∧
            charBottom ≤ platformTop + landingTolerance then
          let charLeft := s.character.x
          let charRight := s.character.x + s.character.width
          let platformLeft := platform.x
          let platformRight := platform.x + platform.width
          let hasHorizontalOverlap : Bool :=
            decide (charLeft < platformRight) && decide (charRight > platformLeft)
          if hasHorizontalOverlap then landOn env platform s
          else platformLoop env rest s
        else platformLoop env rest s
      else platformLoop env rest s
    else platformLoop env rest s

/-- The record returned by `predictPlatformCollision`; the fields after `landing` are
absent when `willHit` is false. -/
structure CollisionPrediction (α : Type) where
  willHit : Bool
  landing : LandingPrediction α
  platform : Option (Platform α)
  accuracy : Option α
  landingQuality : Option (LandingQuality α)

/-- The body of the `forEach` of `predictPlatformCollision`: the pair is
`(targetPlatform, minDistance)`, with `none` for `null` and for `Infinity`. -/
def nearestPlatformStep (landing : LandingPrediction α)
    (best : Option (Platform α) × Option α) (platform : Platform α) :
    Option (Platform α) × Option α :=
  let platformCenter := platform.x + platform.width / 2
  let distance := |landing.x - platformCenter|
  let closer : Bool :=
    match best.2 with
    | none => true
    | some minDistance => decide (distance < minDistance)
  if closer ∧ landing.y ≥ platform.y - 10 ∧ landing.y ≤ platform.y + 20 then
    (some platform, some distance)
  else best

/-- `predictPlatformCollision(power)`. For a platform of width 0 the quotient in
`accuracy` is not a number in JavaScript; no statement below reads `accuracy` or
`landingQuality`. -/
def predictPlatformCollision (env : Env α) (m : JsMath α) (power : Option α)
    (s : GameState α) : CollisionPrediction α :=
  let landing := predictLandingPosition env m power s
  let best := s.platforms.foldl (nearestPlatformStep landing) (none, none)
  match best.1 with
  | none =>
    { willHit := false, landing := landing, platform := none, accuracy := none,
      landingQuality := none }
  | some targetPlatform =>
    let platformCenter := targetPlatform.x + targetPlatform.width / 2
    let accuracy := 1 - |landing.x - platformCenter| / (targetPlatform.width / 2)
    { willHit := true
      landing := landing
      platform := some targetPlatform
      accuracy := some (max 0 accuracy)
      landingQuality := some (calculateLandingQuality accuracy landing.velocity) }

/-! ## Behaviour baseline and score validation -/

/-- The fields of `gameSession` that `updateBehaviorBaseline` reads. -/
structure GameSession (α : Type) where
  score : α
  avgReactionTime : α

/-- The baseline with which `updateBehaviorBaseline` starts for a player without entry. -/
def BehaviorBaseline.initial : BehaviorBaseline α :=
  { gamesPlayed := 0, avgScore := 0, avgReactionTime := 0, scoreVariance := 0, lastUpdate := 0 }

/-- `updateBehaviorBaseline(playerId, gameSession)`. -/
def updateBehaviorBaseline (env : Env α) (m : JsMath α) (playerId : ℕ)
    (gameSession : GameSession α) (sys : AntiCheatSystem α) : AntiCheatSystem α :=
  let baseline : BehaviorBaseline α :=
    (sys.playerBehaviorBaseline playerId).getD BehaviorBaseline.initial
  let gamesPlayed := baseline.gamesPlayed + 1
  let avgScore :=
    (baseline.avgScore * ((gamesPlayed : α) - 1) + gameSession.score) / (gamesPlayed : α)
  let avgReactionTime :=
    (baseline.avgReactionTime * ((gamesPlayed : α) - 1) + gameSession.avgReactionTime) /
      (gamesPlayed : α)
  let scoreDiff := gameSession.score - avgScore
  let scoreVariance :=
    m.sqrt ((baseline.scoreVariance * ((gamesPlayed : α) - 1) + scoreDiff * scoreDiff) /
      (gamesPlayed : α))
  { sys with
    playerBehaviorBaseline := Function.update sys.playerBehaviorBaseline playerId
      (some { gamesPlayed := gamesPlayed, avgScore := avgScore
              avgReactionTime := avgReactionTime, scoreVariance := scoreVariance
              lastUpdate := env.now }) }

/-- A run of `updateBehaviorBaseline` calls for one player, each with its own clock
reading. -/
def updateBehaviorBaselineRun (m : JsMath α) (playerId : ℕ)
    (sessions : List (Env α × GameSession α)) (sys : AntiCheatSystem α) : AntiCheatSystem α :=
  sessions.foldl (fun t session => updateBehaviorBaseline session.1 m playerId session.2 t) sys

/-- The arithmetic mean of a history of scores, by a direct pass, as the specification
words it. -/
def specMean (scores : List α) : α :=
  scores.sum / (scores.length : α)

/-- The variance of a history of scores by a direct pass, as the specification words it:
the mean of the squared deviations from `specMean`. -/
def specVariance (scores : List α) : α :=
  (scores.map fun score => (score - specMean scores) ^ 2).sum / (scores.length : α)

/-- The strings returned in the field `reason` by `validateScoreReasonableness`. -/
inductive ValidationReason where
  | insufficient_data
  | score_too_high
  | within_reasonable_range
  deriving DecidableEq

/-- The record returned by `validateScoreReasonableness`; the text field `details` is left
out. -/
structure ScoreValidation where
  isValid : Bool
  reason : ValidationReason
  deriving DecidableEq

/-- `validateScoreReasonableness(playerId, score)`. -/
def validateScoreReasonableness (playerId : ℕ) (score : α) (sys : AntiCheatSystem α) :
    ScoreValidation :=
  match sys.playerBehaviorBaseline playerId with
  | none => { isValid := true, reason := ValidationReason.insufficient_data }
  | some baseline =>
    if baseline.gamesPlayed < 5 then
      { isValid := true, reason := ValidationReason.insufficient_data }
    else
      let reasonableMax := baseline.avgScore + 3 * baseline.scoreVariance
      if score > reasonableMax then
        { isValid := false, reason := ValidationReason.score_too_high }
      else { isValid := true, reason := ValidationReason.within_reasonable_range }

/-! ## The ranking list (`updateRanking` of `src/script.js`) -/

/-- An entry of the ranking; `date` is the ISO text of the clock reading. -/
structure RankingEntry where
  name : String
  score : ℤ
  date : String
  deriving DecidableEq

/-- `ranking.sort((a, b) => b.score - a.score)`: a stable sort by descending score (an
entry is inserted before the first entry of the sorted rest whose score is not greater,
so entries of equal score keep their order). -/
def sortByScoreDescending (ranking : List RankingEntry) : List RankingEntry :=
  ranking.insertionSort fun a b => a.score ≥ b.score

/-- The order of the ranking is total. -/
instance rankingOrder_isTotal : IsTotal RankingEntry fun a b => a.score ≥ b.score :=
  ⟨fun a b => le_total b.score a.score⟩

/-- The order of the ranking is transitive. -/
instance rankingOrder_isTrans : IsTrans RankingEntry fun a b => a.score ≥ b.score :=
  ⟨fun _ _ _ hab hbc => le_trans hbc hab⟩

/-- The name under which a score is ranked: the stored nickname, or the default when it
is absent or empty. -/
def nicknameOrDefault (stored : Option String) : String :=
  match stored with
  | some name => if name = "" then "匿名玩家" else name
  | none => "匿名玩家"

/-- `getRankingData()` of the game: the parsed list stored under `jumpGameRanking`, or
the empty list. -/
def getRankingData (saved : Option (List RankingEntry)) : List RankingEntry :=
  saved.getD []

/-- `updateRanking()` of the game: `storedName` and `saved` are what `localStorage` holds
under `jumpGamePlayerName` and `jumpGameRanking`, `date` is the text of the clock reading;
the result is the list written back under `jumpGameRanking`. The closing call of
`setPlayerNickname` writes another key and is not part of the result. -/
def updateRanking (storedName : Option String) (date : String) (s : GameState α)
    (saved : Option (List RankingEntry)) : List RankingEntry :=
  let playerName := nicknameOrDefault storedName
  let rankingData := getRankingData saved
  let rankingData1 :=
    match rankingData.findIdx? fun player => player.name = playerName with
    | some existingIndex =>
      match rankingData[existingIndex]? with
      | some existing =>
        if s.score > existing.score then
          rankingData.set existingIndex { existing with score := s.score, date := date }
        else rankingData
      | none => rankingData
    | none => rankingData ++ [{ name := playerName, score := s.score, date := date }]
  let rankingData2 := sortByScoreDescending rankingData1
  rankingData2.take 50

/-- The ranking invariant of the specification: sorted by descending score, at most 50
entries, at most one entry for each name. -/
def RankingInvariant (ranking : List RankingEntry) : Prop :=
  ranking.Sorted (fun a b => a.score ≥ b.score) ∧ ranking.length ≤ 50 ∧
    (ranking.map fun entry => entry.name).Nodup

/-! ## Dual backup storage -/

/-- The record that `saveScore` builds and `savePersonalBest` stores. -/
structure ScoreData (α : Type) where
  score : ℤ
  judgment : JudgmentResult α
  timestamp : α
  playerId : ℕ

/-- The keys under which `GameSystemIntegration` reads and writes the stores. -/
inductive StorageKey where
  | jumpGameRanking
  | jumpGamePlayerName
  | personal_best (playerId : ℕ)
  | games_played
  | avg_score
  deriving DecidableEq

/-- What the text stored under a key denotes, each key having the shape that its writer
gives it: the JSON of a ranking, the nickname itself, the JSON of a score record, the
decimal text of an integer. -/
@[reducible]
def StorageKey.Value (α : Type) : StorageKey → Type
  | StorageKey.jumpGameRanking => List RankingEntry
  | StorageKey.jumpGamePlayerName => String
  | StorageKey.personal_best _ => ScoreData α
  | StorageKey.games_played => ℤ
  | StorageKey.avg_score => ℤ

/-- The object `{ value, timestamp, version }` that `setItem` stores. -/
structure StoredRecord (V : Type) (α : Type) where
  value : V
  timestamp : α
  version : ℕ

/-- One of the two stores (`localStorage`, `sessionStorage` or a memory map): what it
holds under each key, and whether its `getItem` or its `setItem` throws. -/
structure BackingStore (α : Type) where
  items : (key : StorageKey) → Option (StoredRecord (key.Value α) α)
  getItemThrows : Bool
  setItemThrows : Bool

/-- The field `storageHealth`. -/
structure StorageHealth (α : Type) where
  primary : Bool
  backup : Bool
  lastCheck : α

/-- The fields of `DualBackupStorage`. -/
structure DualBackupStorage (α : Type) where
  primaryStorage : BackingStore α
  backupStorage : BackingStore α
  storageHealth : StorageHealth α

/-- The record returned by `resolveDataConflict`. -/
structure ConflictResolution (V : Type) (α : Type) where
  data : Option (StoredRecord V α)
  needsSync : Bool

/-- The record returned by `setItem`. -/
structure SetItemResult where
  success : Bool
  primarySuccess : Bool
  backupSuccess : Bool
  deriving DecidableEq

/-- `store.getItem(key)` followed by `JSON.parse`: `none` when the call throws. -/
def BackingStore.getItem (store : BackingStore α) (key : StorageKey) :
    Option (Option (StoredRecord (key.Value α) α)) :=
  if store.getItemThrows then none else some (store.items key)

/-- `store.setItem(key, JSON.stringify(data))`: `none` when the call throws. The text of
`null` reads back as no record. -/
def BackingStore.setItem (store : BackingStore α) (key : StorageKey)
    (data : Option (StoredRecord (key.Value α) α)) : Option (BackingStore α) :=
  if store.setItemThrows then none
  else some { store with items := Function.update store.items key data }

/-- `resolveDataConflict(primaryData, backupData)`. -/
def resolveDataConflict {V : Type} (primaryData backupData : Option (StoredRecord V α)) :
    ConflictResolution V α :=
  match primaryData, backupData with
  | none, none => { data := none, needsSync := false }
  | none, some backup => { data := some backup, needsSync := true }
  | some primary, none => { data := some primary, needsSync := true }
  | some primary, some backup =>
    if primary.timestamp ≥ backup.timestamp then
      { data := some primary, needsSync := decide (primary.timestamp > backup.timestamp) }
    else { data := some backup, needsSync := true }

/-- `syncData(key, data)`: both writes sit in one `try`, so a failing primary write skips
the backup write. -/
def syncData (key : StorageKey) (data : Option (StoredRecord (key.Value α) α))
    (d : DualBackupStorage α) : DualBackupStorage α :=
  match d.primaryStorage.setItem key data with
  | none => d
  | some primary =>
    match d.backupStorage.setItem key data with
    | none => { d with primaryStorage := primary }
    | some backup => { d with primaryStorage := primary, backupStorage := backup }

/-- `updateStorageHealth()`: each store is healthy when writing and removing the test key
succeeds; the test key is removed again, so the items are as before. -/
def updateStorageHealth (env : Env α) (d : DualBackupStorage α) : DualBackupStorage α :=
  { d with
    storageHealth :=
      { lastCheck := env.now
        primary := !d.primaryStorage.setItemThrows
        backup := !d.backupStorage.setItemThrows } }

/-- `setItem(key, value)` of `DualBackupStorage`. -/
def DualBackupStorage.setItem (env : Env α) (key : StorageKey) (value : key.Value α)
    (d : DualBackupStorage α) : SetItemResult × DualBackupStorage α :=
  let data : StoredRecord (key.Value α) α := { value := value, timestamp := env.now, version := 1 }
  let afterPrimary : Bool × DualBackupStorage α :=
    match d.primaryStorage.setItem key (some data) with
    | some primary => (true, { d with primaryStorage := primary })
    | none => (false, { d with storageHealth := { d.storageHealth with primary := false } })
  let primarySuccess := afterPrimary.1
  let d1 := afterPrimary.2
  let afterBackup : Bool × DualBackupStorage α :=
    match d1.backupStorage.setItem key (some data) with
    | some backup => (true, { d1 with backupStorage := backup })
    | none => (false, { d1 with storageHealth := { d1.storageHealth with backup := false } })
  let backupSuccess := afterBackup.1
  let d2 := afterBackup.2
  ({ success := primarySuccess || backupSuccess
     primarySuccess := primarySuccess
     backupSuccess := backupSuccess }, updateStorageHealth env d2)

/-- `getItem(key)` of `DualBackupStorage`: the value returned (`none` for `null`) and the
storage after the call. -/
def DualBackupStorage.getItem (key : StorageKey) (d : DualBackupStorage α) :
    Option (key.Value α) × DualBackupStorage α :=
  let afterPrimary : Option (StoredRecord (key.Value α) α) × DualBackupStorage α :=
    match d.primaryStorage.getItem key with
    | some primaryData => (primaryData, d)
    | none => (none, { d with storageHealth := { d.storageHealth with primary := false } })
  let primaryData := afterPrimary.1
  let d1 := afterPrimary.2
  let afterBackup : Option (StoredRecord (key.Value α) α) × DualBackupStorage α :=
    match d1.backupStorage.getItem key with
    | some backupData => (backupData, d1)
    | none => (none, { d1 with storageHealth := { d1.storageHealth with backup := false } })
  let backupData := afterBackup.1
  let d2 := afterBackup.2
  let result := resolveDataConflict primaryData backupData
  let d3 := if result.needsSync then syncData key result.data d2 else d2
  (result.data.map fun data => data.value, d3)

/-- Both stores work: no call of `getItem` or `setItem` throws. -/
def DualBackupStorage.working (d : DualBackupStorage α) : Prop :=
  d.primaryStorage.getItemThrows = false ∧ d.primaryStorage.setItemThrows = false ∧
  d.backupStorage.getItemThrows = false ∧ d.backupStorage.setItemThrows = false

/-- The record returned by `getStorageHealth`. -/
structure StorageHealthReport (α : Type) where
  primary : Bool
  backup : Bool
  lastCheck : α
  overallHealth : Bool

/-- `getStorageHealth()` of `DualBackupStorage`. -/
def DualBackupStorage.getStorageHealth (d : DualBackupStorage α) : StorageHealthReport α :=
  { primary := d.storageHealth.primary
    backup := d.storageHealth.backup
    lastCheck := d.storageHealth.lastCheck
    overallHealth := d.storageHealth.primary || d.storageHealth.backup }

/-! ## Score processing (`GameSystemIntegration`) -/

/-- The fields of `GameSystemIntegration` that score processing reads and writes. The
log of `GameLogger` is only written and is left out. -/
structure GameSystemIntegration (α : Type) where
  antiCheat : AntiCheatSystem α
  dualStorage : DualBackupStorage α
  playerId : ℕ

/-- `getPlayerNickname()`. -/
def getPlayerNickname (d : DualBackupStorage α) : String × DualBackupStorage α :=
  let read := d.getItem StorageKey.jumpGamePlayerName
  (nicknameOrDefault read.1, read.2)

/-- `getPlayerSkill()`; `parseInt` of the decimal text of an integer is that integer,
and an absent text is replaced by the text of 0. -/
def getPlayerSkill (d : DualBackupStorage α) : PlayerSkill α × DualBackupStorage α :=
  let readGames := d.getItem StorageKey.games_played
  let gamesPlayed : ℤ := (readGames.1 : Option ℤ).getD 0
  let readAvg := readGames.2.getItem StorageKey.avg_score
  let avgScore : ℤ := (readAvg.1 : Option ℤ).getD 0
  ({ level := some (((gamesPlayed / 10 + 1 : ℤ) : α))
     gamesPlayed := (gamesPlayed : α)
     avgScore := (avgScore : α) }, readAvg.2)

/-- The records returned by `saveToRanking` and `savePersonalBest`, as far as they are
read: `success`, and the ranking written. No statement of either `try` block throws on
a store of well-formed texts, so the `catch` branches are not taken. -/
structure SaveResult where
  success : Bool
  ranking : Option (List RankingEntry)
  deriving DecidableEq

/-- `saveToRanking(scoreData)`; `date` is the ISO text of the clock reading. -/
def saveToRanking (env : Env α) (date : String) (scoreData : ScoreData α)
    (d : DualBackupStorage α) : SaveResult × DualBackupStorage α :=
  let read := d.getItem StorageKey.jumpGameRanking
  let ranking : List RankingEntry := (read.1 : Option (List RankingEntry)).getD []
  let nickname := getPlayerNickname read.2
  let ranking1 := ranking ++ [{ name := nickname.1, score := scoreData.score, date := date }]
  let ranking2 := sortByScoreDescending ranking1
  let ranking3 := ranking2.take 50
  let written := nickname.2.setItem env StorageKey.jumpGameRanking ranking3
  ({ success := true, ranking := some ranking3 }, written.2)

/-- `getRankingData()` of `GameSystemIntegration`. -/
def GameSystemIntegration.getRankingData (d : DualBackupStorage α) :
    List RankingEntry × DualBackupStorage α :=
  let read := d.getItem StorageKey.jumpGameRanking
  ((read.1 : Option (List RankingEntry)).getD [], read.2)

/-- `savePersonalBest(scoreData)`; an absent record reads as `{"score": 0}`. -/
def savePersonalBest (env : Env α) (scoreData : ScoreData α) (d : DualBackupStorage α) :
    SaveResult × DualBackupStorage α :=
  let read := d.getItem (StorageKey.personal_best scoreData.playerId)
  let currentBestScore : ℤ :=
    match read.1 with
    | some currentBest => currentBest.score
    | none => 0
  if scoreData.score > currentBestScore then
    let written := read.2.setItem env (StorageKey.personal_best scoreData.playerId) scoreData
    ({ success := true, ranking := none }, written.2)
  else ({ success := true, ranking := none }, read.2)

/-- `saveScore(score, judgmentResult)`. -/
def saveScore (env : Env α) (date : String) (score : ℤ) (judgmentResult : JudgmentResult α)
    (g : GameSystemIntegration α) : SaveResult × GameSystemIntegration α :=
  let scoreData : ScoreData α :=
    { score := score, judgment := judgmentResult, timestamp := env.now, playerId := g.playerId }
  let rankingResult := saveToRanking env date scoreData g.dualStorage
  let personalBestResult := savePersonalBest env scoreData rankingResult.2
  ({ success := rankingResult.1.success && personalBestResult.1.success
     ranking := rankingResult.1.ranking },
   { g with dualStorage := personalBestResult.2 })

/-- The record returned by `performSecondaryValidation`. -/
structure SecondaryValidation (α : Type) where
  isValid : Bool
  baselineValidation : ScoreValidation
  riskLevel : RiskLevel
  timestamp : α

/-- `performSecondaryValidation(score, antiCheatResult)`; `later` is the host after the
delay of one second, whose clock stamps the result. -/
def performSecondaryValidation (later : Env α) (score : ℤ)
    (antiCheatResult : DetectionResult α) (g : GameSystemIntegration α) :
    SecondaryValidation α :=
  let baselineValidation := validateScoreReasonableness g.playerId (score : α) g.antiCheat
  let isValid :=
    baselineValidation.isValid && decide (antiCheatResult.riskLevel ≠ RiskLevel.critical)
  { isValid := isValid
    baselineValidation := baselineValidation
    riskLevel := antiCheatResult.riskLevel
    timestamp := later.now }

/-- The text of the field `warning`. -/
inductive ScoreWarning where
  | score_validated_but_monitored
  deriving DecidableEq

/-- The text of the field `error`. -/
inductive ScoreError where
  | score_rejected
  deriving DecidableEq

/-- The object returned by `processGameScore`; a field that a branch does not set is
`none`. -/
structure ProcessedScore (α : Type) where
  success : Bool
  score : ℤ
  warning : Option ScoreWarning
  error : Option ScoreError
  antiCheat : DetectionResult α
  validation : Option (SecondaryValidation α)
  judgment : Option (JudgmentResult α)
  storageHealth : Option (StorageHealthReport α)

/-- `handleSuspiciousScore(score, antiCheatResult)`. -/
def handleSuspiciousScore (later : Env α) (score : ℤ) (antiCheatResult : DetectionResult α)
    (g : GameSystemIntegration α) : ProcessedScore α :=
  let validationResult := performSecondaryValidation later score antiCheatResult g
  if validationResult.isValid then
    { success := true
      score := score
      warning := some ScoreWarning.score_validated_but_monitored
      error := none
      antiCheat := antiCheatResult
      validation := some validationResult
      judgment := none
      storageHealth := none }
  else
    { success := false
      score := score
      warning := none
      error := some ScoreError.score_rejected
      antiCheat := antiCheatResult
      validation := some validationResult
      judgment := none
      storageHealth := none }

/-- `processGameScore(score, jumpData)`: the result and the system after the call. `env`
is the host at the call, `later` the host after the delay of the secondary validation,
`date` the ISO text of the clock when the ranking entry is built. -/
def processGameScore (env later : Env α) (m : JsMath α) (date : String) (score : ℤ)
    (jumpData : SubmittedJumpData α) (g : GameSystemIntegration α) :
    ProcessedScore α × GameSystemIntegration α :=
  let detection := detectCheating env g.playerId (score : α) jumpData g.antiCheat
  let antiCheatResult := detection.1
  let g1 : GameSystemIntegration α := { g with antiCheat := detection.2 }
  if antiCheatResult.isCheating then
    (handleSuspiciousScore later score antiCheatResult g1, g1)
  else
    let skill := getPlayerSkill g1.dualStorage
    let judgmentResult :=
      multiDimensionalJudgment m jumpData.playerPosition jumpData.targetPosition jumpData skill.1
    let g2 : GameSystemIntegration α := { g1 with dualStorage := skill.2 }
    let saved := saveScore env date score judgmentResult g2
    ({ success := saved.1.success
       score := score
       warning := none
       error := none
       antiCheat := antiCheatResult
       validation := none
       judgment := some judgmentResult
       storageHealth := some saved.2.dualStorage.getStorageHealth }, saved.2)

/-! ## Concrete inputs for the ranking, the stores and the baseline -/

/-- A stored ranking of three players. -/
def sampleRanking : List RankingEntry :=
  [{ name := "Ann", score := 300, date := "2024-01-01" },
   { name := "Bob", score := 200, date := "2024-01-02" },
   { name := "Cy", score := 100, date := "2024-01-03" }]

/-- A score record with the judgment of a miss. -/
def sampleScoreData (score : ℤ) : ScoreData ℚ :=
  { score := score
    judgment :=
      { compositeScore := some (1 / 2)
        dimensions :=
          { positionAccuracy := 1 / 2, timingPrecision := 1 / 2
            trajectorySmoothness := some (1 / 2), landingStability := 1 / 2 }
        judgment := JudgmentLabel.miss
        confidence := some (4 / 5) }
    timestamp := 1000
    playerId := 7 }

/-- A store that holds nothing and never throws. -/
def emptyStore : BackingStore ℚ :=
  { items := fun _ => none, getItemThrows := false, setItemThrows := false }

/-- Two empty working stores. -/
def emptyStorage : DualBackupStorage ℚ :=
  { primaryStorage := emptyStore, backupStorage := emptyStore
    storageHealth := { primary := true, backup := true, lastCheck := 0 } }

/-- A store that holds one nickname record with timestamp 5. -/
def nicknameStore (name : String) : BackingStore ℚ :=
  { emptyStore with
    items := Function.update emptyStore.items StorageKey.jumpGamePlayerName
      (some { value := name, timestamp := 5, version := 1 }) }

/-- Two working stores that hold different nicknames under equal timestamps. -/
def tiedStorage : DualBackupStorage ℚ :=
  { primaryStorage := nicknameStore "Ann", backupStorage := nicknameStore "Bob"
    storageHealth := { primary := true, backup := true, lastCheck := 0 } }

/-- Placeholders for `Math.cos` and `Math.sqrt` on the rationals, for evaluations that do
not depend on them. -/
def sampleMath : JsMath ℚ :=
  { cos := fun _ => 1, sqrt := fun _ => 0 }

/-- An anti-cheat system without records and without baselines. -/
def freshAntiCheat {β : Type} : AntiCheatSystem β :=
  { suspiciousScores := fun _ => none, playerBehaviorBaseline := fun _ => none }

/-- A system of a player 7 without records, without baselines and with empty stores. -/
def freshSystem : GameSystemIntegration ℚ :=
  { antiCheat := freshAntiCheat, dualStorage := emptyStorage, playerId := 7 }

/-- A baseline of six games with mean score 100 and stored deviation 10. -/
def sixGamesBaseline : AntiCheatSystem ℚ :=
  { suspiciousScores := fun _ => none
    playerBehaviorBaseline := fun playerId =>
      if playerId = 7 then
        some { gamesPlayed := 6, avgScore := 100, avgReactionTime := 300, scoreVariance := 10,
               lastUpdate := 0 }
      else none }

/-- A descending character over three overlapping platforms: one without height, the
first platform, and a copy of it shifted to the right. -/
def overThreePlatforms : GameState ℚ :=
  { airborneAt 140 290 3 with
    platforms :=
      [{ firstPlatform with height := 0, id := 0 }, firstPlatform,
       { firstPlatform with x := 100, id := 2 }] }

/-! ## Properties of the collision code -/

theorem landingTest_iff (char : Character α) (p : Platform α) :
    landingTest char p = true ↔
      (0 < p.width ∧ 0 < p.height) ∧
      (char.x < p.x + p.width ∧ p.x < char.x + char.width) ∧
      char.y < p.y + p.height ∧ p.y < char.y + char.height ∧
      0 < char.vy ∧ p.y - 25 ≤ char.y + char.height ∧ char.y + char.height ≤ p.y + 25 := by
  simp only [landingTest, isColliding, Character.rect, Platform.rect, Bool.and_eq_true,
    Bool.not_eq_true', Bool.or_eq_false_iff, decide_eq_true_eq, decide_eq_false_iff_not, gt_iff_lt,
    ge_iff_le, not_le]
  constructor
  · rintro ⟨⟨⟨⟨⟨⟨⟨-, -⟩, hw⟩, hh⟩, ⟨⟨⟨h1, h2⟩, h3⟩, h4⟩⟩, hv⟩, ⟨h5, h6⟩⟩, -⟩
    exact ⟨⟨hw, hh⟩, ⟨h1, h2⟩, h3, h4, hv, h5, h6⟩
  · rintro ⟨⟨hw, hh⟩, ⟨h1, h2⟩, h3, h4, hv, h5, h6⟩
    exact ⟨⟨⟨⟨⟨⟨⟨hw.ne', hh.ne'⟩, hw⟩, hh⟩, ⟨⟨⟨h1, h2⟩, h3⟩, h4⟩⟩, hv⟩, ⟨h5, h6⟩⟩, ⟨h1, h2⟩⟩

theorem syncAttachment_of_jumping (s : GameState α) (h : s.character.isJumping = true) :
    syncAttachment s = s := by
  unfold syncAttachment
  cases s.attachedPlatform <;> simp [h]

theorem resetIfNotOnGround_of_jumping (s : GameState α) (h : s.character.isJumping = true) :
    resetIfNotOnGround s = s := by
  simp [resetIfNotOnGround, h]

theorem checkCollisionsBeforeLoop_of_jumping (s s4 : GameState α)
    (hj : s.character.isJumping = true) (h : checkCollisionsBeforeLoop s = Except.ok s4) :
    s4 = s := by
  unfold checkCollisionsBeforeLoop at h
  simp only [syncAttachment_of_jumping s hj, resetIfNotOnGround_of_jumping s hj] at h
  split_ifs at h
  exact (Except.ok.inj h).symm

theorem landingPlatform_eq_some (s : GameState α) (p : Platform α)
    (h : landingPlatform s = some p) :
    ∃ s4, checkCollisionsBeforeLoop s = Except.ok s4 ∧
      s4.platforms.find? (landingTest s4.character) = some p := by
  unfold landingPlatform at h
  cases hb : checkCollisionsBeforeLoop s with
  | error e => simp [hb] at h
  | ok s4 => exact ⟨s4, rfl, by simpa [hb] using h⟩

theorem checkCollisions_of_landing (env : Env α) (s s4 : GameState α) (p : Platform α)
    (hb : checkCollisionsBeforeLoop s = Except.ok s4)
    (hf : s4.platforms.find? (landingTest s4.character) = some p) :
    checkCollisions env s = landOn env p s4 := by
  simp [checkCollisions, hb, hf]

theorem syncAttachment_fields (s : GameState α) :
    (syncAttachment s).score = s.score ∧ (syncAttachment s).combo = s.combo ∧
    (syncAttachment s).platforms = s.platforms ∧ (syncAttachment s).jumpData = s.jumpData ∧
    (syncAttachment s).character.width = s.character.width ∧
    (syncAttachment s).character.height = s.character.height ∧
    (syncAttachment s).character.y = s.character.y ∧
    (syncAttachment s).character.vy = s.character.vy ∧
    (syncAttachment s).character.vx = s.character.vx ∧
    (syncAttachment s).isPlaying = s.isPlaying := by
  unfold syncAttachment
  cases s.attachedPlatform with
  | none => simp
  | some p =>
    by_cases hj : s.character.isJumping = true
    · simp [hj]
    · simp only [hj]
      split_ifs <;> simp

theorem resetIfNotOnGround_fields (s : GameState α) :
    (resetIfNotOnGround s).score = s.score ∧ (resetIfNotOnGround s).combo = s.combo ∧
    (resetIfNotOnGround s).platforms = s.platforms ∧
    (resetIfNotOnGround s).jumpData = s.jumpData ∧
    (resetIfNotOnGround s).character.width = s.character.width ∧
    (resetIfNotOnGround s).character.height = s.character.height ∧
    (resetIfNotOnGround s).character.x = s.character.x ∧
    (resetIfNotOnGround s).character.y = s.character.y ∧
    (resetIfNotOnGround s).character.vy = s.character.vy ∧
    (resetIfNotOnGround s).character.vx = s.character.vx ∧
    (resetIfNotOnGround s).isPlaying = s.isPlaying := by
  unfold resetIfNotOnGround
  split_ifs <;> simp

theorem checkCollisionsBeforeLoop_ok (s s4 : GameState α)
    (h : checkCollisionsBeforeLoop s = Except.ok s4) :
    s4 = resetIfNotOnGround (syncAttachment s) := by
  unfold checkCollisionsBeforeLoop at h
  dsimp only at h
  split_ifs at h
  exact (Except.ok.inj h).symm

theorem landOn_fields (env : Env α) (q : Platform α) (t : GameState α) :
    (landOn env q t).character =
      { t.character with y := q.y - t.character.height, vx := 0, vy := 0, isJumping := false } ∧
    (landOn env q t).attachedPlatform = some q ∧
    (landOn env q t).platformAttachmentOffset = t.character.x - q.x ∧
    (landOn env q t).jumpData.trajectory.length = t.jumpData.trajectory.length + 1 := by
  simp only [landOn, trackJumpLanding, perfectLanding]
  split_ifs <;> exact ⟨rfl, rfl, rfl, by simp⟩

theorem checkCollisions_character_of_landing (env : Env α) (s : GameState α) (p : Platform α)
    (hj : s.character.isJumping = true) (h : landingPlatform s = some p) :
    (checkCollisions env s).character =
      { s.character with y := p.y - s.character.height, vx := 0, vy := 0, isJumping := false } := by
  obtain ⟨s4, hb, hf⟩ := landingPlatform_eq_some s p h
  have h4 := checkCollisionsBeforeLoop_of_jumping s s4 hj hb
  subst h4
  rw [checkCollisions_of_landing env s4 s4 p hb hf]
  exact (landOn_fields env p s4).1

/-! ## C1: the landing tolerance window -/

theorem landingPlatform_test_of_jumping (s : GameState α) (p : Platform α)
    (hj : s.character.isJumping = true) (h : landingPlatform s = some p) :
    landingTest s.character p = true := by
  obtain ⟨s4, hb, hf⟩ := landingPlatform_eq_some s p h
  have h4 := checkCollisionsBeforeLoop_of_jumping s s4 hj hb
  subst h4
  exact List.find?_some hf

theorem checkCollisionsBeforeLoop_descending (s : GameState α)
    (hj : s.character.isJumping = true) (hvy : 0 < s.character.vy)
    (hline : ∀ line, s.bottomCollisionLine = some line →
      isColliding s.character.rect line = false) :
    checkCollisionsBeforeLoop s = Except.ok s := by
  unfold checkCollisionsBeforeLoop
  simp only [syncAttachment_of_jumping s hj, resetIfNotOnGround_of_jumping s hj]
  have h1 : (match s.bottomCollisionLine with
      | some line => isColliding s.character.rect line
      | none => false) = false := by
    cases hl : s.bottomCollisionLine with
    | none => rfl
    | some line => exact hline line hl
  rw [h1]
  simp [not_le.mpr hvy]

/-- C1 as the claim states it, at a concrete input: an airborne, descending character
whose bottom edge is exactly 25 above the top of a platform it overlaps horizontally.
`checkCollisions` does not land it: the state is returned unchanged. -/
theorem landing_at_top_minus_25_counterexample :
    (airborneAt 140 255 3).character.isJumping = true ∧
    (airborneAt 140 255 3).character.vy > 0 ∧
    (airborneAt 140 255 3).character.x < firstPlatform.x + firstPlatform.width ∧
    (airborneAt 140 255 3).character.x + (airborneAt 140 255 3).character.width >
      firstPlatform.x ∧
    firstPlatform.width > 0 ∧ firstPlatform.height > 0 ∧
    firstPlatform ∈ (airborneAt 140 255 3).platforms ∧
    (airborneAt 140 255 3).character.y + (airborneAt 140 255 3).character.height =
      firstPlatform.y - 25 ∧
    landingPlatform (airborneAt 140 255 3) = none ∧
    checkCollisions sampleEnv (airborneAt 140 255 3) = airborneAt 140 255 3 := by
  norm_num [airborneAt, firstPlatform, landingPlatform, checkCollisions,
    checkCollisionsBeforeLoop, syncAttachment, resetIfNotOnGround, landingTest, isColliding,
    Character.rect, Platform.rect]

/-- C1, amended: for an airborne, descending character that overlaps a positive-size
platform horizontally, landing on that platform needs contact of the two boxes, so the
window is `platformTop < bottom ≤ platformTop + 25`. With the bottom edge at
`platformTop − 25`, `platformTop − 26` or `platformTop + 26` the character does not land on
it; with the bottom edge at `platformTop + 25` (and its top edge above the platform's
bottom edge, the bottom strip not hit, no earlier platform of the list passing the test)
it lands on it. -/
theorem landing_tolerance_window (env : Env α) (s : GameState α) (p : Platform α)
    (hj : s.character.isJumping = true) (hvy : s.character.vy > 0)
    (hov : s.character.x < p.x + p.width ∧ s.character.x + s.character.width > p.x)
    (hsz : p.width > 0 ∧ p.height > 0) :
    (landingTest s.character p = true ↔
      p.y < s.character.y + s.character.height ∧
      s.character.y + s.character.height ≤ p.y + 25 ∧ s.character.y < p.y + p.height) ∧
    (s.character.y + s.character.height = p.y - 25 → landingPlatform s ≠ some p) ∧
    (s.character.y + s.character.height = p.y - 26 → landingPlatform s ≠ some p) ∧
    (s.character.y + s.character.height = p.y + 26 → landingPlatform s ≠ some p) ∧
    (s.character.y + s.character.height = p.y + 25 →
      s.character.y < p.y + p.height →
      (∀ line, s.bottomCollisionLine = some line →
        isColliding s.character.rect line = false) →
      (∃ pre post, s.platforms = pre ++ p :: post ∧
        ∀ q ∈ pre, landingTest s.character q = false) →
      landingPlatform s = some p ∧
      (checkCollisions env s).attachedPlatform = some p ∧
      (checkCollisions env s).character.isJumping = false) := by
  have hiff : landingTest s.character p = true ↔
      p.y < s.character.y + s.character.height ∧
      s.character.y + s.character.height ≤ p.y + 25 ∧ s.character.y < p.y + p.height := by
    rw [landingTest_iff]
    constructor
    · rintro ⟨-, -, h3, h4, -, -, h6⟩
      exact ⟨h4, h6, h3⟩
    · rintro ⟨h4, h6, h3⟩
      exact ⟨hsz, ⟨hov.1, hov.2⟩, h3, h4, hvy, by linarith, h6⟩
  refine ⟨hiff, ?_, ?_, ?_, ?_⟩
  · intro hb hl
    have := (hiff.mp (landingPlatform_test_of_jumping s p hj hl)).1
    linarith
  · intro hb hl
    have := (hiff.mp (landingPlatform_test_of_jumping s p hj hl)).1
    linarith
  · intro hb hl
    have := (hiff.mp (landingPlatform_test_of_jumping s p hj hl)).2.1
    linarith
  · intro hb htop hline ⟨pre, post, hpl, hpre⟩
    have hok := checkCollisionsBeforeLoop_descending s hj hvy hline
    have htest : landingTest s.character p = true :=
      hiff.mpr ⟨by linarith, by linarith, htop⟩
    have hfind : s.platforms.find? (landingTest s.character) = some p := by
      rw [List.find?_eq_some]
      exact ⟨htest, pre, post, hpl, fun q hq => by simp [hpre q hq]⟩
    refine ⟨by simp [landingPlatform, hok, hfind], ?_, ?_⟩
    · rw [checkCollisions_of_landing env s s p hok hfind]
      simp only [landOn, trackJumpLanding, perfectLanding]
      split_ifs <;> rfl
    · rw [checkCollisions_of_landing env s s p hok hfind]
      simp only [landOn, trackJumpLanding, perfectLanding]
      split_ifs <;> rfl

/-- Witness of `landing_tolerance_window`: the first platform and a character whose bottom
edge is 25 below the platform top. -/
theorem landing_tolerance_window_witness :
    landingPlatform (airborneAt 140 305 3) = some firstPlatform ∧
    (landingTest (airborneAt 140 305 3).character firstPlatform = true ↔
      firstPlatform.y < (airborneAt 140 305 3).character.y +
        (airborneAt 140 305 3).character.height ∧
      (airborneAt 140 305 3).character.y + (airborneAt 140 305 3).character.height ≤
        firstPlatform.y + 25 ∧
      (airborneAt 140 305 3).character.y < firstPlatform.y + firstPlatform.height) :=
  have h := landing_tolerance_window sampleEnv (airborneAt 140 305 3) firstPlatform rfl
    (by norm_num [airborneAt]) (by norm_num [airborneAt, firstPlatform])
    (by norm_num [firstPlatform])
  ⟨(h.2.2.2.2 (by norm_num [airborneAt, firstPlatform])
      (by norm_num [airborneAt, firstPlatform])
      (by
        intro line hl
        have : line = { x := 0, y := 590, width := 800, height := 5 } := by
          simpa [airborneAt] using hl.symm
        subst this
        norm_num [airborneAt, isColliding, Character.rect])
      ⟨[], [], rfl, by simp⟩).1, h.1⟩

/-! ## C2 and C3: the effect of a landing -/

/-- C2: whenever `checkCollisions` lands the character on a platform `p`, the resulting
state has `character.y = p.y − character.height`, `vx = 0`, `vy = 0`, `isJumping = false`,
`attachedPlatform = p` and `platformAttachmentOffset = character.x − p.x`; the landing
leaves `character.x` as it was when the platform loop started (the value left by the
attachment step), which is the incoming `x` for a character that was jumping or not
attached. -/
theorem landing_effect (env : Env α) (s : GameState α) (p : Platform α)
    (h : landingPlatform s = some p) :
    (checkCollisions env s).character.y = p.y - (checkCollisions env s).character.height ∧
    (checkCollisions env s).character.vx = 0 ∧
    (checkCollisions env s).character.vy = 0 ∧
    (checkCollisions env s).character.isJumping = false ∧
    (checkCollisions env s).attachedPlatform = some p ∧
    (checkCollisions env s).platformAttachmentOffset =
      (checkCollisions env s).character.x - p.x ∧
    (checkCollisions env s).character.x = (syncAttachment s).character.x ∧
    (s.character.isJumping = true ∨ s.attachedPlatform = none →
      (checkCollisions env s).character.x = s.character.x) ∧
    (checkCollisions env s).character.width = s.character.width ∧
    (checkCollisions env s).character.height = s.character.height := by
  obtain ⟨s4, hb, hf⟩ := landingPlatform_eq_some s p h
  have h4 := checkCollisionsBeforeLoop_ok s s4 hb
  have hr := resetIfNotOnGround_fields (syncAttachment s)
  have hs := syncAttachment_fields s
  rw [checkCollisions_of_landing env s s4 p hb hf]
  have hland : (landOn env p s4).character =
      { s4.character with y := p.y - s4.character.height, vx := 0, vy := 0, isJumping := false } ∧
      (landOn env p s4).attachedPlatform = some p ∧
      (landOn env p s4).platformAttachmentOffset = s4.character.x - p.x := by
    simp only [landOn, trackJumpLanding, perfectLanding]
    split_ifs <;> exact ⟨rfl, rfl, rfl⟩
  obtain ⟨hc, ha, ho⟩ := hland
  have hx4 : s4.character.x = (syncAttachment s).character.x := by rw [h4]; exact hr.2.2.2.2.2.2.1
  have hw4 : s4.character.width = s.character.width := by
    rw [h4, hr.2.2.2.2.1, hs.2.2.2.2.1]
  have hh4 : s4.character.height = s.character.height := by
    rw [h4, hr.2.2.2.2.2.1, hs.2.2.2.2.2.1]
  refine ⟨by rw [hc], by rw [hc], by rw [hc], by rw [hc], ha, by rw [ho, hc], by rw [hc]; exact hx4,
    ?_, by rw [hc]; exact hw4, by rw [hc]; exact hh4⟩
  intro hcase
  rw [hc]
  show s4.character.x = s.character.x
  rw [hx4]
  rcases hcase with hj | hn
  · rw [syncAttachment_of_jumping s hj]
  · simp [syncAttachment, hn]

/-- Witness of `landing_effect`: a descending character in contact with the first
platform. -/
theorem landing_effect_witness :
    landingPlatform (airborneAt 140 290 3) = some firstPlatform ∧
    (checkCollisions sampleEnv (airborneAt 140 290 3)).character.y = 280 ∧
    (checkCollisions sampleEnv (airborneAt 140 290 3)).platformAttachmentOffset = 60 := by
  have hl : landingPlatform (airborneAt 140 290 3) = some firstPlatform := by
    norm_num [airborneAt, firstPlatform, landingPlatform, checkCollisionsBeforeLoop,
      syncAttachment, resetIfNotOnGround, landingTest, isColliding, Character.rect,
      Platform.rect]
  have h := landing_effect sampleEnv (airborneAt 140 290 3) firstPlatform hl
  refine ⟨hl, ?_, ?_⟩
  · rw [h.1, h.2.2.2.2.2.2.2.2.2]; norm_num [airborneAt, firstPlatform]
  · rw [h.2.2.2.2.2.1, h.2.2.2.2.2.2.2.1 (Or.inl rfl)]; norm_num [airborneAt, firstPlatform]

/-- C3: on every landing on a platform `p`, with `d` the distance between the centre of
`p` and the centre of the character: if `d < 20` the combo becomes `min (combo + 1) 5` and
the score grows by `5 × newCombo + 10 × newCombo`; otherwise the combo is reset to 1 and
the score grows by exactly 10. A combo in `[1, 5]` stays in `[1, 5]`, on a landing and on
any other `checkCollisions` tick. -/
theorem perfect_landing_scoring (env : Env α) (s : GameState α) (p : Platform α)
    (h : landingPlatform s = some p) :
    (|p.x + p.width / 2 -
        ((checkCollisions env s).character.x + (checkCollisions env s).character.width / 2)| < 20 →
      (checkCollisions env s).combo = min (s.combo + 1) 5 ∧
      (checkCollisions env s).score =
        s.score + 5 * (checkCollisions env s).combo + 10 * (checkCollisions env s).combo) ∧
    (¬ |p.x + p.width / 2 -
        ((checkCollisions env s).character.x + (checkCollisions env s).character.width / 2)| < 20 →
      (checkCollisions env s).combo = 1 ∧ (checkCollisions env s).score = s.score + 10) ∧
    (1 ≤ s.combo ∧ s.combo ≤ 5 →
      1 ≤ (checkCollisions env s).combo ∧ (checkCollisions env s).combo ≤ 5) ∧
    (∀ t : GameState α, 1 ≤ t.combo ∧ t.combo ≤ 5 →
      1 ≤ (checkCollisions env t).combo ∧ (checkCollisions env t).combo ≤ 5) := by
  have key : ∀ (t t4 : GameState α) (q : Platform α),
      checkCollisionsBeforeLoop t = Except.ok t4 →
      (landOn env q t4).character.x = t4.character.x ∧
      (landOn env q t4).character.width = t4.character.width ∧
      (|q.x + q.width / 2 - (t4.character.x + t4.character.width / 2)| < 20 →
        (landOn env q t4).combo = min (t.combo + 1) 5 ∧
        (landOn env q t4).score = t.score + 5 * (landOn env q t4).combo +
          10 * (landOn env q t4).combo) ∧
      (¬ |q.x + q.width / 2 - (t4.character.x + t4.character.width / 2)| < 20 →
        (landOn env q t4).combo = 1 ∧ (landOn env q t4).score = t.score + 10) := by
    intro t t4 q hb
    have h4 := checkCollisionsBeforeLoop_ok t t4 hb
    have hr := resetIfNotOnGround_fields (syncAttachment t)
    have hs := syncAttachment_fields t
    have hsc : t4.score = t.score := by rw [h4, hr.1, hs.1]
    have hco : t4.combo = t.combo := by rw [h4, hr.2.1, hs.2.1]
    refine ⟨?_, ?_, ?_, ?_⟩
    · simp only [landOn, trackJumpLanding, perfectLanding]
      split_ifs <;> rfl
    · simp only [landOn, trackJumpLanding, perfectLanding]
      split_ifs <;> rfl
    · intro hd
      simp [landOn, trackJumpLanding, perfectLanding, hd, hsc, hco]
    · intro hd
      simp [landOn, trackJumpLanding, perfectLanding, hd, hsc]
  have inv : ∀ t : GameState α, 1 ≤ t.combo ∧ t.combo ≤ 5 →
      1 ≤ (checkCollisions env t).combo ∧ (checkCollisions env t).combo ≤ 5 := by
    intro t ht
    cases hb : checkCollisionsBeforeLoop t with
    | error e =>
      have hcc : checkCollisions env t = e := by simp [checkCollisions, hb]
      rw [hcc]
      have he : e.combo = t.combo := by
        unfold checkCollisionsBeforeLoop at hb
        dsimp only at hb
        split_ifs at hb
        · rw [← Except.error.inj hb]; rfl
        · rw [← Except.error.inj hb]; exact (syncAttachment_fields t).2.1
      rw [he]
      exact ht
    | ok t4 =>
      have h4 := checkCollisionsBeforeLoop_ok t t4 hb
      have hco : t4.combo = t.combo := by
        rw [h4, (resetIfNotOnGround_fields (syncAttachment t)).2.1, (syncAttachment_fields t).2.1]
      cases hf : t4.platforms.find? (landingTest t4.character) with
      | none =>
        have hcc : checkCollisions env t = t4 := by simp [checkCollisions, hb, hf]
        rw [hcc, hco]
        exact ht
      | some q =>
        obtain ⟨-, -, k1, k2⟩ := key t t4 q hb
        rw [checkCollisions_of_landing env t t4 q hb hf]
        by_cases hd : |q.x + q.width / 2 - (t4.character.x + t4.character.width / 2)| < 20
        · rw [(k1 hd).1]
          exact ⟨le_min (by linarith [ht.1]) (by norm_num), min_le_right _ _⟩
        · rw [(k2 hd).1]
          norm_num
  obtain ⟨s4, hb, hf⟩ := landingPlatform_eq_some s p h
  obtain ⟨kx, kw, k1, k2⟩ := key s s4 p hb
  rw [checkCollisions_of_landing env s s4 p hb hf, kx, kw]
  exact ⟨k1, k2, by
    have := inv s
    rwa [checkCollisions_of_landing env s s4 p hb hf] at this, inv⟩

/-- Witness of `perfect_landing_scoring`: landing on the first platform (centre 205) with the
character centre at 185.01 (distance 19.99) is perfect, combo 1 becomes 2 and the score
grows by 30; with the centre at 185 (distance 20.00) it is not, and the score grows
by 10. -/
theorem perfect_landing_scoring_witness :
    ((checkCollisions sampleEnv (airborneAt (16501 / 100) 290 3)).combo = 2 ∧
      (checkCollisions sampleEnv (airborneAt (16501 / 100) 290 3)).score = 30) ∧
    ((checkCollisions sampleEnv (airborneAt 165 290 3)).combo = 1 ∧
      (checkCollisions sampleEnv (airborneAt 165 290 3)).score = 10) := by
  have hl1 : landingPlatform (airborneAt (16501 / 100) 290 3) = some firstPlatform := by
    norm_num [airborneAt, firstPlatform, landingPlatform, checkCollisionsBeforeLoop,
      syncAttachment, resetIfNotOnGround, landingTest, isColliding, Character.rect,
      Platform.rect]
  have hl2 : landingPlatform (airborneAt 165 290 3) = some firstPlatform := by
    norm_num [airborneAt, firstPlatform, landingPlatform, checkCollisionsBeforeLoop,
      syncAttachment, resetIfNotOnGround, landingTest, isColliding, Character.rect,
      Platform.rect]
  have hx1 := checkCollisions_character_of_landing sampleEnv
    (airborneAt (16501 / 100) 290 3) firstPlatform rfl hl1
  have hx2 := checkCollisions_character_of_landing sampleEnv
    (airborneAt 165 290 3) firstPlatform rfl hl2
  have ha := perfect_landing_scoring sampleEnv (airborneAt (16501 / 100) 290 3) firstPlatform hl1
  have hb := perfect_landing_scoring sampleEnv (airborneAt 165 290 3) firstPlatform hl2
  rw [hx1] at ha
  rw [hx2] at hb
  have h1 := ha.1 (by norm_num [airborneAt, firstPlatform, abs_lt])
  have h2 := hb.2.1 (by norm_num [airborneAt, firstPlatform, abs_lt])
  refine ⟨?_, h2⟩
  have hc : (checkCollisions sampleEnv (airborneAt (16501 / 100) 290 3)).combo = 2 := by
    rw [h1.1]; rfl
  refine ⟨hc, ?_⟩
  rw [h1.2, hc]; rfl

/-! ## C4: one physics tick -/

theorem checkGameFailureTail_fields (s : GameState α) :
    (checkGameFailureTail s).character = s.character ∧
    (checkGameFailureTail s).jumpData = s.jumpData := by
  unfold checkGameFailureTail
  dsimp only
  split_ifs <;> exact ⟨rfl, rfl⟩

theorem checkGameFailureConditions_fields (env : Env α) (s : GameState α) :
    (checkGameFailureConditions env s).jumpData = s.jumpData ∧
    (checkGameFailureConditions env s).character =
      if s.character.x < -200 ∨ s.character.x > env.innerWidth + 200 then
        { s.character with isJumping := false, vx := 0, vy := 0 }
      else s.character := by
  unfold checkGameFailureConditions
  dsimp only
  split_ifs <;>
    first
      | exact ⟨rfl, rfl⟩
      | exact ⟨(checkGameFailureTail_fields _).2, (checkGameFailureTail_fields _).1⟩

/-- C4 as the claim states it, at a concrete input: a jumping character at rest
horizontally with `vy = −0.8`, above `y = 400`. After the tick `vy` is 0.1, not
`vy + 0.8 = 0`. A second input: a character with `vx = 5`, `vy = −3` that crosses the
right boundary (`x + vx > innerWidth + 200`) at `y' = 197` ends the tick with `vx = 0`
and `vy = 0.1`, not with `vx = 5` and `vy = −2.2`. -/
theorem updatePhysics_counterexample :
    ({ airborneAt 140 200 (-4 / 5) with
        character := { (airborneAt 140 200 (-4 / 5)).character with vx := 0 } }
      : GameState ℚ).character.isJumping = true ∧
    (updatePhysics sampleEnv { airborneAt 140 200 (-4 / 5) with
        character := { (airborneAt 140 200 (-4 / 5)).character with vx := 0 } }).character.vy
      = 1 / 10 ∧
    (airborneAt 999 200 (-3)).character.isJumping = true ∧
    (airborneAt 999 200 (-3)).character.vx = 5 ∧
    (updatePhysics sampleEnv (airborneAt 999 200 (-3))).character.vx = 0 ∧
    (updatePhysics sampleEnv (airborneAt 999 200 (-3))).character.vy = 1 / 10 := by
  norm_num [updatePhysics, integrateAndRecord, checkGameFailureConditions,
    checkGameFailureTail, gameOver, airborneAt, sampleEnv]

/-- C4, amended: one `updatePhysics` tick on a jumping character sets
`x' = x + vx · gameSpeed` and `y' = y + vy` (the velocity before gravity is added) and
keeps the size. When `x'` stays within the horizontal boundary
(`−200 ≤ x' ≤ innerWidth + 200`) it leaves `vx` unchanged and the character jumping, and
sets `vy' = vy + 0.8`, unless `vx = 0`, `vy + 0.8 = 0` and `y' < 400`, where the guard
against a character at rest in the air sets `vy' = 0.1`. When `x'` is beyond the boundary
(`x' < −200` or `x' > innerWidth + 200`) the boundary check clears `isJumping` and zeroes
both velocities, and the rest guard, which runs after it on the zeroed velocities, sets
`vy` to 0.1 when `y' < 400`: the tick ends with `vx' = 0`, `isJumping = false` and
`vy' = 0.1` if `y' < 400`, `vy' = 0` otherwise. On a character that is not jumping the
tick changes nothing. -/
theorem updatePhysics_tick (env : Env α) (s : GameState α) :
    (s.character.isJumping = true →
      (updatePhysics env s).character.x = s.character.x + s.character.vx * s.gameSpeed ∧
      (updatePhysics env s).character.y = s.character.y + s.character.vy ∧
      (updatePhysics env s).character.width = s.character.width ∧
      (updatePhysics env s).character.height = s.character.height ∧
      (¬ (s.character.x + s.character.vx * s.gameSpeed < -200 ∨
            s.character.x + s.character.vx * s.gameSpeed > env.innerWidth + 200) →
        (updatePhysics env s).character.vx = s.character.vx ∧
        (updatePhysics env s).character.isJumping = true ∧
        (¬ (s.character.vx = 0 ∧ s.character.vy + 0.8 = 0 ∧
              s.character.y + s.character.vy < 400) →
          (updatePhysics env s).character.vy = s.character.vy + 0.8) ∧
        ((s.character.vx = 0 ∧ s.character.vy + 0.8 = 0 ∧
              s.character.y + s.character.vy < 400) →
          (updatePhysics env s).character.vy = 0.1)) ∧
      ((s.character.x + s.character.vx * s.gameSpeed < -200 ∨
            s.character.x + s.character.vx * s.gameSpeed > env.innerWidth + 200) →
        (updatePhysics env s).character.vx = 0 ∧
        (updatePhysics env s).character.isJumping = false ∧
        (updatePhysics env s).character.vy =
          if s.character.y + s.character.vy < 400 then 0.1 else 0)) ∧
    (s.character.isJumping = false → updatePhysics env s = s) := by
  constructor
  · intro hj
    have hc := (checkGameFailureConditions_fields env (integrateAndRecord env s)).2
    have hi : (integrateAndRecord env s).character =
        { x := s.character.x + s.character.vx * s.gameSpeed
          y := s.character.y + s.character.vy
          width := s.character.width
          height := s.character.height
          vx := s.character.vx
          vy := s.character.vy + 0.8
          isJumping := s.character.isJumping } := rfl
    rw [hi] at hc
    dsimp only at hc
    have hu : (updatePhysics env s).character =
        if (checkGameFailureConditions env (integrateAndRecord env s)).character.vx = 0 ∧
            (checkGameFailureConditions env (integrateAndRecord env s)).character.vy = 0 ∧
            (checkGameFailureConditions env (integrateAndRecord env s)).character.y < 400 then
          { (checkGameFailureConditions env (integrateAndRecord env s)).character with vy := 0.1 }
        else (checkGameFailureConditions env (integrateAndRecord env s)).character := by
      unfold updatePhysics
      simp only [hj, if_true]
      split_ifs <;> rfl
    rw [hu]
    by_cases hb : s.character.x + s.character.vx * s.gameSpeed < -200 ∨
        s.character.x + s.character.vx * s.gameSpeed > env.innerWidth + 200
    · rw [if_pos hb] at hc
      rw [hc]
      refine ⟨?_, ?_, ?_, ?_, fun hnb => absurd hb hnb, fun _ => ?_⟩
      · split_ifs <;> rfl
      · split_ifs <;> rfl
      · split_ifs <;> rfl
      · split_ifs <;> rfl
      · by_cases hy : s.character.y + s.character.vy < 400
        · simp [hy]
        · simp [hy]
    · rw [if_neg hb] at hc
      rw [hc]
      refine ⟨?_, ?_, ?_, ?_, fun _ => ⟨?_, ?_, fun hg => ?_, fun hg => ?_⟩, fun hb2 => absurd hb2 hb⟩
      · split_ifs <;> rfl
      · split_ifs <;> rfl
      · split_ifs <;> rfl
      · split_ifs <;> rfl
      · split_ifs <;> rfl
      · split_ifs <;> exact hj
      · rw [if_neg hg]
      · rw [if_pos hg]
  · intro hj
    simp [updatePhysics, hj]

/-- Witness of `updatePhysics_tick`: one tick of a rising character inside the boundary;
one tick of a character at rest horizontally with `vy = −0.8`, on which the rest guard
fires; one tick of a character that crosses the right boundary above `y = 400`. -/
theorem updatePhysics_tick_witness :
    ((updatePhysics sampleEnv (airborneAt 140 200 (-3))).character.x = 145 ∧
      (updatePhysics sampleEnv (airborneAt 140 200 (-3))).character.y = 197 ∧
      (updatePhysics sampleEnv (airborneAt 140 200 (-3))).character.vy = -11 / 5 ∧
      (updatePhysics sampleEnv (airborneAt 140 200 (-3))).character.vx = 5) ∧
    (updatePhysics sampleEnv { airborneAt 140 200 (-4 / 5) with
        character := { (airborneAt 140 200 (-4 / 5)).character with vx := 0 } }).character.vy
      = 1 / 10 ∧
    ((updatePhysics sampleEnv (airborneAt 999 200 (-3))).character.vx = 0 ∧
      (updatePhysics sampleEnv (airborneAt 999 200 (-3))).character.isJumping = false ∧
      (updatePhysics sampleEnv (airborneAt 999 200 (-3))).character.vy = 1 / 10) := by
  have h := (updatePhysics_tick sampleEnv (airborneAt 140 200 (-3))).1 rfl
  have h5 := h.2.2.2.2.1 (by norm_num [airborneAt, sampleEnv])
  have hr := ((updatePhysics_tick sampleEnv { airborneAt 140 200 (-4 / 5) with
      character := { (airborneAt 140 200 (-4 / 5)).character with vx := 0 } }).1 rfl).2.2.2.2.1
    (by norm_num [airborneAt, sampleEnv])
  have hb := ((updatePhysics_tick sampleEnv (airborneAt 999 200 (-3))).1 rfl).2.2.2.2.2
    (by norm_num [airborneAt, sampleEnv])
  refine ⟨⟨?_, ?_, ?_, ?_⟩, ?_, hb.1, hb.2.1, ?_⟩
  · rw [h.1]; norm_num [airborneAt]
  · rw [h.2.1]; norm_num [airborneAt]
  · rw [h5.2.2.1 (by norm_num [airborneAt])]; norm_num [airborneAt]
  · rw [h5.1]; rfl
  · rw [hr.2.2.2 (by norm_num [airborneAt])]; norm_num
  · rw [hb.2.2]; norm_num [airborneAt]

/-! ## C5 and C6: the launch velocity -/

theorem jump_fields (env : Env α) (s : GameState α)
    (hc : s.isCharging = true) (hj : s.character.isJumping = false) :
    (jump env s).character.vx =
      (50 + min s.power 150 / 100 * 200) / 20 +
        ((s.attachedPlatform.bind fun platform => platform.speed).getD 0) ∧
    (jump env s).character.vy = -(env.sin (min s.power 150 / 100 * env.PI)) * 15 ∧
    (jump env s).character.isJumping = true ∧
    (jump env s).power = 0 ∧
    (jump env s).isCharging = false ∧
    (jump env s).attachedPlatform = none ∧
    (s.attachedPlatform ≠ none → (jump env s).platformAttachmentOffset = 0) ∧
    (jump env s).jumpData.trajectory = [] ∧
    (jump env s).character.x = s.character.x ∧
    (jump env s).character.y = s.character.y := by
  unfold jump
  simp only [hc, hj, Bool.not_true, Bool.or_self, Bool.false_eq_true, if_false]
  cases ha : s.attachedPlatform with
  | none => simp [trackJumpStart]
  | some p => simp [trackJumpStart]

/-- C5 as the claim states it, at a concrete input: charge power 75, no attached
platform. The launch gives `vx0 = (50 + 0.75 · 200) / 20 = 10`, not 12.5. -/
theorem jump_power_75_counterexample :
    (chargingState 75 none : GameState ℚ).isCharging = true ∧
    (chargingState 75 none : GameState ℚ).character.isJumping = false ∧
    (chargingState 75 none : GameState ℚ).attachedPlatform = none ∧
    (chargingState 75 none : GameState ℚ).power = 75 ∧
    (jump sampleEnv (chargingState 75 none)).character.vx = 10 ∧
    (jump sampleEnv (chargingState 75 none)).character.vx ≠ 12.5 := by
  norm_num [jump, chargingState, trackJumpStart]

/-- C5, amended: for every charge power `p`, a jump (released while charging, character on
the ground) launches with `r = min(p, 150) / 100`, `vx0 = (50 + 200 r) / 20` plus the
speed of the attached platform when there is one (plus nothing otherwise) and
`vy0 = −15 sin(π r)`. With `p = 75` and no platform speed, `vx0 = 10` and
`vy0 = −15 sin(0.75 π)`, which is within 0.01 of −10.6. The jump sets `isJumping`, resets
the power to 0 and clears the attachment. -/
theorem jump_launch_velocity (env : Env ℝ) (hsin : env.sin = Real.sin) (hpi : env.PI = Real.pi)
    (s : GameState ℝ) (hc : s.isCharging = true) (hj : s.character.isJumping = false) :
    (jump env s).character.vx =
      (50 + 200 * (min s.power 150 / 100)) / 20 +
        ((s.attachedPlatform.bind fun platform => platform.speed).getD 0) ∧
    (jump env s).character.vy = -15 * Real.sin (Real.pi * (min s.power 150 / 100)) ∧
    (jump env s).character.isJumping = true ∧
    (jump env s).power = 0 ∧
    (jump env s).attachedPlatform = none ∧
    (s.attachedPlatform ≠ none → (jump env s).platformAttachmentOffset = 0) ∧
    (s.power = 75 →
      (s.attachedPlatform = none ∨ ∃ platform, s.attachedPlatform = some platform ∧
        platform.speed.getD 0 = 0) →
      (jump env s).character.vx = 10 ∧
      (jump env s).character.vy = -15 * Real.sin (0.75 * Real.pi) ∧
      |(jump env s).character.vy - (-10.6)| < 0.01) := by
  obtain ⟨hvx, hvy, hjmp, hpow, -, hatt, hoff, -, -, -⟩ := jump_fields env s hc hj
  have hvx2 : (jump env s).character.vx =
      (50 + 200 * (min s.power 150 / 100)) / 20 +
        ((s.attachedPlatform.bind fun platform => platform.speed).getD 0) := by
    rw [hvx]; ring
  have hvy2 : (jump env s).character.vy =
      -15 * Real.sin (Real.pi * (min s.power 150 / 100)) := by
    rw [hvy, hsin, hpi, mul_comm (min s.power 150 / 100) Real.pi]; ring
  refine ⟨hvx2, hvy2, hjmp, hpow, hatt, hoff, ?_⟩
  intro hp hsp
  have hmin : min s.power 150 = 75 := by rw [hp]; norm_num
  have hspeed : (s.attachedPlatform.bind fun platform => platform.speed).getD 0 = (0 : ℝ) := by
    rcases hsp with h | ⟨q, hq, hq0⟩
    · rw [h]; rfl
    · rw [hq]; exact hq0
  have hsin34 : Real.sin (0.75 * Real.pi) = Real.sqrt 2 / 2 := by
    have : (0.75 : ℝ) * Real.pi = Real.pi - Real.pi / 4 := by ring
    rw [this, Real.sin_pi_sub, Real.sin_pi_div_four]
  have hlo : (1.414 : ℝ) < Real.sqrt 2 := by
    rw [Real.lt_sqrt (by norm_num)]; norm_num
  have hhi : Real.sqrt 2 < (1.4143 : ℝ) := by
    rw [Real.sqrt_lt' (by norm_num)]; norm_num
  have hv : (jump env s).character.vy = -15 * Real.sin (0.75 * Real.pi) := by
    rw [hvy2, hmin]; congr 2; ring
  refine ⟨?_, hv, ?_⟩
  · rw [hvx2, hmin, hspeed]; norm_num
  · rw [hv, hsin34, abs_lt]
    constructor <;> linarith

/-- Witness of `jump_launch_velocity`: power 75, no attached platform. -/
theorem jump_launch_velocity_witness :
    (jump { innerWidth := 800, innerHeight := 600, now := 1000, sin := Real.sin, PI := Real.pi }
      (chargingState 75 none)).character.vx = 10 ∧
    |(jump { innerWidth := 800, innerHeight := 600, now := 1000, sin := Real.sin, PI := Real.pi }
      (chargingState 75 none)).character.vy - (-10.6)| < 0.01 :=
  have h := (jump_launch_velocity
    { innerWidth := 800, innerHeight := 600, now := 1000, sin := Real.sin, PI := Real.pi }
    rfl rfl (chargingState 75 none) rfl rfl).2.2.2.2.2.2 rfl (Or.inl rfl)
  ⟨h.1, h.2.2⟩

/-- C6: the launch vertical velocity `vy0(p) = −15 sin(π min(p, 150) / 100)` given by
`jump` is not monotonic in the charge power `p`: it is negative (upward) for
`0 < p < 100`, with its extreme `−15` at `p = 50`; zero at `p = 100`; strictly positive
(downward) for `100 < p ≤ 150`, reaching `+15` at `p = 150` (and staying there above,
the power being clamped). -/
theorem launch_vy_not_monotonic (env : Env ℝ) (hsin : env.sin = Real.sin)
    (hpi : env.PI = Real.pi) (s : GameState ℝ) (hc : s.isCharging = true)
    (hj : s.character.isJumping = false) :
    (∀ p : ℝ, (jump env { s with power := p }).character.vy =
      -15 * Real.sin (Real.pi * (min p 150 / 100))) ∧
    (∀ p : ℝ, 0 < p → p < 100 → (jump env { s with power := p }).character.vy < 0) ∧
    (jump env { s with power := 50 }).character.vy = -15 ∧
    (∀ p : ℝ, -15 ≤ (jump env { s with power := p }).character.vy) ∧
    (jump env { s with power := 100 }).character.vy = 0 ∧
    (∀ p : ℝ, 100 < p → p ≤ 150 → 0 < (jump env { s with power := p }).character.vy) ∧
    (jump env { s with power := 150 }).character.vy = 15 ∧
    (∀ p : ℝ, (jump env { s with power := p }).character.vy ≤ 15) ∧
    ¬ Monotone (fun p : ℝ => (jump env { s with power := p }).character.vy) ∧
    ¬ Antitone (fun p : ℝ => (jump env { s with power := p }).character.vy) := by
  have hpos := Real.pi_pos
  have hf : ∀ p : ℝ, (jump env { s with power := p }).character.vy =
      -15 * Real.sin (Real.pi * (min p 150 / 100)) := by
    intro p
    have h := (jump_fields env { s with power := p } hc hj).2.1
    rw [h, hsin, hpi]
    show -Real.sin (min p 150 / 100 * Real.pi) * 15 = _
    rw [mul_comm (min p 150 / 100) Real.pi]; ring
  have h50 : (jump env { s with power := 50 }).character.vy = -15 := by
    rw [hf]
    have : Real.pi * (min (50 : ℝ) 150 / 100) = Real.pi / 2 := by
      rw [min_eq_left (by norm_num)]; ring
    rw [this, Real.sin_pi_div_two]; ring
  have h100 : (jump env { s with power := 100 }).character.vy = 0 := by
    rw [hf]
    have : Real.pi * (min (100 : ℝ) 150 / 100) = Real.pi := by
      rw [min_eq_left (by norm_num)]; ring
    rw [this, Real.sin_pi]; ring
  have h150 : (jump env { s with power := 150 }).character.vy = 15 := by
    rw [hf]
    have : Real.pi * (min (150 : ℝ) 150 / 100) = Real.pi / 2 + Real.pi := by
      rw [min_self]; ring
    rw [this, Real.sin_add_pi, Real.sin_pi_div_two]; ring
  refine ⟨hf, ?_, h50, ?_, h100, ?_, h150, ?_, ?_, ?_⟩
  · intro p hp0 hp1
    rw [hf, min_eq_left (by linarith)]
    have : 0 < Real.sin (Real.pi * (p / 100)) := by
      apply Real.sin_pos_of_pos_of_lt_pi
      · positivity
      · have : Real.pi * (p / 100) < Real.pi * 1 := by
          apply mul_lt_mul_of_pos_left _ hpos
          linarith
        linarith
    linarith
  · intro p
    rw [hf]
    have := Real.sin_le_one (Real.pi * (min p 150 / 100))
    linarith
  · intro p hp0 hp1
    rw [hf, min_eq_left hp1]
    have hneg : Real.sin (Real.pi * (p / 100) - 2 * Real.pi) < 0 := by
      apply Real.sin_neg_of_neg_of_neg_pi_lt
      · have : Real.pi * (p / 100) < Real.pi * 2 := by
          apply mul_lt_mul_of_pos_left _ hpos
          linarith
        linarith
      · have : Real.pi * 1 < Real.pi * (p / 100) := by
          apply mul_lt_mul_of_pos_left _ hpos
          linarith
        linarith
    rw [Real.sin_sub_two_pi] at hneg
    linarith
  · intro p
    rw [hf]
    have := Real.neg_one_le_sin (Real.pi * (min p 150 / 100))
    linarith
  · intro hm
    have h := hm (show (0 : ℝ) ≤ 50 by norm_num)
    simp only at h
    rw [h50, hf] at h
    have h0 : Real.pi * (min (0 : ℝ) 150 / 100) = 0 := by
      rw [min_eq_left (by norm_num)]; ring
    rw [h0, Real.sin_zero] at h
    linarith
  · intro hm
    have h := hm (show (50 : ℝ) ≤ 150 by norm_num)
    simp only at h
    rw [h50, h150] at h
    linarith

/-- Witness of `launch_vy_not_monotonic`: a grounded, charging character. -/
theorem launch_vy_not_monotonic_witness :
    (jump { innerWidth := 800, innerHeight := 600, now := 1000, sin := Real.sin, PI := Real.pi }
      { (chargingState 0 none : GameState ℝ) with power := 50 }).character.vy = -15 ∧
    (jump { innerWidth := 800, innerHeight := 600, now := 1000, sin := Real.sin, PI := Real.pi }
      { (chargingState 0 none : GameState ℝ) with power := 150 }).character.vy = 15 :=
  have h := launch_vy_not_monotonic
    { innerWidth := 800, innerHeight := 600, now := 1000, sin := Real.sin, PI := Real.pi }
    rfl rfl (chargingState 0 none) rfl rfl
  ⟨h.2.2.1, h.2.2.2.2.2.2.1⟩

/-! ## C7 and C8: failure detection -/

/-- C7 as the claim states it, at a concrete input: in a window of height 600 an airborne
character with top edge at 570 has its bottom edge at 610, beyond the screen bottom; it
is moving up, and `checkGameFailureConditions` does not end the game. -/
theorem bottom_edge_below_screen_counterexample :
    (airborneAt 140 570 (-1)).character.isJumping = true ∧
    (airborneAt 140 570 (-1)).character.y + (airborneAt 140 570 (-1)).character.height >
      sampleEnv.innerHeight ∧
    (airborneAt 140 570 (-1)).isPlaying = true ∧
    (checkGameFailureConditions sampleEnv (airborneAt 140 570 (-1))).isPlaying = true := by
  norm_num [checkGameFailureConditions, checkGameFailureTail, gameOver, airborneAt, sampleEnv]

/-- C7, amended: for every character state and window size `W × H`,
`checkGameFailureConditions` ends the game whenever any one of these holds: `x < −200` or
`x > W + 200`; bottom edge `y + height > H + 50`; top edge `y > H`; bottom edge
`> H` while descending (`vy > 0`); `vy > 15` while `y > 0.8 H`; `y < −500`; `|vx| > 50`
or `|vy| > 30`. -/
theorem failure_conditions_end_game (env : Env α) (s : GameState α)
    (h : s.character.x < -200 ∨ s.character.x > env.innerWidth + 200 ∨
      s.character.y + s.character.height > env.innerHeight + 50 ∨
      s.character.y > env.innerHeight ∨
      (s.character.y + s.character.height > env.innerHeight ∧ s.character.vy > 0) ∨
      (s.character.vy > 15 ∧ s.character.y > 0.8 * env.innerHeight) ∨
      s.character.y < -500 ∨
      |s.character.vx| > 50 ∨ |s.character.vy| > 30) :
    (checkGameFailureConditions env s).isPlaying = false := by
  have htail : ∀ t : GameState α, t.character = s.character →
      (s.character.y < -500 ∨ |s.character.vx| > 50 ∨ |s.character.vy| > 30) →
      (checkGameFailureTail t).isPlaying = false := by
    intro t ht hc
    unfold checkGameFailureTail
    dsimp only
    rw [ht]
    split_ifs with h1 h2
    · rfl
    · rfl
    · rcases hc with hc | hc | hc
      · exact absurd hc h1
      · exact absurd (Or.inl hc) h2
      · exact absurd (Or.inr hc) h2
  unfold checkGameFailureConditions
  dsimp only
  by_cases h1 : s.character.x < -200 ∨ s.character.x > env.innerWidth + 200
  · rw [if_pos h1]; rfl
  rw [if_neg h1]
  by_cases h2 : s.character.y + s.character.height > env.innerHeight + 50
  · rw [if_pos h2]; rfl
  rw [if_neg h2]
  by_cases h3 : s.character.x + s.character.width < -100 ∨ s.character.x > env.innerWidth + 100
  · rw [if_pos h3]; rfl
  rw [if_neg h3]
  by_cases h4 : s.character.y > env.innerHeight
  · rw [if_pos h4]; rfl
  rw [if_neg h4]
  by_cases h5 : s.character.vy > 15 ∧ s.character.y > env.innerHeight * 0.8
  · rw [if_pos h5]; rfl
  rw [if_neg h5]
  by_cases h6 : s.character.y + s.character.height ≥ env.innerHeight - 10 ∧ s.character.vy > 0
  · rw [if_pos h6]; rfl
  rw [if_neg h6]
  have ht : s.character.y < -500 ∨ |s.character.vx| > 50 ∨ |s.character.vy| > 30 := by
    rcases h with h | h | h | h | h | h | h
    · exact absurd (Or.inl h) h1
    · exact absurd (Or.inr h) h1
    · exact absurd h h2
    · exact absurd h h4
    · exact absurd ⟨by linarith [h.1], h.2⟩ h6
    · exact absurd ⟨h.1, by linarith [h.2]⟩ h5
    · exact h
  by_cases h7 : s.character.y > env.innerHeight * 0.9 ∧ s.character.vy > 5
  · rw [if_pos h7]
    by_cases h8 : s.fallStartTime = none ∨ s.fallStartTime = some 0
    · rw [if_pos h8]; exact htail _ rfl ht
    rw [if_neg h8]
    by_cases h9 : env.now - s.fallStartTime.getD 0 > 1000
    · rw [if_pos h9]; rfl
    rw [if_neg h9]; exact htail _ rfl ht
  · rw [if_neg h7]; exact htail _ rfl ht

/-- Witness of `failure_conditions_end_game`: a character whose top edge is below the
screen bottom. -/
theorem failure_conditions_end_game_witness :
    (airborneAt 140 650 3).character.y > sampleEnv.innerHeight ∧
    (checkGameFailureConditions sampleEnv (airborneAt 140 650 3)).isPlaying = false :=
  ⟨by norm_num [airborneAt, sampleEnv],
    failure_conditions_end_game sampleEnv (airborneAt 140 650 3)
      (by norm_num [airborneAt, sampleEnv])⟩

/-- C8: in every state, if the bounding box of the character overlaps the bottom collision
strip (`x = 0`, `y = H − 10`, `width = W`, `height = 5`), `checkCollisions` triggers game
over and returns at once: the run is stopped and the position, velocity and jumping flag
of the character, the attachment, the combo and the score are unchanged. -/
theorem bottom_line_game_over (env : Env α) (s : GameState α)
    (hline : s.bottomCollisionLine =
      some { x := 0, y := env.innerHeight - 10, width := env.innerWidth, height := 5 })
    (hhit : isColliding s.character.rect
      { x := 0, y := env.innerHeight - 10, width := env.innerWidth, height := 5 } = true) :
    checkCollisions env s = gameOver s ∧
    (checkCollisions env s).isPlaying = false ∧
    (checkCollisions env s).character = s.character ∧
    (checkCollisions env s).attachedPlatform = s.attachedPlatform ∧
    (checkCollisions env s).platformAttachmentOffset = s.platformAttachmentOffset ∧
    (checkCollisions env s).combo = s.combo ∧
    (checkCollisions env s).score = s.score ∧
    (checkCollisions env s).jumpData = s.jumpData := by
  have h : checkCollisions env s = gameOver s := by
    simp [checkCollisions, checkCollisionsBeforeLoop, hline, hhit]
  rw [h]
  exact ⟨rfl, rfl, rfl, rfl, rfl, rfl, rfl, rfl⟩

/-- Witness of `bottom_line_game_over`: a character falling through the strip of an
800 × 600 window. -/
theorem bottom_line_game_over_witness :
    isColliding (airborneAt 140 560 3).character.rect
      { x := 0, y := sampleEnv.innerHeight - 10, width := sampleEnv.innerWidth, height := 5 }
      = true ∧
    checkCollisions sampleEnv (airborneAt 140 560 3) = gameOver (airborneAt 140 560 3) :=
  have hhit : isColliding (airborneAt 140 560 3).character.rect
      { x := 0, y := sampleEnv.innerHeight - 10, width := sampleEnv.innerWidth, height := 5 }
      = true := by
    norm_num [isColliding, airborneAt, sampleEnv, Character.rect]
  ⟨hhit, (bottom_line_game_over sampleEnv (airborneAt 140 560 3)
    (by norm_num [airborneAt, sampleEnv]) hhit).1⟩

/-! ## C9: the length of the motion trace -/

theorem trackJumpStart_trajectory (env : Env α) (s : GameState α) :
    (trackJumpStart env s).jumpData.trajectory = [] := rfl

theorem updatePhysics_trajectory_le (env : Env α) (s : GameState α)
    (h : s.jumpData.trajectory.length ≤ 50) :
    (updatePhysics env s).jumpData.trajectory.length ≤ 50 := by
  have hi : (integrateAndRecord env s).jumpData.trajectory.length ≤ 50 := by
    unfold integrateAndRecord
    dsimp only
    split_ifs with hlt
    · simp only [List.length_append, List.length_singleton]
      omega
    · exact h
  unfold updatePhysics
  dsimp only
  split_ifs
  · show (checkGameFailureConditions env (integrateAndRecord env s)).jumpData.trajectory.length ≤ 50
    rw [(checkGameFailureConditions_fields env _).1]
    exact hi
  · rw [(checkGameFailureConditions_fields env _).1]
    exact hi
  · exact h

/-- C9 at the failing input: the trace holds 50 samples, the bound the claim states, and
`checkCollisions` lands the character; `trackJumpLanding` appends without looking at the
length, and the trace holds 51 samples. -/
theorem trajectory_exceeds_50_after_landing :
    fullTraceState.jumpData.trajectory.length = 50 ∧
    landingPlatform fullTraceState = some firstPlatform ∧
    (checkCollisions sampleEnv fullTraceState).jumpData.trajectory.length = 51 := by
  have hl : landingPlatform fullTraceState = some firstPlatform := by
    norm_num [fullTraceState, airborneAt, firstPlatform, landingPlatform,
      checkCollisionsBeforeLoop, syncAttachment, resetIfNotOnGround, landingTest, isColliding,
      Character.rect, Platform.rect]
  obtain ⟨s4, hb, hf⟩ := landingPlatform_eq_some _ _ hl
  have h4 : s4 = fullTraceState := checkCollisionsBeforeLoop_of_jumping _ _ rfl hb
  refine ⟨by simp [fullTraceState], hl, ?_⟩
  rw [checkCollisions_of_landing sampleEnv _ s4 _ hb hf, (landOn_fields sampleEnv _ s4).2.2.2, h4]
  simp [fullTraceState]

/-! ## C10: attachment tracking -/

/-- The three shapes of the state after the attachment step, for a grounded character
attached to `p`: released, or still attached to `p` within 2 units of its place. -/
theorem syncAttachment_attached (s : GameState α) (p : Platform α)
    (hj : s.character.isJumping = false) (ha : s.attachedPlatform = some p) :
    ((syncAttachment s).attachedPlatform = none ∧
      (syncAttachment s).platformAttachmentOffset = 0 ∧
      (syncAttachment s).character.isJumping = true) ∨
    ((syncAttachment s).attachedPlatform = some p ∧
      (syncAttachment s).platformAttachmentOffset = s.platformAttachmentOffset ∧
      (syncAttachment s).character.isJumping = false ∧
      |(syncAttachment s).character.x - (p.x + s.platformAttachmentOffset)| ≤ 2) := by
  unfold syncAttachment
  simp only [ha, hj, Bool.false_eq_true, if_false]
  by_cases hd : |p.x + s.platformAttachmentOffset - s.character.x| > 2
  · simp only [hd, if_true]
    split_ifs
    · exact Or.inl ⟨rfl, rfl, rfl⟩
    · refine Or.inr ⟨rfl, rfl, rfl, ?_⟩
      simp
  · simp only [hd, if_false]
    split_ifs
    · exact Or.inl ⟨rfl, rfl, rfl⟩
    · refine Or.inr ⟨rfl, rfl, hj, ?_⟩
      rw [abs_sub_comm]
      exact not_lt.mp hd

/-- C10 as the claim states it, at a concrete input: a grounded character attached to a
platform and 10 units away from its place on it, crossed by the bottom strip of a window
325 high.
`checkCollisions` returns at the game-over check: the attachment is kept and the
character is still 10 units away. -/
theorem attachment_tracking_counterexample :
    groundedOnStrip.bottomCollisionLine =
      (createBottomCollisionLine { sampleEnv with innerHeight := 325 }
        groundedOffPlace).bottomCollisionLine ∧
    groundedOnStrip.character.isJumping = false ∧
    groundedOnStrip.attachedPlatform = some firstPlatform ∧
    (checkCollisions sampleEnv groundedOnStrip).attachedPlatform = some firstPlatform ∧
    (checkCollisions sampleEnv groundedOnStrip).character.isJumping = false ∧
    |(checkCollisions sampleEnv groundedOnStrip).character.x -
      (firstPlatform.x + (checkCollisions sampleEnv groundedOnStrip).platformAttachmentOffset)|
      = 10 := by
  norm_num [groundedOnStrip, groundedOffPlace, airborneAt, firstPlatform, checkCollisions,
    checkCollisionsBeforeLoop, isColliding, Character.rect, gameOver,
    createBottomCollisionLine, sampleEnv]

/-- C10, amended: after every `checkCollisions` tick on a character that is not jumping,
is attached to a platform and does not touch the bottom collision strip, either the
attachment has been released (`attachedPlatform` cleared, offset 0, `isJumping` set) or
the character is attached to a platform `q` (the same one, or the one it has just landed
on) with `|character.x − (q.x + platformAttachmentOffset)| ≤ 2`. -/
theorem attachment_tracking (env : Env α) (s : GameState α) (p : Platform α)
    (hj : s.character.isJumping = false) (ha : s.attachedPlatform = some p)
    (hline : ∀ line, s.bottomCollisionLine = some line →
      isColliding s.character.rect line = false) :
    ((checkCollisions env s).attachedPlatform = none ∧
      (checkCollisions env s).platformAttachmentOffset = 0 ∧
      (checkCollisions env s).character.isJumping = true) ∨
    (∃ q, (checkCollisions env s).attachedPlatform = some q ∧
      (q = p ∨ landingPlatform s = some q) ∧
      |(checkCollisions env s).character.x -
        (q.x + (checkCollisions env s).platformAttachmentOffset)| ≤ 2) := by
  have hbl : (match s.bottomCollisionLine with
      | some line => isColliding s.character.rect line
      | none => false) = false := by
    cases hl : s.bottomCollisionLine with
    | none => rfl
    | some line => exact hline line hl
  have hpre : checkCollisionsBeforeLoop s =
      if (syncAttachment s).character.isJumping = true ∧ (syncAttachment s).character.vy ≤ 0 then
        Except.error (syncAttachment s)
      else Except.ok (resetIfNotOnGround (syncAttachment s)) := by
    unfold checkCollisionsBeforeLoop
    simp only [hbl, Bool.false_eq_true, if_false]
  -- the state with which the loop starts is released or in place
  have hreset : ((resetIfNotOnGround (syncAttachment s)).attachedPlatform = none ∧
        (resetIfNotOnGround (syncAttachment s)).platformAttachmentOffset = 0 ∧
        (resetIfNotOnGround (syncAttachment s)).character.isJumping = true) ∨
      ((resetIfNotOnGround (syncAttachment s)).attachedPlatform = some p ∧
        |(resetIfNotOnGround (syncAttachment s)).character.x -
          (p.x + (resetIfNotOnGround (syncAttachment s)).platformAttachmentOffset)| ≤ 2) := by
    rcases syncAttachment_attached s p hj ha with ⟨h1, h2, h3⟩ | ⟨h1, h2, h3, h4⟩
    · rw [resetIfNotOnGround_of_jumping _ h3]
      exact Or.inl ⟨h1, h2, h3⟩
    · unfold resetIfNotOnGround
      split_ifs
      · exact Or.inr ⟨h1, by rw [h2]; exact h4⟩
      · exact Or.inl ⟨rfl, rfl, rfl⟩
      · exact Or.inr ⟨h1, by rw [h2]; exact h4⟩
  by_cases hret : (syncAttachment s).character.isJumping = true ∧ (syncAttachment s).character.vy ≤ 0
  · rw [if_pos hret] at hpre
    have hcc : checkCollisions env s = syncAttachment s := by simp [checkCollisions, hpre]
    rw [hcc]
    rcases syncAttachment_attached s p hj ha with ⟨h1, h2, h3⟩ | ⟨h1, h2, h3, h4⟩
    · exact Or.inl ⟨h1, h2, h3⟩
    · rw [h3] at hret
      exact absurd hret.1 (by simp)
  · rw [if_neg hret] at hpre
    cases hf : (resetIfNotOnGround (syncAttachment s)).platforms.find?
        (landingTest (resetIfNotOnGround (syncAttachment s)).character) with
    | none =>
      have hcc : checkCollisions env s = resetIfNotOnGround (syncAttachment s) := by
        simp [checkCollisions, hpre, hf]
      rw [hcc]
      rcases hreset with h | ⟨h1, h2⟩
      · exact Or.inl h
      · exact Or.inr ⟨p, h1, Or.inl rfl, h2⟩
    | some q =>
      rw [checkCollisions_of_landing env s _ q hpre hf]
      obtain ⟨hc, hat, hoff, -⟩ := landOn_fields env q (resetIfNotOnGround (syncAttachment s))
      refine Or.inr ⟨q, hat, Or.inr (by simp [landingPlatform, hpre, hf]), ?_⟩
      rw [hoff, hc]
      simp

/-- Witness of `attachment_tracking`: the character of `groundedOffPlace`, far above the
strip; the tick moves it to its place on the platform, `x = 80 + 60`. -/
theorem attachment_tracking_witness :
    (checkCollisions sampleEnv groundedOffPlace).character.x = 140 ∧
    (((checkCollisions sampleEnv groundedOffPlace).attachedPlatform = none ∧
      (checkCollisions sampleEnv groundedOffPlace).platformAttachmentOffset = 0 ∧
      (checkCollisions sampleEnv groundedOffPlace).character.isJumping = true) ∨
    (∃ q, (checkCollisions sampleEnv groundedOffPlace).attachedPlatform = some q ∧
      (q = firstPlatform ∨ landingPlatform groundedOffPlace = some q) ∧
      |(checkCollisions sampleEnv groundedOffPlace).character.x -
        (q.x + (checkCollisions sampleEnv groundedOffPlace).platformAttachmentOffset)| ≤ 2)) :=
  ⟨by
    norm_num [groundedOffPlace, airborneAt, firstPlatform, checkCollisions,
      checkCollisionsBeforeLoop, isColliding, Character.rect, Platform.rect, syncAttachment,
      resetIfNotOnGround, onGround, landingTest],
   attachment_tracking sampleEnv groundedOffPlace firstPlatform rfl rfl (by
    intro line hl
    have : line = { x := 0, y := 590, width := 800, height := 5 } := by
      simpa [groundedOffPlace, airborneAt] using hl.symm
    subst this
    norm_num [groundedOffPlace, airborneAt, isColliding, Character.rect])⟩

/-! ## C11: platform continuity -/

theorem generatePlatform_platforms (env : Env α) (d : PlatformDraws α) (s : GameState α) :
    ∃ platform, (generatePlatform env d s).platforms = s.platforms ++ [platform] := by
  exact ⟨_, rfl⟩

theorem generatePlatform_length (env : Env α) (d : PlatformDraws α) (s : GameState α) :
    (generatePlatform env d s).platforms.length = s.platforms.length + 1 := by
  simp [generatePlatform]

theorem foldl_max_le_iff (c : α) (l : List α) (a : α) :
    c ≤ l.foldl max a ↔ c ≤ a ∨ ∃ x ∈ l, c ≤ x := by
  induction l generalizing a with
  | nil => simp
  | cons b l ih =>
    rw [List.foldl_cons, ih, le_max_iff]
    simp only [List.mem_cons, exists_eq_or_imp]
    tauto

theorem le_rightmostX_iff (c : α) (platforms : List (Platform α)) (h : platforms ≠ []) :
    c ≤ rightmostX platforms ↔ ∃ p ∈ platforms, c ≤ p.x + p.width := by
  cases platforms with
  | nil => exact absurd rfl h
  | cons p ps =>
    simp only [rightmostX, List.map_cons, foldl_max_le_iff, List.mem_map, List.mem_cons,
      exists_eq_or_imp]
    constructor
    · rintro (h1 | ⟨x, ⟨q, hq, rfl⟩, hx⟩)
      · exact Or.inl h1
      · exact Or.inr ⟨q, hq, hx⟩
    · rintro (h1 | ⟨q, hq, hx⟩)
      · exact Or.inl h1
      · exact Or.inr ⟨_, ⟨q, hq, rfl⟩, hx⟩

/-- The invariant left by the first loop: the right of the screen is covered, or the cap
of 8 platforms is reached. -/
theorem coverageLoop_spec (env : Env α) (draws : ℕ → PlatformDraws α) (hW : 0 ≤ env.innerWidth)
    (k : ℕ) (s : GameState α) :
    s.platforms.length ≤ (coverageLoop env draws k s).1.platforms.length ∧
    ((coverageLoop env draws k s).1.platforms.length ≤ max 8 s.platforms.length) ∧
    (coverageLoop env draws k s).1.platforms ≠ [] ∧
    (env.innerWidth + 200 ≤ rightmostX (coverageLoop env draws k s).1.platforms ∨
      8 ≤ (coverageLoop env draws k s).1.platforms.length) ∧
    (coverageLoop env draws k s).1.score = s.score := by
  induction k, s using coverageLoop.induct env draws with
  | case1 k s hc ih =>
    rw [coverageLoop, if_pos hc]
    obtain ⟨h1, h2, h3, h4, h5⟩ := ih
    rw [generatePlatform_length] at h1 h2
    refine ⟨by omega, ?_, h3, h4, h5⟩
    have := hc.2
    rw [max_eq_left (by omega)] at h2 ⊢
    exact h2
  | case2 k s hc =>
    rw [coverageLoop, if_neg hc]
    dsimp only
    refine ⟨le_refl _, le_max_right _ _, ?_, ?_, rfl⟩
    · intro hnil
      apply hc
      rw [hnil]
      exact ⟨by simp only [rightmostX, List.map_nil]; linarith, by simp⟩
    · by_cases h8 : s.platforms.length < 8
      · left
        by_contra hlt
        exact hc ⟨not_le.mp hlt, h8⟩
      · right; omega

/-- The second loop only appends, up to 4 platforms. -/
theorem minimumLoop_spec (env : Env α) (draws : ℕ → PlatformDraws α) (k : ℕ) (s : GameState α) :
    s.platforms <+: (minimumLoop env draws k s).1.platforms ∧
    (minimumLoop env draws k s).1.platforms.length = max 4 s.platforms.length ∧
    (minimumLoop env draws k s).1.score = s.score := by
  induction k, s using minimumLoop.induct env draws with
  | case1 k s hc ih =>
    rw [minimumLoop, if_pos hc]
    obtain ⟨h1, h2, h3⟩ := ih
    rw [generatePlatform_length] at h2
    refine ⟨?_, ?_, h3⟩
    · exact List.IsPrefix.trans (List.prefix_append _ _) h1
    · rw [h2, max_eq_left (by omega), max_eq_left (by omega)]
  | case2 k s hc =>
    rw [minimumLoop, if_neg hc]
    dsimp only
    exact ⟨List.prefix_refl _, by rw [max_eq_right (by omega)], rfl⟩

/-- What `ensurePlatformsContinuity` guarantees from any set of at most 8 platforms. -/
theorem ensurePlatformsContinuity_spec (env : Env α) (draws : ℕ → PlatformDraws α)
    (hW : 0 ≤ env.innerWidth) (s : GameState α) (h8 : s.platforms.length ≤ 8) :
    4 ≤ (ensurePlatformsContinuity env draws s).platforms.length ∧
    (ensurePlatformsContinuity env draws s).platforms.length ≤ 8 ∧
    (env.innerWidth + 200 ≤ rightmostX (ensurePlatformsContinuity env draws s).platforms ∨
      (ensurePlatformsContinuity env draws s).platforms.length = 8) ∧
    (ensurePlatformsContinuity env draws s).score = s.score := by
  obtain ⟨c1, c2, c3, c4, c5⟩ := coverageLoop_spec env draws hW 0 s
  obtain ⟨m1, m2, m3⟩ := minimumLoop_spec env draws (coverageLoop env draws 0 s).2
    (coverageLoop env draws 0 s).1
  rw [max_eq_left h8] at c2
  unfold ensurePlatformsContinuity
  dsimp only
  refine ⟨by rw [m2]; exact le_max_left _ _, by rw [m2]; exact max_le (by norm_num) c2, ?_,
    by rw [m3, c5]⟩
  rcases c4 with hcov | hcap
  · left
    have hne : (minimumLoop env draws (coverageLoop env draws 0 s).2
        (coverageLoop env draws 0 s).1).1.platforms ≠ [] := by
      intro hnil
      rw [hnil] at m1
      exact c3 (List.prefix_nil.mp m1)
    rw [le_rightmostX_iff _ _ hne]
    obtain ⟨p, hp, hle⟩ := (le_rightmostX_iff _ _ c3).mp hcov
    exact ⟨p, m1.subset hp, hle⟩
  · right
    rw [m2, max_eq_right (by omega)]
    omega

theorem updatePlatforms_spec (env : Env α) (draws : ℕ → PlatformDraws α)
    (hW : 0 ≤ env.innerWidth) (s : GameState α) (h8 : s.platforms.length ≤ 8) :
    4 ≤ (updatePlatforms env draws s).platforms.length ∧
    (updatePlatforms env draws s).platforms.length ≤ 8 ∧
    (env.innerWidth + 200 ≤ rightmostX (updatePlatforms env draws s).platforms ∨
      (updatePlatforms env draws s).platforms.length = 8) := by
  have hlen : ((s.platforms.map (movePlatform env s)).filter fun platform =>
      decide (platform.x + platform.width > -100)).length ≤ 8 := by
    refine le_trans (List.length_filter_le _ _) ?_
    rw [List.length_map]
    exact h8
  obtain ⟨e1, e2, e3, -⟩ := ensurePlatformsContinuity_spec env draws hW
    { s with
      platforms := (s.platforms.map (movePlatform env s)).filter fun platform =>
        decide (platform.x + platform.width > -100)
      attachedPlatform := s.attachedPlatform.map fun platform =>
        if platform ∈ s.platforms then movePlatform env s platform else platform
      bottomCollisionLine := s.bottomCollisionLine.map fun line =>
        { line with x := 0, width := env.innerWidth } } hlen
  unfold updatePlatforms
  dsimp only
  split_ifs
  · exact ⟨e1, e2, e3⟩
  · exact ⟨e1, e2, e3⟩

theorem generateInitialPlatforms_length (env : Env α) (draws : ℕ → PlatformDraws α)
    (s : GameState α) : (generateInitialPlatforms env draws s).platforms.length = 5 := by
  unfold generateInitialPlatforms
  dsimp only
  rw [generatePlatform_length, generatePlatform_length, generatePlatform_length]
  rfl

/-- C11: starting from the 5 platforms of `generateInitialPlatforms`, after any sequence
of `updatePlatforms` ticks (in windows of non-negative width) the number of active
platforms is in `[4, 8]`, and after at least one tick either the rightmost platform edge
is at least `innerWidth + 200` (for the window of the last tick) or there are 8
platforms. Both loops of `ensurePlatformsContinuity` terminate (`coverageLoop` and
`minimumLoop` are total functions), and from every set of at most 8 platforms they leave
between 4 and 8 platforms. -/
theorem platform_continuity (env0 : Env α) (draws0 : ℕ → PlatformDraws α) (s0 : GameState α)
    (ticks : List (Env α × (ℕ → PlatformDraws α)))
    (hW : ∀ tick ∈ ticks, 0 ≤ tick.1.innerWidth) :
    (generateInitialPlatforms env0 draws0 s0).platforms.length = 5 ∧
    4 ≤ (updatePlatformsTicks ticks
      (generateInitialPlatforms env0 draws0 s0)).platforms.length ∧
    (updatePlatformsTicks ticks
      (generateInitialPlatforms env0 draws0 s0)).platforms.length ≤ 8 ∧
    (∀ last ∈ ticks.getLast?,
      last.1.innerWidth + 200 ≤ rightmostX (updatePlatformsTicks ticks
        (generateInitialPlatforms env0 draws0 s0)).platforms ∨
      (updatePlatformsTicks ticks
        (generateInitialPlatforms env0 draws0 s0)).platforms.length = 8) ∧
    (∀ (env : Env α) (draws : ℕ → PlatformDraws α) (s : GameState α),
      0 ≤ env.innerWidth → s.platforms.length ≤ 8 →
      4 ≤ (ensurePlatformsContinuity env draws s).platforms.length ∧
      (ensurePlatformsContinuity env draws s).platforms.length ≤ 8) := by
  have key : ∀ (ticks : List (Env α × (ℕ → PlatformDraws α))) (s : GameState α),
      (∀ tick ∈ ticks, 0 ≤ tick.1.innerWidth) →
      4 ≤ s.platforms.length → s.platforms.length ≤ 8 →
      4 ≤ (updatePlatformsTicks ticks s).platforms.length ∧
      (updatePlatformsTicks ticks s).platforms.length ≤ 8 ∧
      (∀ last ∈ ticks.getLast?,
        last.1.innerWidth + 200 ≤ rightmostX (updatePlatformsTicks ticks s).platforms ∨
        (updatePlatformsTicks ticks s).platforms.length = 8) := by
    intro ticks
    induction ticks using List.reverseRecOn with
    | nil =>
      intro s _ h4 h8
      exact ⟨h4, h8, by simp⟩
    | append_singleton ticks tick ih =>
      intro s hW h4 h8
      have hprev := ih s (fun t ht => hW t (List.mem_append_left _ ht)) h4 h8
      have hstep := updatePlatforms_spec tick.1 tick.2
        (hW tick (List.mem_append_right _ (List.mem_singleton_self _)))
        (updatePlatformsTicks ticks s) hprev.2.1
      have hrun : updatePlatformsTicks (ticks ++ [tick]) s =
          updatePlatforms tick.1 tick.2 (updatePlatformsTicks ticks s) := by
        simp [updatePlatformsTicks, List.foldl_append]
      rw [hrun]
      refine ⟨hstep.1, hstep.2.1, ?_⟩
      intro last hlast
      have hl : (ticks ++ [tick]).getLast? = some tick := by simp
      rw [hl] at hlast
      have hlast2 : tick = last := by simpa using hlast
      subst hlast2
      exact hstep.2.2
  have h5 := generateInitialPlatforms_length env0 draws0 s0
  obtain ⟨k1, k2, k3⟩ := key ticks (generateInitialPlatforms env0 draws0 s0) hW
    (by omega) (by omega)
  refine ⟨h5, k1, k2, k3, ?_⟩
  intro env draws s hW8 h8
  obtain ⟨e1, e2, -, -⟩ := ensurePlatformsContinuity_spec env draws hW8 s h8
  exact ⟨e1, e2⟩

/-- Witness of `platform_continuity`: two ticks in an 800 × 600 window. -/
theorem platform_continuity_witness :
    4 ≤ (updatePlatformsTicks [(sampleEnv, fun _ => halfDraws), (sampleEnv, fun _ => halfDraws)]
      (generateInitialPlatforms sampleEnv (fun _ => halfDraws)
        (airborneAt 140 280 0))).platforms.length ∧
    (updatePlatformsTicks [(sampleEnv, fun _ => halfDraws), (sampleEnv, fun _ => halfDraws)]
      (generateInitialPlatforms sampleEnv (fun _ => halfDraws)
        (airborneAt 140 280 0))).platforms.length ≤ 8 :=
  have h := platform_continuity sampleEnv (fun _ => halfDraws) (airborneAt 140 280 0)
    [(sampleEnv, fun _ => halfDraws), (sampleEnv, fun _ => halfDraws)]
    (by
      intro tick htick
      simp only [List.mem_cons, List.mem_singleton, List.not_mem_nil, or_false, or_self] at htick
      subst htick
      norm_num [sampleEnv])
  ⟨h.2.1, h.2.2.1⟩

/-! ## C12 and C13: where a generated platform is placed -/

/-- The platform appended by `generatePlatform` to a non-empty list. -/
theorem generatePlatform_of_last (env : Env α) (d : PlatformDraws α) (s : GameState α)
    (last : Platform α) (hlast : s.platforms.getLast? = some last) :
    ∃ p, (generatePlatform env d s).platforms = s.platforms ++ [p] ∧
      p.x = max (env.innerWidth * 0.5) (last.x + last.width + (100 + d.distance * (180 - 100))) ∧
      p.y =
        (if max 200 (min 400 (last.y + (d.heightChange - 0.5) * 80 * 2)) < 200 + 50 then
          200 + 50 + d.edge * 50
        else if max 200 (min 400 (last.y + (d.heightChange - 0.5) * 80 * 2)) > 400 - 50 then
          400 - 50 - d.edge * 50
        else max 200 (min 400 (last.y + (d.heightChange - 0.5) * 80 * 2))) ∧
      p.width = max 50 (60 + d.width * 40) ∧
      p.height = 20 := by
  refine ⟨_, rfl, ?_, ?_, rfl, rfl⟩
  · simp only [hlast]
  · simp only [hlast]

/-- C13: for every non-empty platform list, whatever the `y` of the last platform and
whatever the draws in `[0, 1)`, the platform appended by `generatePlatform` has its `y` in
`[250, 350]` (inside the clamp range `[200, 400]`): a clamped value below 250 is replaced
by `250 + u · 50`, one above 350 by `350 − u · 50`. Its width is in `[60, 100)` and its
height is 20. -/
theorem generated_platform_height_range (env : Env α) (d : PlatformDraws α) (s : GameState α)
    (last : Platform α) (hlast : s.platforms.getLast? = some last)
    (he : 0 ≤ d.edge ∧ d.edge < 1) (hw : 0 ≤ d.width ∧ d.width < 1) :
    ∃ p, (generatePlatform env d s).platforms = s.platforms ++ [p] ∧
      (250 ≤ p.y ∧ p.y ≤ 350) ∧ (200 ≤ p.y ∧ p.y ≤ 400) ∧
      (max 200 (min 400 (last.y + (d.heightChange - 0.5) * 160)) < 250 →
        p.y = 250 + d.edge * 50) ∧
      (max 200 (min 400 (last.y + (d.heightChange - 0.5) * 160)) > 350 →
        p.y = 350 - d.edge * 50) ∧
      (250 ≤ max 200 (min 400 (last.y + (d.heightChange - 0.5) * 160)) →
        max 200 (min 400 (last.y + (d.heightChange - 0.5) * 160)) ≤ 350 →
        p.y = max 200 (min 400 (last.y + (d.heightChange - 0.5) * 160))) ∧
      (60 ≤ p.width ∧ p.width < 100) ∧ p.height = 20 := by
  obtain ⟨p, hp, -, hy, hwd, hh⟩ := generatePlatform_of_last env d s last hlast
  have hc : (last.y + (d.heightChange - 0.5) * 80 * 2) =
      last.y + (d.heightChange - 0.5) * 160 := by ring
  rw [hc] at hy
  have h250 : (200 : α) + 50 = 250 := by norm_num
  have h350 : (400 : α) - 50 = 350 := by norm_num
  rw [h250, h350] at hy
  generalize max 200 (min 400 (last.y + (d.heightChange - 0.5) * 160)) = c at hy ⊢
  have hwidth : p.width = 60 + d.width * 40 := by
    rw [hwd, max_eq_right]
    nlinarith [hw.1]
  have ycases : (250 ≤ p.y ∧ p.y ≤ 350) := by
    rw [hy]
    split_ifs with h1 h2
    · constructor <;> nlinarith [he.1, he.2]
    · constructor <;> nlinarith [he.1, he.2]
    · exact ⟨not_lt.mp h1, not_lt.mp h2⟩
  refine ⟨p, hp, ycases, ⟨by linarith [ycases.1], by linarith [ycases.2]⟩, ?_, ?_, ?_, ?_, hh⟩
  · intro h; rw [hy, if_pos h]
  · intro h
    have h1 : ¬ c < 250 := by linarith
    rw [hy, if_neg h1, if_pos h]
  · intro h1 h2
    rw [hy, if_neg (not_lt.mpr h1), if_neg (not_lt.mpr h2)]
  · rw [hwidth]
    constructor <;> nlinarith [hw.1, hw.2]

/-- C12, amended: for every non-empty platform list, every window width and every
distance draw `u` in `[0, 1)`, `generatePlatform` places the new platform at
`x = max (0.5 · innerWidth) (lastRight + 100 + 80 u)`, where `lastRight` is the right edge
of the last platform of the list. Its distance to that edge is at least 100; it is in
`[100, 180)` when `0.5 · innerWidth ≤ lastRight + 100 + 80 u`, and otherwise the platform
is at `0.5 · innerWidth`, farther away. -/
theorem generated_platform_spacing (env : Env α) (d : PlatformDraws α) (s : GameState α)
    (last : Platform α) (hlast : s.platforms.getLast? = some last)
    (hd : 0 ≤ d.distance ∧ d.distance < 1) :
    ∃ p, (generatePlatform env d s).platforms = s.platforms ++ [p] ∧
      p.x = max (0.5 * env.innerWidth) (last.x + last.width + 100 + 80 * d.distance) ∧
      100 ≤ p.x - (last.x + last.width) ∧
      (0.5 * env.innerWidth ≤ last.x + last.width + 100 + 80 * d.distance →
        p.x - (last.x + last.width) < 180) ∧
      (last.x + last.width + 100 + 80 * d.distance < 0.5 * env.innerWidth →
        p.x = 0.5 * env.innerWidth) := by
  obtain ⟨p, hp, hx, -, -, -⟩ := generatePlatform_of_last env d s last hlast
  have hx2 : p.x = max (0.5 * env.innerWidth) (last.x + last.width + 100 + 80 * d.distance) := by
    rw [hx]
    congr 1
    · ring
    · ring
  refine ⟨p, hp, hx2, ?_, ?_, ?_⟩
  · rw [hx2]
    have := le_max_right (0.5 * env.innerWidth) (last.x + last.width + 100 + 80 * d.distance)
    linarith [hd.1]
  · intro h
    rw [hx2, max_eq_right h]
    linarith [hd.2]
  · intro h
    rw [hx2, max_eq_left h.le]

/-- C12 as the claim states it, at a concrete input: in a window 1920 wide, after the first
platform (right edge 330) the new platform is placed at `x = 960`, half the window
width, 630 away from that edge. -/
theorem platform_spacing_counterexample :
    (airborneAt 140 280 0).platforms.getLast? = some firstPlatform ∧
    (0 ≤ halfDraws.distance ∧ halfDraws.distance < 1) ∧
    (generatePlatform wideEnv halfDraws (airborneAt 140 280 0)).platforms.getLast?.map
      (fun p => p.x - (firstPlatform.x + firstPlatform.width)) = some 630 := by
  refine ⟨rfl, by norm_num [halfDraws], ?_⟩
  norm_num [generatePlatform, airborneAt, firstPlatform, wideEnv, halfDraws]

/-- Witness of `generated_platform_spacing`: in a window 800 wide the new platform is 140
to the right of the first platform. -/
theorem generated_platform_spacing_witness :
    ∃ p, (generatePlatform sampleEnv halfDraws (airborneAt 140 280 0)).platforms =
        (airborneAt 140 280 0).platforms ++ [p] ∧
      100 ≤ p.x - (firstPlatform.x + firstPlatform.width) ∧
      p.x - (firstPlatform.x + firstPlatform.width) < 180 := by
  obtain ⟨p, hp, -, h1, h2, -⟩ := generated_platform_spacing sampleEnv halfDraws
    (airborneAt 140 280 0) firstPlatform rfl (by norm_num [halfDraws])
  exact ⟨p, hp, h1, h2 (by norm_num [sampleEnv, firstPlatform, halfDraws])⟩

/-- Witness of `generated_platform_height_range`: a platform generated after the first
one. -/
theorem generated_platform_height_range_witness :
    ∃ p, (generatePlatform sampleEnv halfDraws (airborneAt 140 280 0)).platforms =
        (airborneAt 140 280 0).platforms ++ [p] ∧
      (250 ≤ p.y ∧ p.y ≤ 350) ∧ (60 ≤ p.width ∧ p.width < 100) ∧ p.height = 20 := by
  obtain ⟨p, hp, hy, -, -, -, -, hw, hh⟩ := generated_platform_height_range sampleEnv halfDraws
    (airborneAt 140 280 0) firstPlatform rfl (by norm_num [halfDraws])
    (by norm_num [halfDraws])
  exact ⟨p, hp, hy, hw, hh⟩

/-! ## C14 and C15: the landing forecast -/

/-- C14 at the failing input `p = 50`: `jump` launches with `vy = −15`, the value the
specification gives, and `vx = 7.5`; the forecast of `predictLandingPosition` starts from
the speed `8 + 12 · 50 / 100 = 14` at the fixed angle `−π/4`, so its `vy` is
`14 sin(−π/4) ≥ −14` and its `vx` is `14 cos(−π/4)`. The gravity is 0.8 in both. -/
theorem predictor_launch_velocity_differs :
    (jump { innerWidth := 800, innerHeight := 600, now := 1000, sin := Real.sin, PI := Real.pi }
      (chargingState 50 none)).character.vy = -15 ∧
    (jump { innerWidth := 800, innerHeight := 600, now := 1000, sin := Real.sin, PI := Real.pi }
      (chargingState 50 none)).character.vx = 7.5 ∧
    specLaunchVelocity
      { innerWidth := 800, innerHeight := 600, now := 1000, sin := Real.sin, PI := Real.pi }
      50 = (7.5, -15) ∧
    (predictLandingPosition
      { innerWidth := 800, innerHeight := 600, now := 1000, sin := Real.sin, PI := Real.pi }
      { cos := Real.cos, sqrt := Real.sqrt } (some 50) (chargingState 50 none)).velocity =
      (14 * Real.cos (-Real.pi / 4), 14 * Real.sin (-Real.pi / 4)) ∧
    -14 ≤ (predictLandingPosition
      { innerWidth := 800, innerHeight := 600, now := 1000, sin := Real.sin, PI := Real.pi }
      { cos := Real.cos, sqrt := Real.sqrt } (some 50) (chargingState 50 none)).velocity.2 ∧
    (predictLandingPosition
      { innerWidth := 800, innerHeight := 600, now := 1000, sin := Real.sin, PI := Real.pi }
      { cos := Real.cos, sqrt := Real.sqrt } (some 50) (chargingState 50 none)).velocity ≠
      specLaunchVelocity
        { innerWidth := 800, innerHeight := 600, now := 1000, sin := Real.sin, PI := Real.pi }
        50 := by
  have hhalf : Real.pi * ((50 : ℝ) / 100) = Real.pi / 2 := by ring
  have hspec : specLaunchVelocity
      { innerWidth := 800, innerHeight := 600, now := 1000, sin := Real.sin, PI := Real.pi }
      50 = ((7.5 : ℝ), (-15 : ℝ)) := by
    simp only [specLaunchVelocity, hhalf, Real.sin_pi_div_two]
    norm_num
  have hj := jump_fields
    { innerWidth := 800, innerHeight := 600, now := 1000, sin := Real.sin, PI := Real.pi }
    (chargingState (50 : ℝ) none) rfl rfl
  have hmin : min (chargingState (50 : ℝ) none).power 150 = 50 := by
    show min (50 : ℝ) 150 = 50
    norm_num
  have hvel : (predictLandingPosition
      { innerWidth := 800, innerHeight := 600, now := 1000, sin := Real.sin, PI := Real.pi }
      { cos := Real.cos, sqrt := Real.sqrt } (some 50) (chargingState 50 none)).velocity =
      (14 * Real.cos (-Real.pi / 4), 14 * Real.sin (-Real.pi / 4)) := by
    simp only [predictLandingPosition, Option.getD_some]
    norm_num
  have hlow : (-14 : ℝ) ≤ 14 * Real.sin (-Real.pi / 4) := by
    have := Real.neg_one_le_sin (-Real.pi / 4)
    linarith
  refine ⟨?_, ?_, hspec, hvel, ?_, ?_⟩
  · rw [hj.2.1, hmin]
    show -Real.sin (50 / 100 * Real.pi) * 15 = -15
    have : (50 : ℝ) / 100 * Real.pi = Real.pi / 2 := by ring
    rw [this, Real.sin_pi_div_two]; ring
  · rw [hj.1, hmin]
    show (50 + (50 : ℝ) / 100 * 200) / 20 + _ = 7.5
    have : ((none : Option (Platform ℝ)).bind fun platform => platform.speed).getD 0 = 0 := rfl
    simp only [chargingState, Option.none_bind, Option.getD_none]
    norm_num
  · rw [hvel]
    exact hlow
  · rw [hvel, hspec]
    intro h
    have h2 := congrArg Prod.snd h
    simp only at h2
    linarith

/-- C15: `calculateLandingQuality` maps every accuracy `a` and landing velocity `v` to the
label and base score of the first matching band (`a ≥ 0.9`: perfect, 100; `a ≥ 0.7`:
excellent, 70; `a ≥ 0.5`: good, 40; `a ≥ 0.3`: ok, 20; otherwise miss, 0) and returns
`score = max(0, base − 2 |v.y|)`, which lies in `[0, 100]`; the accuracy is returned as
given. -/
theorem landing_quality_bands (a : α) (v : α × α) :
    (a ≥ 0.9 → (calculateLandingQuality a v).quality = LandingLabel.perfect ∧
      (calculateLandingQuality a v).score = max 0 (100 - 2 * |v.2|)) ∧
    (a < 0.9 → a ≥ 0.7 → (calculateLandingQuality a v).quality = LandingLabel.excellent ∧
      (calculateLandingQuality a v).score = max 0 (70 - 2 * |v.2|)) ∧
    (a < 0.7 → a ≥ 0.5 → (calculateLandingQuality a v).quality = LandingLabel.good ∧
      (calculateLandingQuality a v).score = max 0 (40 - 2 * |v.2|)) ∧
    (a < 0.5 → a ≥ 0.3 → (calculateLandingQuality a v).quality = LandingLabel.ok ∧
      (calculateLandingQuality a v).score = max 0 (20 - 2 * |v.2|)) ∧
    (a < 0.3 → (calculateLandingQuality a v).quality = LandingLabel.miss ∧
      (calculateLandingQuality a v).score = max 0 (0 - 2 * |v.2|)) ∧
    (0 ≤ (calculateLandingQuality a v).score ∧ (calculateLandingQuality a v).score ≤ 100) ∧
    (calculateLandingQuality a v).accuracy = a := by
  have hpen : 0 ≤ |v.2| := abs_nonneg _
  have hcomm : |v.2| * 2 = 2 * |v.2| := mul_comm _ _
  refine ⟨?_, ?_, ?_, ?_, ?_, ?_, rfl⟩
  · intro h1
    simp only [calculateLandingQuality, if_pos h1, hcomm]
    exact ⟨trivial, trivial⟩
  · intro h1 h2
    simp only [calculateLandingQuality, if_neg (not_le.mpr h1), if_pos h2, hcomm]
    exact ⟨trivial, trivial⟩
  · intro h1 h2
    have h0 : a < 0.9 := by
      refine lt_trans h1 ?_
      norm_num
    simp only [calculateLandingQuality, if_neg (not_le.mpr h0), if_neg (not_le.mpr h1),
      if_pos h2, hcomm]
    exact ⟨trivial, trivial⟩
  · intro h1 h2
    have h0 : a < 0.7 := lt_trans h1 (by norm_num)
    have h00 : a < 0.9 := lt_trans h0 (by norm_num)
    simp only [calculateLandingQuality, if_neg (not_le.mpr h00), if_neg (not_le.mpr h0),
      if_neg (not_le.mpr h1), if_pos h2, hcomm]
    exact ⟨trivial, trivial⟩
  · intro h1
    have h2 : a < 0.5 := lt_trans h1 (by norm_num)
    have h3 : a < 0.7 := lt_trans h2 (by norm_num)
    have h4 : a < 0.9 := lt_trans h3 (by norm_num)
    simp only [calculateLandingQuality, if_neg (not_le.mpr h4), if_neg (not_le.mpr h3),
      if_neg (not_le.mpr h2), if_neg (not_le.mpr h1), hcomm]
    exact ⟨trivial, trivial⟩
  · constructor
    · exact le_max_left _ _
    · simp only [calculateLandingQuality]
      apply max_le (by norm_num)
      split_ifs <;> (dsimp only; linarith)

/-- Witness of `landing_quality_bands`: accuracy 0.95 and a landing speed of 10 give the
label perfect and the score 80. -/
theorem landing_quality_bands_witness :
    (calculateLandingQuality (0.95 : ℚ) (3, 10)).quality = LandingLabel.perfect ∧
    (calculateLandingQuality (0.95 : ℚ) (3, 10)).score = 80 := by
  have h := (landing_quality_bands (0.95 : ℚ) (3, 10)).1 (by norm_num)
  refine ⟨h.1, ?_⟩
  rw [h.2]
  norm_num

/-! ## C16: the sub-metrics of the judge -/

theorem unit_clamp_bounds (x : α) : 0 ≤ max 0 (1 - x) ∧ (0 ≤ x → max 0 (1 - x) ≤ 1) :=
  ⟨le_max_left _ _, fun h => max_le (by norm_num) (by linarith)⟩

theorem calculatePositionAccuracy_bounds (m : JsMath α) (playerPos targetPos : α × α) :
    0 ≤ calculatePositionAccuracy m playerPos targetPos ∧
    calculatePositionAccuracy m playerPos targetPos ≤ 1 := by
  unfold calculatePositionAccuracy
  exact ⟨le_min (by norm_num) (le_max_left _ _), min_le_left _ _⟩

theorem calculateTimingPrecision_bounds (jumpData : SubmittedJumpData α) :
    0 ≤ calculateTimingPrecision jumpData ∧ calculateTimingPrecision jumpData ≤ 1 := by
  unfold calculateTimingPrecision
  exact ⟨le_min (by norm_num) (le_max_left _ _), min_le_left _ _⟩

theorem calculateLandingStability_bounds (m : JsMath α) (hsqrt : ∀ x, 0 ≤ m.sqrt x)
    (jumpData : SubmittedJumpData α) :
    0 ≤ calculateLandingStability m jumpData ∧ calculateLandingStability m jumpData ≤ 1 := by
  unfold calculateLandingStability
  dsimp only
  have hv := unit_clamp_bounds
    (m.sqrt ((jumpData.landingVelocity.getD (0, 0)).1 * (jumpData.landingVelocity.getD (0, 0)).1 +
      (jumpData.landingVelocity.getD (0, 0)).2 * (jumpData.landingVelocity.getD (0, 0)).2) / 200)
  have ha := unit_clamp_bounds (|jumpData.landingAngle.getD 0| / 45)
  have hv2 := hv.2 (div_nonneg (hsqrt _) (by norm_num))
  have ha2 := ha.2 (div_nonneg (abs_nonneg _) (by norm_num))
  constructor
  · nlinarith [hv.1, ha.1]
  · nlinarith [hv.1, ha.1]

theorem calculateAcceleration_of_time (m : JsMath α) (pos1 pos2 : TrajectoryPoint α)
    (h1 : pos1.time.isSome = true) (h2 : pos2.time.isSome = true) :
    ∃ a, calculateAcceleration m pos1 pos2 = some a := by
  obtain ⟨t1, ht1⟩ := Option.isSome_iff_exists.mp h1
  obtain ⟨t2, ht2⟩ := Option.isSome_iff_exists.mp h2
  unfold calculateAcceleration
  rw [ht1, ht2]
  dsimp only
  split_ifs
  · exact ⟨_, rfl⟩
  · exact ⟨_, rfl⟩

/-- With numeric times every summand of the smoothness loop is a number in `[0, 1]`, and
there is one summand for each triplet. -/
theorem smoothnessTerms_of_time (m : JsMath α) (trajectory : List (TrajectoryPoint α))
    (htime : ∀ pos ∈ trajectory, pos.time.isSome = true) :
    ∃ terms : List α, smoothnessTerms m trajectory = terms.map some ∧
      terms.length = trajectory.length - 2 ∧ ∀ t ∈ terms, 0 ≤ t ∧ t ≤ 1 := by
  induction trajectory with
  | nil => exact ⟨[], rfl, rfl, by simp⟩
  | cons pos0 tail ih =>
    cases tail with
    | nil => exact ⟨[], rfl, rfl, by simp⟩
    | cons pos1 tail2 =>
      cases tail2 with
      | nil => exact ⟨[], rfl, rfl, by simp⟩
      | cons pos2 rest =>
        obtain ⟨terms, hterms, hlen, hbound⟩ :=
          ih (fun pos hpos => htime pos (List.mem_cons_of_mem _ hpos))
        obtain ⟨a1, ha1⟩ := calculateAcceleration_of_time m pos0 pos1
          (htime pos0 (by simp)) (htime pos1 (by simp))
        obtain ⟨a2, ha2⟩ := calculateAcceleration_of_time m pos1 pos2
          (htime pos1 (by simp)) (htime pos2 (by simp))
        refine ⟨max 0 (1 - |a2 - a1| / 100) :: terms, ?_, ?_, ?_⟩
        · rw [smoothnessTerms, ha1, ha2, hterms]
          rfl
        · simp only [List.length_cons] at hlen ⊢
          omega
        · intro t ht
          rcases List.mem_cons.mp ht with rfl | ht
          · have := unit_clamp_bounds (|a2 - a1| / 100)
            exact ⟨this.1, this.2 (div_nonneg (abs_nonneg _) (by norm_num))⟩
          · exact hbound t ht

theorem foldl_nan_add_some (terms : List α) (a : α) :
    (terms.map some).foldl
      (fun total term => do
        let t ← total
        let x ← term
        pure (t + x))
      (some a) = some (a + terms.sum) := by
  induction terms generalizing a with
  | nil => simp
  | cons t terms ih =>
    rw [List.map_cons, List.foldl_cons]
    have : (do
        let t' ← some a
        let x ← some t
        pure (t' + x) : Option α) = some (a + t) := rfl
    rw [this, ih, List.sum_cons, add_assoc]

theorem sum_bounds_of_unit (terms : List α) (h : ∀ t ∈ terms, 0 ≤ t ∧ t ≤ 1) :
    0 ≤ terms.sum ∧ terms.sum ≤ (terms.length : α) := by
  induction terms with
  | nil => simp
  | cons t terms ih =>
    have ht := h t (List.mem_cons_self _ _)
    have := ih (fun x hx => h x (List.mem_cons_of_mem _ hx))
    rw [List.sum_cons, List.length_cons, Nat.cast_succ]
    constructor <;> linarith [ht.1, ht.2, this.1, this.2]

theorem calculateTrajectorySmoothness_of_time (m : JsMath α)
    (jumpData : SubmittedJumpData α)
    (htime : ∀ pos ∈ jumpData.trajectory, pos.time.isSome = true) :
    ∃ v, calculateTrajectorySmoothness m jumpData = some v ∧ 0 ≤ v ∧ v ≤ 1 := by
  unfold calculateTrajectorySmoothness
  dsimp only
  split_ifs with hlen
  · exact ⟨0.5, rfl, by norm_num, by norm_num⟩
  · obtain ⟨terms, hterms, hl, hbound⟩ := smoothnessTerms_of_time m jumpData.trajectory htime
    rw [hterms, foldl_nan_add_some]
    have hsum := sum_bounds_of_unit terms hbound
    have hcast : ((jumpData.trajectory.length : α) - 2) = (terms.length : α) := by
      rw [hl, Nat.cast_sub (by omega)]
      norm_num
    have hpos : (0 : α) < (terms.length : α) := by
      have : 0 < terms.length := by omega
      exact_mod_cast this
    refine ⟨(0 + terms.sum) / ((jumpData.trajectory.length : α) - 2), rfl, ?_, ?_⟩
    · rw [hcast, zero_add]
      exact div_nonneg hsum.1 hpos.le
    · rw [hcast, zero_add, div_le_one hpos]
      exact hsum.2

/-- C16: for all numeric inputs of `multiDimensionalJudgment` (a trajectory whose entries
carry a numeric `time`, a square root that is never negative), each of the four
sub-metrics lies in `[0, 1]`, and the composite score is
`0.4 · positionAccuracy + 0.3 · timingPrecision + 0.2 · trajectorySmoothness +
0.1 · landingStability`, which lies in `[0, 1]` as well. -/
theorem judgment_metrics_in_unit_interval (m : JsMath α) (hsqrt : ∀ x, 0 ≤ m.sqrt x)
    (playerPosition targetPosition : α × α) (jumpData : SubmittedJumpData α)
    (playerSkill : PlayerSkill α)
    (htime : ∀ pos ∈ jumpData.trajectory, pos.time.isSome = true) :
    ∃ smoothness composite : α,
      (multiDimensionalJudgment m playerPosition targetPosition jumpData
        playerSkill).dimensions.trajectorySmoothness = some smoothness ∧
      (multiDimensionalJudgment m playerPosition targetPosition jumpData
        playerSkill).compositeScore = some composite ∧
      (0 ≤ (multiDimensionalJudgment m playerPosition targetPosition jumpData
          playerSkill).dimensions.positionAccuracy ∧
        (multiDimensionalJudgment m playerPosition targetPosition jumpData
          playerSkill).dimensions.positionAccuracy ≤ 1) ∧
      (0 ≤ (multiDimensionalJudgment m playerPosition targetPosition jumpData
          playerSkill).dimensions.timingPrecision ∧
        (multiDimensionalJudgment m playerPosition targetPosition jumpData
          playerSkill).dimensions.timingPrecision ≤ 1) ∧
      (0 ≤ smoothness ∧ smoothness ≤ 1) ∧
      (0 ≤ (multiDimensionalJudgment m playerPosition targetPosition jumpData
          playerSkill).dimensions.landingStability ∧
        (multiDimensionalJudgment m playerPosition targetPosition jumpData
          playerSkill).dimensions.landingStability ≤ 1) ∧
      composite =
        0.4 * (multiDimensionalJudgment m playerPosition targetPosition jumpData
          playerSkill).dimensions.positionAccuracy +
        0.3 * (multiDimensionalJudgment m playerPosition targetPosition jumpData
          playerSkill).dimensions.timingPrecision +
        0.2 * smoothness +
        0.1 * (multiDimensionalJudgment m playerPosition targetPosition jumpData
          playerSkill).dimensions.landingStability ∧
      (0 ≤ composite ∧ composite ≤ 1) := by
  obtain ⟨v, hv, hv0, hv1⟩ := calculateTrajectorySmoothness_of_time m jumpData htime
  have hp := calculatePositionAccuracy_bounds m playerPosition targetPosition
  have ht := calculateTimingPrecision_bounds jumpData
  have hl := calculateLandingStability_bounds m hsqrt jumpData
  refine ⟨v, calculatePositionAccuracy m playerPosition targetPosition * 0.4 +
    calculateTimingPrecision jumpData * 0.3 + v * 0.2 +
    calculateLandingStability m jumpData * 0.1, ?_, ?_, hp, ht, ⟨hv0, hv1⟩, hl, ?_, ?_⟩
  · exact hv
  · simp only [multiDimensionalJudgment, hv, Option.map_some']
  · simp only [multiDimensionalJudgment]
    ring
  · constructor
    · nlinarith [hp.1, ht.1, hl.1]
    · nlinarith [hp.2, ht.2, hl.2]

/-- Witness of `judgment_metrics_in_unit_interval`: the real square root and a trajectory
of three timed entries. -/
theorem judgment_metrics_in_unit_interval_witness :
    ∃ smoothness composite : ℝ,
      (multiDimensionalJudgment { cos := Real.cos, sqrt := Real.sqrt } (150, 280) (153, 284)
        timedJumpData { level := some 2, gamesPlayed := 12, avgScore := 100 }).compositeScore
        = some composite ∧
      (0 ≤ smoothness ∧ smoothness ≤ 1) ∧ (0 ≤ composite ∧ composite ≤ 1) := by
  obtain ⟨smoothness, composite, -, h2, -, -, h5, -, -, h8⟩ :=
    judgment_metrics_in_unit_interval { cos := Real.cos, sqrt := Real.sqrt } Real.sqrt_nonneg
      (150, 280) (153, 284) timedJumpData { level := some 2, gamesPlayed := 12, avgScore := 100 }
      (by
        intro pos hpos
        simp only [timedJumpData, List.mem_cons, List.mem_singleton, List.not_mem_nil,
          or_false] at hpos
        rcases hpos with rfl | rfl | rfl <;> rfl)
  exact ⟨smoothness, composite, h2, h5, h8⟩

/-! ## C17 and C18: trajectory smoothness and the label -/

theorem calculateAcceleration_of_recorded (m : JsMath α) (sample1 sample2 : MotionSample α) :
    calculateAcceleration m sample1.toTrajectoryPoint sample2.toTrajectoryPoint = none := rfl

theorem foldl_nan_add_none (terms : List (Option α)) :
    terms.foldl
      (fun total term => do
        let t ← total
        let x ← term
        pure (t + x))
      (none : Option α) = none := by
  induction terms with
  | nil => rfl
  | cons t terms ih =>
    rw [List.foldl_cons]
    exact ih

/-- On every trajectory of at least 3 samples as the game records them, the code of
`calculateTrajectorySmoothness` yields `NaN`. -/
theorem calculateTrajectorySmoothness_of_recorded (m : JsMath α)
    (jumpData : SubmittedJumpData α) (samples : List (MotionSample α))
    (htraj : jumpData.trajectory = samples.map MotionSample.toTrajectoryPoint)
    (hlen : 3 ≤ samples.length) :
    calculateTrajectorySmoothness m jumpData = none := by
  unfold calculateTrajectorySmoothness
  dsimp only
  have hl : ¬ jumpData.trajectory.length < 3 := by
    rw [htraj, List.length_map]
    omega
  rw [if_neg hl, htraj]
  match samples, hlen with
  | sample0 :: sample1 :: sample2 :: rest, _ =>
    simp only [List.map_cons, smoothnessTerms, calculateAcceleration_of_recorded,
      List.foldl_cons]
    have : (do
        let t ← some (0 : α)
        let x ← (do
          let accel1 ← (none : Option α)
          let accel2 ← (none : Option α)
          pure (max 0 (1 - |accel2 - accel1| / 100)))
        pure (t + x) : Option α) = none := rfl
    rw [this, foldl_nan_add_none]
    rfl

/-- C17 at the failing input: three samples recorded by the game in free flight, handed
to the judge by `gameOver`. The judge reads the field `time`, which the samples do not
have, and the smoothness is `NaN`; the specification gives 1 for this trajectory (constant
acceleration, no jerk). -/
theorem recorded_trajectory_smoothness_is_nan :
    (flightRecordedState : GameState ℝ).jumpData.trajectory.length = 3 ∧
    calculateTrajectorySmoothness { cos := Real.cos, sqrt := Real.sqrt }
      (submittedJumpData (flightRecordedState : GameState ℝ)) = none ∧
    (multiDimensionalJudgment { cos := Real.cos, sqrt := Real.sqrt }
      (submittedJumpData (flightRecordedState : GameState ℝ)).playerPosition
      (submittedJumpData (flightRecordedState : GameState ℝ)).targetPosition
      (submittedJumpData (flightRecordedState : GameState ℝ))
      { level := some 1, gamesPlayed := 0, avgScore := 0 }).compositeScore = none ∧
    specTrajectorySmoothness { cos := Real.cos, sqrt := Real.sqrt }
      (flightRecordedState : GameState ℝ).jumpData.trajectory = 1 := by
  have hnan : calculateTrajectorySmoothness { cos := Real.cos, sqrt := Real.sqrt }
      (submittedJumpData (flightRecordedState : GameState ℝ)) = none :=
    calculateTrajectorySmoothness_of_recorded _ _ recordedFlight rfl (by simp [recordedFlight])
  refine ⟨by simp [flightRecordedState, recordedFlight], hnan, ?_, ?_⟩
  · simp only [multiDimensionalJudgment, hnan, Option.map_none']
  · simp only [specTrajectorySmoothness, flightRecordedState, recordedFlight, specJerkScores,
      specAcceleration]
    norm_num

/-- C18: the label returned by `multiDimensionalJudgment` is a function of the composite
score alone (perfect from 0.95, excellent from 0.9, good from 0.8, acceptable from 0.7,
miss below and for `NaN`), and two player skills give the same result for the same
positions and jump data: the thresholds of `getDynamicThresholds` are not read. -/
theorem judgment_independent_of_skill (m : JsMath α) (playerPosition targetPosition : α × α)
    (jumpData : SubmittedJumpData α) (skill1 skill2 : PlayerSkill α) :
    multiDimensionalJudgment m playerPosition targetPosition jumpData skill1 =
      multiDimensionalJudgment m playerPosition targetPosition jumpData skill2 ∧
    (∀ c, (multiDimensionalJudgment m playerPosition targetPosition jumpData
        skill1).compositeScore = some c →
      (multiDimensionalJudgment m playerPosition targetPosition jumpData skill1).judgment =
        if c ≥ 0.95 then JudgmentLabel.perfect
        else if c ≥ 0.9 then JudgmentLabel.excellent
        else if c ≥ 0.8 then JudgmentLabel.good
        else if c ≥ 0.7 then JudgmentLabel.acceptable
        else JudgmentLabel.miss) ∧
    ((multiDimensionalJudgment m playerPosition targetPosition jumpData
        skill1).compositeScore = none →
      (multiDimensionalJudgment m playerPosition targetPosition jumpData skill1).judgment =
        JudgmentLabel.miss) := by
  refine ⟨rfl, ?_, ?_⟩
  · intro c hc
    have : (multiDimensionalJudgment m playerPosition targetPosition jumpData skill1).judgment =
        makeJudgment (multiDimensionalJudgment m playerPosition targetPosition jumpData
          skill1).compositeScore (getDynamicThresholds skill1) := rfl
    rw [this, hc]
    rfl
  · intro hc
    have : (multiDimensionalJudgment m playerPosition targetPosition jumpData skill1).judgment =
        makeJudgment (multiDimensionalJudgment m playerPosition targetPosition jumpData
          skill1).compositeScore (getDynamicThresholds skill1) := rfl
    rw [this, hc]
    rfl

/-- Witness of `judgment_independent_of_skill`: a composite score and the label it
gives, for the real square root and a trajectory of three timed entries. -/
theorem judgment_independent_of_skill_witness :
    ∃ c : ℝ,
      (multiDimensionalJudgment { cos := Real.cos, sqrt := Real.sqrt } (150, 280) (153, 284)
        timedJumpData { level := some 2, gamesPlayed := 12, avgScore := 100 }).compositeScore
        = some c ∧
      (multiDimensionalJudgment { cos := Real.cos, sqrt := Real.sqrt } (150, 280) (153, 284)
        timedJumpData { level := some 2, gamesPlayed := 12, avgScore := 100 }).judgment =
        if c ≥ 0.95 then JudgmentLabel.perfect
        else if c ≥ 0.9 then JudgmentLabel.excellent
        else if c ≥ 0.8 then JudgmentLabel.good
        else if c ≥ 0.7 then JudgmentLabel.acceptable
        else JudgmentLabel.miss := by
  obtain ⟨v, hv, -, -⟩ := calculateTrajectorySmoothness_of_time
    { cos := Real.cos, sqrt := Real.sqrt } (timedJumpData : SubmittedJumpData ℝ)
    (by
      intro pos hpos
      simp only [timedJumpData, List.mem_cons, List.mem_singleton, List.not_mem_nil,
        or_false] at hpos
      rcases hpos with rfl | rfl | rfl <;> rfl)
  have hc : (multiDimensionalJudgment { cos := Real.cos, sqrt := Real.sqrt } (150, 280)
      (153, 284) timedJumpData
      { level := some 2, gamesPlayed := 12, avgScore := 100 }).compositeScore = some
        (calculatePositionAccuracy { cos := Real.cos, sqrt := Real.sqrt } (150, 280) (153, 284)
            * 0.4 +
          calculateTimingPrecision (timedJumpData : SubmittedJumpData ℝ) * 0.3 + v * 0.2 +
          calculateLandingStability { cos := Real.cos, sqrt := Real.sqrt }
            (timedJumpData : SubmittedJumpData ℝ) * 0.1) := by
    simp only [multiDimensionalJudgment, hv, Option.map_some']
  exact ⟨_, hc, (judgment_independent_of_skill { cos := Real.cos, sqrt := Real.sqrt }
    (150, 280) (153, 284) timedJumpData { level := some 2, gamesPlayed := 12, avgScore := 100 }
    { level := some 1, gamesPlayed := 0, avgScore := 0 }).2.1 _ hc⟩

/-! ## C19 and C20: anti-cheat rules -/

/-- C19: for every list of violations with `h` entries of severity high and `m` of
severity medium, `calculateRiskLevel` returns critical iff `h ≥ 2` or (`h ≥ 1` and
`m ≥ 2`); otherwise high iff `h ≥ 1` or `m ≥ 3`; otherwise medium iff `m ≥ 1`; otherwise
low. Two high violations alone give critical, one high and one medium give high, and no
violation gives low. -/
theorem risk_level_aggregation {β : Type} (violations : List (Violation β)) (t : β) :
    (calculateRiskLevel violations = RiskLevel.critical ↔
      (violations.filter fun v => v.severity = Severity.high).length ≥ 2 ∨
      ((violations.filter fun v => v.severity = Severity.high).length ≥ 1 ∧
        (violations.filter fun v => v.severity = Severity.medium).length ≥ 2)) ∧
    (calculateRiskLevel violations = RiskLevel.high ↔
      ¬ ((violations.filter fun v => v.severity = Severity.high).length ≥ 2 ∨
        ((violations.filter fun v => v.severity = Severity.high).length ≥ 1 ∧
          (violations.filter fun v => v.severity = Severity.medium).length ≥ 2)) ∧
      ((violations.filter fun v => v.severity = Severity.high).length ≥ 1 ∨
        (violations.filter fun v => v.severity = Severity.medium).length ≥ 3)) ∧
    (calculateRiskLevel violations = RiskLevel.medium ↔
      (violations.filter fun v => v.severity = Severity.high).length = 0 ∧
      (violations.filter fun v => v.severity = Severity.medium).length ≥ 1 ∧
      (violations.filter fun v => v.severity = Severity.medium).length < 3) ∧
    (calculateRiskLevel violations = RiskLevel.low ↔
      (violations.filter fun v => v.severity = Severity.high).length = 0 ∧
      (violations.filter fun v => v.severity = Severity.medium).length = 0) ∧
    calculateRiskLevel
      [{ type := ViolationType.impossible_score, severity := Severity.high, timestamp := t },
       { type := ViolationType.position_teleport, severity := Severity.high, timestamp := t }]
      = RiskLevel.critical ∧
    calculateRiskLevel
      [{ type := ViolationType.impossible_score, severity := Severity.high, timestamp := t },
       { type := ViolationType.speed_hack, severity := Severity.medium, timestamp := t }]
      = RiskLevel.high ∧
    calculateRiskLevel ([] : List (Violation β)) = RiskLevel.low := by
  have hempty : violations.length = 0 →
      (violations.filter fun v => v.severity = Severity.high).length = 0 ∧
      (violations.filter fun v => v.severity = Severity.medium).length = 0 := by
    intro h0
    have : violations = [] := List.length_eq_zero.mp h0
    subst this
    exact ⟨rfl, rfl⟩
  refine ⟨?_, ?_, ?_, ?_, ?_, ?_, rfl⟩
  · unfold calculateRiskLevel
    dsimp only
    split_ifs with h0 h1 h2 h3
    · obtain ⟨e1, e2⟩ := hempty h0
      simp [e1, e2]
    · simp [h1]
    · simp [h1]
    · simp [h1]
    · simp [h1]
  · unfold calculateRiskLevel
    dsimp only
    split_ifs with h0 h1 h2 h3
    · obtain ⟨e1, e2⟩ := hempty h0
      simp [e1, e2]
    · simp [h1]
    · simp [h1, h2]
    · simp [h2]
    · simp [h2]
  · unfold calculateRiskLevel
    dsimp only
    split_ifs with h0 h1 h2 h3
    · obtain ⟨e1, e2⟩ := hempty h0
      simp [e1, e2]
    · simp only [reduceCtorEq, false_iff]
      omega
    · simp only [reduceCtorEq, false_iff]
      omega
    · simp only [true_iff]
      omega
    · simp only [reduceCtorEq, false_iff]
      omega
  · unfold calculateRiskLevel
    dsimp only
    split_ifs with h0 h1 h2 h3
    · obtain ⟨e1, e2⟩ := hempty h0
      simp [e1, e2]
    · simp only [reduceCtorEq, false_iff]
      omega
    · simp only [reduceCtorEq, false_iff]
      omega
    · simp only [reduceCtorEq, false_iff]
      omega
    · simp only [true_iff]
      omega
  · simp [calculateRiskLevel]
  · simp [calculateRiskLevel]

/-- C20: the violations returned by `detectCheating` are exactly those of the four rules
whose condition holds, each on its own, in this order and with this severity:
impossible_score (high) iff `score > 10000`; speed_hack (medium) iff
`reactionTime < 200`; position_teleport (high) iff `positionDelta > 100`; perfect_streak
(medium) iff `perfectStreak > 50`. `isCheating` holds iff at least one rule fired, and when
none fires the result is `isCheating = false` with risk level low. -/
theorem detect_cheating_rules (env : Env α) (playerId : ℕ) (score : α)
    (jumpData : SubmittedJumpData α) (sys : AntiCheatSystem α) :
    ((detectCheating env playerId score jumpData sys).1.violations.map
        fun v => (v.type, v.severity)) =
      (if score > 10000 then [(ViolationType.impossible_score, Severity.high)] else []) ++
      (if jumpData.reactionTime < 200 then [(ViolationType.speed_hack, Severity.medium)]
        else []) ++
      (if jumpData.positionDelta > 100 then [(ViolationType.position_teleport, Severity.high)]
        else []) ++
      (if jumpData.perfectStreak > 50 then [(ViolationType.perfect_streak, Severity.medium)]
        else []) ∧
    ((detectCheating env playerId score jumpData sys).1.isCheating = true ↔
      score > 10000 ∨ jumpData.reactionTime < 200 ∨ jumpData.positionDelta > 100 ∨
        jumpData.perfectStreak > 50) ∧
    (¬ (score > 10000 ∨ jumpData.reactionTime < 200 ∨ jumpData.positionDelta > 100 ∨
        jumpData.perfectStreak > 50) →
      (detectCheating env playerId score jumpData sys).1.isCheating = false ∧
      (detectCheating env playerId score jumpData sys).1.violations = [] ∧
      (detectCheating env playerId score jumpData sys).1.riskLevel = RiskLevel.low ∧
      (detectCheating env playerId score jumpData sys).2 = sys) ∧
    (detectCheating env playerId score jumpData sys).1.riskLevel =
      calculateRiskLevel (detectCheating env playerId score jumpData sys).1.violations := by
  refine ⟨?_, ?_, ?_, rfl⟩
  · simp only [detectCheating]
    by_cases h1 : score > 10000 <;> by_cases h2 : jumpData.reactionTime < 200 <;>
      by_cases h3 : jumpData.positionDelta > 100 <;>
      by_cases h4 : jumpData.perfectStreak > 50 <;>
      simp [h1, h2, h3, h4]
  · simp only [detectCheating]
    by_cases h1 : score > 10000 <;> by_cases h2 : jumpData.reactionTime < 200 <;>
      by_cases h3 : jumpData.positionDelta > 100 <;>
      by_cases h4 : jumpData.perfectStreak > 50 <;>
      simp [h1, h2, h3, h4]
  · intro hnone
    simp only [not_or] at hnone
    obtain ⟨h1, h2, h3, h4⟩ := hnone
    simp [detectCheating, h1, h2, h3, h4, calculateRiskLevel]

/-- Witness of `detect_cheating_rules`: a submission on which no rule fires. -/
theorem detect_cheating_rules_witness :
    (detectCheating sampleEnv 7 120 (timedJumpData : SubmittedJumpData ℚ)
      { suspiciousScores := fun _ => none, playerBehaviorBaseline := fun _ => none }).1.isCheating
      = false ∧
    (detectCheating sampleEnv 7 120 (timedJumpData : SubmittedJumpData ℚ)
      { suspiciousScores := fun _ => none, playerBehaviorBaseline := fun _ => none }).1.riskLevel
      = RiskLevel.low :=
  have h := (detect_cheating_rules sampleEnv 7 120 (timedJumpData : SubmittedJumpData ℚ)
    { suspiciousScores := fun _ => none, playerBehaviorBaseline := fun _ => none }).2.2.1
    (by norm_num [timedJumpData])
  ⟨h.1, h.2.2.1⟩

/-! ## C21 and C22: the running mean and the stored deviation -/

/-- One call of `updateBehaviorBaseline`, read on the entry of the player: the counter
grows by one and the mean moves towards the score by the `n`-th part of the distance. -/
theorem updateBehaviorBaseline_entry (env : Env α) (m : JsMath α) (playerId : ℕ)
    (gameSession : GameSession α) (sys : AntiCheatSystem α) :
    ∃ b, (updateBehaviorBaseline env m playerId gameSession sys).playerBehaviorBaseline playerId =
        some b ∧
      b.gamesPlayed =
        ((sys.playerBehaviorBaseline playerId).getD
          BehaviorBaseline.initial).gamesPlayed + 1 ∧
      b.avgScore * (b.gamesPlayed : α) =
        ((sys.playerBehaviorBaseline playerId).getD
          BehaviorBaseline.initial).avgScore *
          (((sys.playerBehaviorBaseline playerId).getD
            BehaviorBaseline.initial).gamesPlayed : α) + gameSession.score := by
  unfold updateBehaviorBaseline
  dsimp only
  rw [Function.update_same]
  refine ⟨_, rfl, rfl, ?_⟩
  dsimp only
  have hn : (((((sys.playerBehaviorBaseline playerId).getD
      BehaviorBaseline.initial).gamesPlayed + 1 : ℕ) : α)) ≠ 0 :=
    Nat.cast_ne_zero.mpr (Nat.succ_ne_zero _)
  rw [div_mul_cancel₀ _ hn]
  push_cast
  ring

/-- After a run of calls the counter has grown by the number of calls and the product of
mean and counter by the sum of the scores. -/
theorem updateBehaviorBaselineRun_entry (m : JsMath α) (playerId : ℕ)
    (sessions : List (Env α × GameSession α)) (sys : AntiCheatSystem α) :
    (((updateBehaviorBaselineRun m playerId sessions sys).playerBehaviorBaseline playerId).getD
        BehaviorBaseline.initial).gamesPlayed =
      ((sys.playerBehaviorBaseline playerId).getD
        BehaviorBaseline.initial).gamesPlayed + sessions.length ∧
    (((updateBehaviorBaselineRun m playerId sessions sys).playerBehaviorBaseline playerId).getD
        BehaviorBaseline.initial).avgScore *
      ((((updateBehaviorBaselineRun m playerId sessions sys).playerBehaviorBaseline playerId).getD
        BehaviorBaseline.initial).gamesPlayed : α) =
      ((sys.playerBehaviorBaseline playerId).getD
        BehaviorBaseline.initial).avgScore *
        (((sys.playerBehaviorBaseline playerId).getD
          BehaviorBaseline.initial).gamesPlayed : α) +
        (sessions.map fun session => session.2.score).sum ∧
    (sessions ≠ [] →
      ((updateBehaviorBaselineRun m playerId sessions sys).playerBehaviorBaseline
        playerId).isSome = true) := by
  induction sessions generalizing sys with
  | nil => simp [updateBehaviorBaselineRun]
  | cons session rest ih =>
    obtain ⟨b, hb, hg, ha⟩ := updateBehaviorBaseline_entry session.1 m playerId session.2 sys
    have hrun : updateBehaviorBaselineRun m playerId (session :: rest) sys =
        updateBehaviorBaselineRun m playerId rest
          (updateBehaviorBaseline session.1 m playerId session.2 sys) := rfl
    obtain ⟨i1, i2, i3⟩ := ih (updateBehaviorBaseline session.1 m playerId session.2 sys)
    rw [hrun]
    rw [hb] at i1 i2
    simp only [Option.getD_some] at i1 i2
    refine ⟨?_, ?_, ?_⟩
    · rw [i1, hg, List.length_cons]
      omega
    · rw [i2, ha, List.map_cons, List.sum_cons]
      ring
    · intro _
      by_cases hr : rest = []
      · subst hr
        simp [updateBehaviorBaselineRun, hb]
      · exact i3 hr

/-- C21: after `updateBehaviorBaseline` has been called for one player with the scores
of a non-empty history, starting from no baseline, the entry of the player has
`gamesPlayed` equal to the number of calls and `avgScore` equal to the arithmetic mean of
the scores by a direct pass (`specMean`); and each single call, from any state, sets the
mean to `avgScore + (score − avgScore) / n` with `n` the new `gamesPlayed`. -/
theorem running_mean_of_scores (m : JsMath α) (playerId : ℕ)
    (sessions : List (Env α × GameSession α)) (sys : AntiCheatSystem α)
    (hnone : sys.playerBehaviorBaseline playerId = none) (hne : sessions ≠ []) :
    (∃ b, (updateBehaviorBaselineRun m playerId sessions sys).playerBehaviorBaseline playerId =
        some b ∧
      b.gamesPlayed = sessions.length ∧
      b.avgScore = specMean (sessions.map fun session => session.2.score)) ∧
    (∀ (env : Env α) (gameSession : GameSession α) (t : AntiCheatSystem α),
      ∃ b, (updateBehaviorBaseline env m playerId gameSession t).playerBehaviorBaseline playerId =
          some b ∧
        b.gamesPlayed =
          ((t.playerBehaviorBaseline playerId).getD
            BehaviorBaseline.initial).gamesPlayed + 1 ∧
        b.avgScore =
          ((t.playerBehaviorBaseline playerId).getD
            BehaviorBaseline.initial).avgScore +
            (gameSession.score -
              ((t.playerBehaviorBaseline playerId).getD
                BehaviorBaseline.initial).avgScore) / (b.gamesPlayed : α)) := by
  constructor
  · obtain ⟨i1, i2, i3⟩ := updateBehaviorBaselineRun_entry m playerId sessions sys
    have hsome := i3 hne
    rw [Option.isSome_iff_exists] at hsome
    obtain ⟨b, hb⟩ := hsome
    rw [hb, hnone] at i1 i2
    simp only [Option.getD_some, Option.getD_none, BehaviorBaseline.initial, zero_add,
      Nat.cast_zero, mul_zero] at i1 i2
    refine ⟨b, hb, i1, ?_⟩
    have hlen : ((sessions.length : ℕ) : α) ≠ 0 := by
      rw [Nat.cast_ne_zero]
      exact fun h => hne (List.length_eq_zero.mp h)
    rw [specMean, List.length_map, eq_div_iff hlen, ← i1]
    exact i2
  · intro env gameSession t
    obtain ⟨b, hb, hg, ha⟩ := updateBehaviorBaseline_entry env m playerId gameSession t
    refine ⟨b, hb, hg, ?_⟩
    have hN : ((b.gamesPlayed : ℕ) : α) =
        (((t.playerBehaviorBaseline playerId).getD BehaviorBaseline.initial).gamesPlayed : α) +
          1 := by
      rw [hg]
      push_cast
      rfl
    have hn : (((t.playerBehaviorBaseline playerId).getD
        BehaviorBaseline.initial).gamesPlayed : α) + 1 ≠ 0 := Nat.cast_add_one_ne_zero _
    rw [hN] at ha ⊢
    field_simp
    linear_combination ha

/-- Witness of `running_mean_of_scores`: three games with the scores 10, 20 and 60. -/
theorem running_mean_of_scores_witness :
    ∃ b, (updateBehaviorBaselineRun sampleMath 7
        [(sampleEnv, { score := 10, avgReactionTime := 300 }),
          (sampleEnv, { score := 20, avgReactionTime := 300 }),
          (sampleEnv, { score := 60, avgReactionTime := 300 })]
        freshAntiCheat).playerBehaviorBaseline 7 = some b ∧
      b.gamesPlayed = 3 ∧ b.avgScore = 30 :=
  have h := (running_mean_of_scores sampleMath 7
    [(sampleEnv, { score := 10, avgReactionTime := 300 }),
      (sampleEnv, { score := 20, avgReactionTime := 300 }),
      (sampleEnv, { score := 60, avgReactionTime := 300 })]
    freshAntiCheat rfl (by simp)).1
  h.imp fun b hb => ⟨hb.1, hb.2.1, by rw [hb.2.2]; norm_num [specMean]⟩

/-- C22 at a concrete history: after the scores 0 and 2 of one player, starting from no
baseline, the stored `scoreVariance` is `√(1/2)`, while the variance of the history by a
direct pass is 1 and its standard deviation is 1: the stored value is neither. -/
theorem stored_score_variance_differs :
    ((updateBehaviorBaselineRun { cos := Real.cos, sqrt := Real.sqrt } 7
        [({ innerWidth := 800, innerHeight := 600, now := 1000, sin := Real.sin, PI := Real.pi },
            { score := 0, avgReactionTime := 300 }),
          ({ innerWidth := 800, innerHeight := 600, now := 2000, sin := Real.sin, PI := Real.pi },
            { score := 2, avgReactionTime := 300 })]
        freshAntiCheat).playerBehaviorBaseline 7).map (fun b => b.scoreVariance) =
      some (Real.sqrt (1 / 2)) ∧
    specVariance [(0 : ℝ), 2] = 1 ∧
    Real.sqrt (specVariance [(0 : ℝ), 2]) = 1 ∧
    Real.sqrt (1 / 2) < 1 := by
  have hv : specVariance [(0 : ℝ), 2] = 1 := by norm_num [specVariance, specMean]
  refine ⟨?_, hv, by rw [hv, Real.sqrt_one], ?_⟩
  · simp only [updateBehaviorBaselineRun, List.foldl_cons, List.foldl_nil, updateBehaviorBaseline,
      freshAntiCheat, BehaviorBaseline.initial, Option.getD_none, Function.update_same,
      Option.getD_some, Option.map_some']
    norm_num
  · rw [Real.sqrt_lt' one_pos]
    norm_num

/-! ## C23: the reasonableness test -/

/-- C23: `validateScoreReasonableness` answers valid with `insufficient_data` when the
player has no baseline or fewer than 5 games; with 5 games or more it answers invalid
exactly when `score > avgScore + 3 × scoreVariance`, then with `score_too_high`, and
otherwise valid with `within_reasonable_range`. -/
theorem score_reasonableness (playerId : ℕ) (score : α) (sys : AntiCheatSystem α) :
    (sys.playerBehaviorBaseline playerId = none →
      validateScoreReasonableness playerId score sys =
        { isValid := true, reason := ValidationReason.insufficient_data }) ∧
    (∀ b, sys.playerBehaviorBaseline playerId = some b → b.gamesPlayed < 5 →
      validateScoreReasonableness playerId score sys =
        { isValid := true, reason := ValidationReason.insufficient_data }) ∧
    (∀ b, sys.playerBehaviorBaseline playerId = some b → 5 ≤ b.gamesPlayed →
      ((validateScoreReasonableness playerId score sys).isValid = false ↔
        score > b.avgScore + 3 * b.scoreVariance) ∧
      (score > b.avgScore + 3 * b.scoreVariance →
        validateScoreReasonableness playerId score sys =
          { isValid := false, reason := ValidationReason.score_too_high }) ∧
      (¬ score > b.avgScore + 3 * b.scoreVariance →
        validateScoreReasonableness playerId score sys =
          { isValid := true, reason := ValidationReason.within_reasonable_range })) := by
  refine ⟨?_, ?_, ?_⟩
  · intro h
    simp [validateScoreReasonableness, h]
  · intro b h h5
    simp [validateScoreReasonableness, h, h5]
  · intro b h h5
    have h5n : ¬ b.gamesPlayed < 5 := by omega
    by_cases hs : score > b.avgScore + 3 * b.scoreVariance
    · simp [validateScoreReasonableness, h, h5n, hs]
    · simp [validateScoreReasonableness, h, h5n, hs]

/-- Witness of `score_reasonableness`: with six games, mean 100 and stored deviation 10,
the score 131 is rejected and the score 130 is accepted. -/
theorem score_reasonableness_witness :
    validateScoreReasonableness 7 (131 : ℚ) sixGamesBaseline =
      { isValid := false, reason := ValidationReason.score_too_high } ∧
    validateScoreReasonableness 7 (130 : ℚ) sixGamesBaseline =
      { isValid := true, reason := ValidationReason.within_reasonable_range } ∧
    validateScoreReasonableness 8 (131 : ℚ) sixGamesBaseline =
      { isValid := true, reason := ValidationReason.insufficient_data } :=
  ⟨((score_reasonableness 7 (131 : ℚ) sixGamesBaseline).2.2
      { gamesPlayed := 6, avgScore := 100, avgReactionTime := 300, scoreVariance := 10,
        lastUpdate := 0 } rfl (by norm_num)).2.1 (by norm_num),
    ((score_reasonableness 7 (130 : ℚ) sixGamesBaseline).2.2
      { gamesPlayed := 6, avgScore := 100, avgReactionTime := 300, scoreVariance := 10,
        lastUpdate := 0 } rfl (by norm_num)).2.2 (by norm_num),
    (score_reasonableness 8 (131 : ℚ) sixGamesBaseline).1 rfl⟩

/-! ## C24: the handling of a suspicious score -/

theorem detectCheating_isCheating (env : Env α) (playerId : ℕ) (score : α)
    (jumpData : SubmittedJumpData α) (sys : AntiCheatSystem α) :
    ((detectCheating env playerId score jumpData sys).1.isCheating = true ↔
      (detectCheating env playerId score jumpData sys).1.violations ≠ []) ∧
    (detectCheating env playerId score jumpData sys).1.riskLevel =
      calculateRiskLevel (detectCheating env playerId score jumpData sys).1.violations := by
  refine ⟨?_, rfl⟩
  simp only [detectCheating, decide_eq_true_eq, gt_iff_lt, List.length_pos]

/-- The verdict of `detectCheating` does not read the system, and the call leaves the
baselines as they are. -/
theorem detectCheating_baseline (env : Env α) (playerId : ℕ) (score : α)
    (jumpData : SubmittedJumpData α) (sys : AntiCheatSystem α) :
    (detectCheating env playerId score jumpData sys).2.playerBehaviorBaseline =
      sys.playerBehaviorBaseline ∧
    ∀ other : AntiCheatSystem α,
      (detectCheating env playerId score jumpData other).1 =
        (detectCheating env playerId score jumpData sys).1 := by
  refine ⟨?_, fun _ => rfl⟩
  simp only [detectCheating, recordSuspiciousBehavior, cleanupOldRecords]
  split_ifs <;> rfl

theorem validateScoreReasonableness_congr (playerId : ℕ) (score : α) (sys other : AntiCheatSystem α)
    (h : other.playerBehaviorBaseline = sys.playerBehaviorBaseline) :
    validateScoreReasonableness playerId score other =
      validateScoreReasonableness playerId score sys := by
  simp only [validateScoreReasonableness, h]

/-- C24: when `detectCheating` reports at least one violation, `processGameScore` returns
`success = true` exactly when the baseline validation of the score is valid and the risk
level is not critical, then with the warning `score_validated_but_monitored`, and
otherwise `success = false` with the error `score_rejected`; the result carries the
secondary validation. When no violation is reported the result carries no validation, no
warning and no error, and it is the same whatever the baselines are: the secondary
validation is not consulted. -/
theorem suspicious_score_acceptance (env later : Env α) (m : JsMath α) (date : String)
    (score : ℤ) (jumpData : SubmittedJumpData α) (g : GameSystemIntegration α) :
    ((detectCheating env g.playerId (score : α) jumpData g.antiCheat).1.violations ≠ [] →
      ((processGameScore env later m date score jumpData g).1.success = true ↔
        (validateScoreReasonableness g.playerId (score : α) g.antiCheat).isValid = true ∧
        (detectCheating env g.playerId (score : α) jumpData g.antiCheat).1.riskLevel ≠
          RiskLevel.critical) ∧
      ((processGameScore env later m date score jumpData g).1.success = true →
        (processGameScore env later m date score jumpData g).1.warning =
          some ScoreWarning.score_validated_but_monitored ∧
        (processGameScore env later m date score jumpData g).1.error = none) ∧
      ((processGameScore env later m date score jumpData g).1.success = false →
        (processGameScore env later m date score jumpData g).1.error =
          some ScoreError.score_rejected ∧
        (processGameScore env later m date score jumpData g).1.warning = none) ∧
      ((processGameScore env later m date score jumpData g).1.validation.map
          fun validation => (validation.isValid, validation.baselineValidation,
            validation.riskLevel)) =
        some ((processGameScore env later m date score jumpData g).1.success,
          validateScoreReasonableness g.playerId (score : α) g.antiCheat,
          (detectCheating env g.playerId (score : α) jumpData g.antiCheat).1.riskLevel) ∧
      (processGameScore env later m date score jumpData g).1.judgment = none ∧
      (processGameScore env later m date score jumpData g).2.dualStorage = g.dualStorage) ∧
    ((detectCheating env g.playerId (score : α) jumpData g.antiCheat).1.violations = [] →
      (processGameScore env later m date score jumpData g).1.validation = none ∧
      (processGameScore env later m date score jumpData g).1.warning = none ∧
      (processGameScore env later m date score jumpData g).1.error = none ∧
      ∀ baselines : ℕ → Option (BehaviorBaseline α),
        (processGameScore env later m date score jumpData
          { g with antiCheat := { g.antiCheat with playerBehaviorBaseline := baselines } }).1 =
        (processGameScore env later m date score jumpData g).1) := by
  have hc := detectCheating_isCheating env g.playerId (score : α) jumpData g.antiCheat
  have hbase := (detectCheating_baseline env g.playerId (score : α) jumpData g.antiCheat).1
  have hval : validateScoreReasonableness g.playerId (score : α)
      (detectCheating env g.playerId (score : α) jumpData g.antiCheat).2 =
      validateScoreReasonableness g.playerId (score : α) g.antiCheat :=
    validateScoreReasonableness_congr _ _ _ _ hbase
  constructor
  · intro hv
    have hcheat := hc.1.mpr hv
    have hres : (processGameScore env later m date score jumpData g).1 =
        handleSuspiciousScore later score
          (detectCheating env g.playerId (score : α) jumpData g.antiCheat).1
          { g with antiCheat :=
              (detectCheating env g.playerId (score : α) jumpData g.antiCheat).2 } := by
      unfold processGameScore
      dsimp only
      rw [if_pos hcheat]
    have hsto : (processGameScore env later m date score jumpData g).2.dualStorage =
        g.dualStorage := by
      unfold processGameScore
      dsimp only
      rw [if_pos hcheat]
    rw [hres]
    unfold handleSuspiciousScore performSecondaryValidation
    dsimp only
    rw [hval]
    by_cases hok : ((validateScoreReasonableness g.playerId (score : α) g.antiCheat).isValid &&
        decide ((detectCheating env g.playerId (score : α) jumpData g.antiCheat).1.riskLevel ≠
          RiskLevel.critical)) = true
    · rw [if_pos hok]
      refine ⟨?_, ?_, ?_, ?_, rfl, hsto⟩
      · simpa using hok
      · intro _; exact ⟨rfl, rfl⟩
      · intro h; simp at h
      · simpa using hok
    · rw [if_neg hok]
      refine ⟨?_, ?_, ?_, ?_, rfl, hsto⟩
      · simpa using hok
      · intro h; simp at h
      · intro _; exact ⟨rfl, rfl⟩
      · simpa using hok
  · intro hv
    have hcheat : ¬ (detectCheating env g.playerId (score : α) jumpData g.antiCheat).1.isCheating =
        true := fun h => hc.1.mp h hv
    refine ⟨?_, ?_, ?_, ?_⟩
    · unfold processGameScore
      dsimp only
      rw [if_neg hcheat]
    · unfold processGameScore
      dsimp only
      rw [if_neg hcheat]
    · unfold processGameScore
      dsimp only
      rw [if_neg hcheat]
    · intro baselines
      unfold processGameScore
      dsimp only
      have hsame := (detectCheating_baseline env g.playerId (score : α) jumpData g.antiCheat).2
        { g.antiCheat with playerBehaviorBaseline := baselines }
      rw [hsame, if_neg hcheat, if_neg hcheat]
      rfl

/-- Witness of `suspicious_score_acceptance`: a first score of 20000 has one violation of
high severity, a high risk level and no baseline, and is accepted with the warning; with
a position delta of 150 as well the risk level is critical and the score is rejected. -/
theorem suspicious_score_acceptance_witness :
    ((processGameScore sampleEnv sampleEnv sampleMath "2024-01-01" 20000 timedJumpData
        freshSystem).1.success = true ∧
      (processGameScore sampleEnv sampleEnv sampleMath "2024-01-01" 20000 timedJumpData
        freshSystem).1.warning = some ScoreWarning.score_validated_but_monitored) ∧
    ((processGameScore sampleEnv sampleEnv sampleMath "2024-01-01" 20000
        { timedJumpData with positionDelta := 150 } freshSystem).1.success = false ∧
      (processGameScore sampleEnv sampleEnv sampleMath "2024-01-01" 20000
        { timedJumpData with positionDelta := 150 } freshSystem).1.error =
        some ScoreError.score_rejected) :=
  have h1 := (suspicious_score_acceptance sampleEnv sampleEnv sampleMath "2024-01-01" 20000
    timedJumpData freshSystem).1
    (by norm_num [detectCheating, timedJumpData, freshSystem])
  have h2 := (suspicious_score_acceptance sampleEnv sampleEnv sampleMath "2024-01-01" 20000
    { timedJumpData with positionDelta := 150 } freshSystem).1
    (by
      norm_num [detectCheating, timedJumpData, freshSystem]
      exact List.cons_ne_nil _ _)
  have s1 : (processGameScore sampleEnv sampleEnv sampleMath "2024-01-01" 20000 timedJumpData
      freshSystem).1.success = true :=
    h1.1.mpr (by
      norm_num [validateScoreReasonableness, detectCheating, calculateRiskLevel, timedJumpData,
        freshSystem, freshAntiCheat]
      decide)
  have s2 : (processGameScore sampleEnv sampleEnv sampleMath "2024-01-01" 20000
      { timedJumpData with positionDelta := 150 } freshSystem).1.success = false := by
    rw [← Bool.not_eq_true, h2.1]
    norm_num [validateScoreReasonableness, detectCheating, calculateRiskLevel, timedJumpData,
      freshSystem, freshAntiCheat]
  ⟨⟨s1, (h1.2.1 s1).1⟩, ⟨s2, (h2.2.2.1 s2).1⟩⟩

/-! ## C25 and C26: the writers of the ranking -/

/-- Where `findIndex` finds the entry of a player whose name occurs first at the end of
`pre`, and what replacing that entry gives. -/
theorem findIdx_of_first_entry (playerName : String) (pre post : List RankingEntry)
    (existing updated : RankingEntry) (hpre : ∀ q ∈ pre, q.name ≠ playerName)
    (hname : existing.name = playerName) :
    ((pre ++ existing :: post).findIdx? fun player => decide (player.name = playerName)) =
      some pre.length ∧
    (pre ++ existing :: post)[pre.length]? = some existing ∧
    (pre ++ existing :: post).set pre.length updated = pre ++ updated :: post := by
  induction pre with
  | nil => simp [List.findIdx?_cons, hname]
  | cons q pre ih =>
    have hq : q.name ≠ playerName := hpre q (List.mem_cons_self _ _)
    obtain ⟨i1, i2, i3⟩ := ih fun x hx => hpre x (List.mem_cons_of_mem _ hx)
    refine ⟨?_, ?_, ?_⟩
    · simp only [List.cons_append, List.findIdx?_cons, hq, decide_False, Bool.false_eq_true,
        if_false, zero_add, List.findIdx?_succ, i1, List.length_cons, Option.map_some']
    · simpa using i2
    · simp [i3]

/-- The list that `updateRanking` sorts, when the player has no entry yet. -/
theorem updateRanking_of_new {β : Type} (storedName : Option String) (date : String) (s : GameState β)
    (ranking : List RankingEntry)
    (hnew : ∀ q ∈ ranking, q.name ≠ nicknameOrDefault storedName) :
    updateRanking storedName date s (some ranking) =
      (sortByScoreDescending
        (ranking ++ [{ name := nicknameOrDefault storedName, score := s.score,
                       date := date }])).take 50 := by
  have hnone : (ranking.findIdx? fun player =>
      decide (player.name = nicknameOrDefault storedName)) = none := by
    rw [List.findIdx?_eq_none_iff]
    intro q hq
    simpa using hnew q hq
  simp only [updateRanking, getRankingData, Option.getD_some, hnone]

/-- The list that `updateRanking` sorts, when the first entry with the name of the player
is `existing`. -/
theorem updateRanking_of_existing {β : Type} (storedName : Option String) (date : String)
    (s : GameState β) (pre post : List RankingEntry) (existing : RankingEntry)
    (hpre : ∀ q ∈ pre, q.name ≠ nicknameOrDefault storedName)
    (hname : existing.name = nicknameOrDefault storedName) :
    updateRanking storedName date s (some (pre ++ existing :: post)) =
      (sortByScoreDescending
        (if s.score > existing.score then
          pre ++ { existing with score := s.score, date := date } :: post
        else pre ++ existing :: post)).take 50 := by
  obtain ⟨h1, h2, h3⟩ := findIdx_of_first_entry (nicknameOrDefault storedName) pre post existing
    { existing with score := s.score, date := date } hpre hname
  simp only [updateRanking, getRankingData, Option.getD_some, h1, h2]
  by_cases hs : s.score > existing.score
  · simp only [hs, if_true, h3]
  · simp only [hs, if_false]

/-- A list with distinct names splits at the entry of a name, which no other entry
carries. -/
theorem split_at_entry (ranking : List RankingEntry) (existing : RankingEntry)
    (hnodup : (ranking.map fun entry => entry.name).Nodup) (hmem : existing ∈ ranking) :
    ∃ pre post, ranking = pre ++ existing :: post ∧
      (∀ q ∈ pre, q.name ≠ existing.name) ∧ (∀ q ∈ post, q.name ≠ existing.name) ∧
      ranking.erase existing = pre ++ post := by
  obtain ⟨pre, post, rfl⟩ := List.append_of_mem hmem
  rw [List.map_append, List.map_cons, List.nodup_append] at hnodup
  obtain ⟨-, hpost, hdisj⟩ := hnodup
  rw [List.nodup_cons] at hpost
  have hpre : ∀ q ∈ pre, q.name ≠ existing.name := by
    intro q hq heq
    exact hdisj (List.mem_map_of_mem _ hq) (by rw [heq]; exact List.mem_cons_self _ _)
  have hpo : ∀ q ∈ post, q.name ≠ existing.name := by
    intro q hq heq
    exact hpost.1 (by rw [← heq]; exact List.mem_map_of_mem _ hq)
  refine ⟨pre, post, rfl, hpre, hpo, ?_⟩
  have hnot : existing ∉ pre := fun h => hpre existing h rfl
  rw [List.erase_append_right _ hnot, List.erase_cons_head]

/-- Sorting and cutting a list of at most 50 entries with distinct names gives a ranking
that satisfies the invariant and is a permutation of the list. -/
theorem sort_take_invariant (entries : List RankingEntry)
    (hnodup : (entries.map fun entry => entry.name).Nodup) :
    RankingInvariant ((sortByScoreDescending entries).take 50) ∧
    (entries.length ≤ 50 →
      (sortByScoreDescending entries).take 50 = sortByScoreDescending entries ∧
      ((sortByScoreDescending entries).take 50).Perm entries) := by
  have hsorted : (sortByScoreDescending entries).Sorted fun a b => a.score ≥ b.score :=
    List.sorted_insertionSort _ entries
  have hperm : (sortByScoreDescending entries).Perm entries := List.perm_insertionSort _ entries
  refine ⟨⟨?_, ?_, ?_⟩, ?_⟩
  · exact List.Pairwise.sublist (List.take_sublist _ _) hsorted
  · rw [List.length_take]
    exact min_le_left _ _
  · have h1 : ((sortByScoreDescending entries).map fun entry => entry.name).Nodup :=
      ((hperm.map _).nodup_iff).mpr hnodup
    exact List.Nodup.sublist ((List.take_sublist _ _).map _) h1
  · intro hlen
    have htake : (sortByScoreDescending entries).take 50 = sortByScoreDescending entries := by
      apply List.take_of_length_le
      rw [sortByScoreDescending, List.length_insertionSort]
      exact hlen
    exact ⟨htake, by rw [htake]; exact hperm⟩

/-- C25: for every stored ranking that is sorted by descending score, has at most 50
entries and at most one entry for each name, in which the current player has the entry
`existing`: if the submitted score is lower than or equal to the score of that entry,
`updateRanking` stores exactly the same list; if it is higher, the stored list has the
same length, is a permutation of the old list with the entry of the player replaced by
the same entry with the new score and date, holds exactly one entry with the name of the
player, and satisfies the invariant again. -/
theorem update_ranking_existing_player {β : Type} (storedName : Option String) (date : String)
    (s : GameState β) (ranking : List RankingEntry) (existing : RankingEntry)
    (hinv : RankingInvariant ranking) (hmem : existing ∈ ranking)
    (hname : existing.name = nicknameOrDefault storedName) :
    (s.score ≤ existing.score → updateRanking storedName date s (some ranking) = ranking) ∧
    (s.score > existing.score →
      (updateRanking storedName date s (some ranking)).length = ranking.length ∧
      (updateRanking storedName date s (some ranking)).Perm
        ({ existing with score := s.score, date := date } :: ranking.erase existing) ∧
      ((updateRanking storedName date s (some ranking)).filter fun entry =>
          decide (entry.name = nicknameOrDefault storedName)) =
        [{ existing with score := s.score, date := date }] ∧
      RankingInvariant (updateRanking storedName date s (some ranking))) := by
  obtain ⟨hsorted, hlen, hnodup⟩ := hinv
  obtain ⟨pre, post, hsplit, hpre, hpost, herase⟩ := split_at_entry ranking existing hnodup hmem
  rw [hname] at hpre hpost
  have hupd := updateRanking_of_existing storedName date s pre post existing hpre hname
  rw [← hsplit] at hupd
  constructor
  · intro hle
    rw [hupd, if_neg (not_lt.mpr hle), sortByScoreDescending,
      List.Sorted.insertionSort_eq hsorted]
    exact List.take_of_length_le hlen
  · intro hgt
    rw [hupd, if_pos hgt]
    have hnames : ((pre ++ { existing with score := s.score, date := date } :: post).map
        fun entry => entry.name) = ranking.map fun entry => entry.name := by
      rw [hsplit]
      simp
    have hlen1 : (pre ++ { existing with score := s.score, date := date } :: post).length ≤
        50 := by
      have : (pre ++ { existing with score := s.score, date := date } :: post).length =
          ranking.length := by
        rw [hsplit]
        simp
      omega
    obtain ⟨hinv1, hrest⟩ := sort_take_invariant
      (pre ++ { existing with score := s.score, date := date } :: post)
      (by rw [hnames]; exact hnodup)
    obtain ⟨-, hperm⟩ := hrest hlen1
    have hperm2 : (pre ++ { existing with score := s.score, date := date } :: post).Perm
        ({ existing with score := s.score, date := date } :: ranking.erase existing) := by
      rw [herase]
      exact List.perm_middle
    refine ⟨?_, hperm.trans hperm2, ?_, hinv1⟩
    · rw [hperm.length_eq, hsplit]
      simp
    · have hfilter : ((pre ++ { existing with score := s.score, date := date } :: post).filter
          fun entry => decide (entry.name = nicknameOrDefault storedName)) =
          [{ existing with score := s.score, date := date }] := by
        rw [List.filter_append, List.filter_cons_of_pos (by simpa using hname)]
        have h1 : (pre.filter fun entry =>
            decide (entry.name = nicknameOrDefault storedName)) = [] := by
          rw [List.filter_eq_nil_iff]
          intro q hq
          simpa using hpre q hq
        have h2 : (post.filter fun entry =>
            decide (entry.name = nicknameOrDefault storedName)) = [] := by
          rw [List.filter_eq_nil_iff]
          intro q hq
          simpa using hpost q hq
        rw [h1, h2]
        rfl
      have hsub := (hperm.filter fun entry =>
        decide (entry.name = nicknameOrDefault storedName))
      rw [hfilter] at hsub
      exact List.perm_singleton.mp hsub

/-- Witness of `update_ranking_existing_player`: Bob, ranked second with 200 points,
submits 150 and the list is stored as it was; he submits 350 and is ranked first. -/
theorem update_ranking_existing_player_witness :
    updateRanking (some "Bob") "2024-02-01" { airborneAt 140 280 0 with score := 150 }
      (some sampleRanking) = sampleRanking ∧
    ((updateRanking (some "Bob") "2024-02-01" { airborneAt 140 280 0 with score := 350 }
      (some sampleRanking)).filter fun entry => decide (entry.name = "Bob")) =
      [{ name := "Bob", score := 350, date := "2024-02-01" }] :=
  have hinv : RankingInvariant sampleRanking := by
    refine ⟨?_, by decide, by decide⟩
    simp [sampleRanking, List.Sorted]
  have h1 := (update_ranking_existing_player (some "Bob") "2024-02-01"
    { airborneAt 140 280 0 with score := 150 } sampleRanking
    { name := "Bob", score := 200, date := "2024-01-02" } hinv (by decide) (by decide)).1
    (by decide)
  have h2 := (update_ranking_existing_player (some "Bob") "2024-02-01"
    { airborneAt 140 280 0 with score := 350 } sampleRanking
    { name := "Bob", score := 200, date := "2024-01-02" } hinv (by decide) (by decide)).2
    (by decide)
  ⟨h1, h2.2.2.1⟩

/-- Every call of `updateRanking` on a stored ranking that satisfies the invariant, or on
no stored ranking, stores a ranking that satisfies it. -/
theorem updateRanking_invariant {β : Type} (storedName : Option String) (date : String) (s : GameState β)
    (saved : Option (List RankingEntry))
    (hinv : ∀ ranking, saved = some ranking → RankingInvariant ranking) :
    RankingInvariant (updateRanking storedName date s saved) := by
  have key : ∀ ranking : List RankingEntry, RankingInvariant ranking →
      RankingInvariant (updateRanking storedName date s (some ranking)) := by
    intro ranking hr
    by_cases hex : ∃ existing ∈ ranking, existing.name = nicknameOrDefault storedName
    · obtain ⟨existing, hmem, hname⟩ := hex
      obtain ⟨pre, post, hsplit, hpre, -, -⟩ := split_at_entry ranking existing hr.2.2 hmem
      rw [hname] at hpre
      rw [hsplit, updateRanking_of_existing storedName date s pre post existing hpre hname]
      refine (sort_take_invariant _ ?_).1
      have hnodup := hr.2.2
      rw [hsplit] at hnodup
      split_ifs
      · simpa using hnodup
      · exact hnodup
    · have hnew : ∀ q ∈ ranking, q.name ≠ nicknameOrDefault storedName :=
        fun q hq heq => hex ⟨q, hq, heq⟩
      rw [updateRanking_of_new storedName date s ranking hnew]
      refine (sort_take_invariant _ ?_).1
      rw [List.map_append, List.nodup_append]
      refine ⟨hr.2.2, List.nodup_singleton _, ?_⟩
      intro name h1 h2
      rw [List.map_singleton, List.mem_singleton] at h2
      obtain ⟨q, hq, rfl⟩ := List.mem_map.mp h1
      exact hnew q hq h2
  cases saved with
  | some ranking => exact key ranking (hinv ranking rfl)
  | none =>
    have h := key [] ⟨List.sorted_nil, by simp, List.nodup_nil⟩
    exact h

/-- C26 at a concrete input: from two empty working stores, `saveToRanking` called twice
for the same (unnamed) player, with the scores 10 and 20, stores a ranking with two
entries of that player, which breaks the invariant; `updateRanking` of the game, called
with the same two scores from no stored ranking, keeps a single entry with the best
score. -/
theorem saveToRanking_duplicates_player :
    (saveToRanking { sampleEnv with now := 2000 } "2024-01-02" (sampleScoreData 20)
      (saveToRanking sampleEnv "2024-01-01" (sampleScoreData 10) emptyStorage).2).1.ranking =
      some [{ name := "匿名玩家", score := 20, date := "2024-01-02" },
            { name := "匿名玩家", score := 10, date := "2024-01-01" }] ∧
    (GameSystemIntegration.getRankingData
      (saveToRanking { sampleEnv with now := 2000 } "2024-01-02" (sampleScoreData 20)
        (saveToRanking sampleEnv "2024-01-01" (sampleScoreData 10) emptyStorage).2).2).1 =
      [{ name := "匿名玩家", score := 20, date := "2024-01-02" },
       { name := "匿名玩家", score := 10, date := "2024-01-01" }] ∧
    ¬ RankingInvariant
      [{ name := "匿名玩家", score := 20, date := "2024-01-02" },
       { name := "匿名玩家", score := 10, date := "2024-01-01" }] ∧
    updateRanking none "2024-01-02" { airborneAt 140 280 0 with score := 20 }
      (some (updateRanking none "2024-01-01" { airborneAt 140 280 0 with score := 10 } none)) =
      [{ name := "匿名玩家", score := 20, date := "2024-01-02" }] := by
  have h1 : saveToRanking sampleEnv "2024-01-01" (sampleScoreData 10) emptyStorage =
      ({ success := true
         ranking := some [{ name := "匿名玩家", score := 10, date := "2024-01-01" }] },
       { primaryStorage :=
           { emptyStore with
             items := Function.update emptyStore.items StorageKey.jumpGameRanking
               (some { value := [{ name := "匿名玩家", score := 10, date := "2024-01-01" }]
                       timestamp := 1000, version := 1 }) }
         backupStorage :=
           { emptyStore with
             items := Function.update emptyStore.items StorageKey.jumpGameRanking
               (some { value := [{ name := "匿名玩家", score := 10, date := "2024-01-01" }]
                       timestamp := 1000, version := 1 }) }
         storageHealth := { primary := true, backup := true, lastCheck := 1000 } }) := by
    simp [saveToRanking, DualBackupStorage.getItem, BackingStore.getItem, resolveDataConflict,
      getPlayerNickname, nicknameOrDefault, sortByScoreDescending, DualBackupStorage.setItem,
      BackingStore.setItem, updateStorageHealth, emptyStorage, emptyStore, sampleScoreData,
      sampleEnv]
  rw [h1]
  refine ⟨?_, ?_, ?_, ?_⟩
  · simp [saveToRanking, DualBackupStorage.getItem, BackingStore.getItem, resolveDataConflict,
      getPlayerNickname, nicknameOrDefault, sortByScoreDescending, DualBackupStorage.setItem,
      BackingStore.setItem, updateStorageHealth, emptyStore, sampleScoreData]
  · simp [GameSystemIntegration.getRankingData, saveToRanking, DualBackupStorage.getItem,
      BackingStore.getItem, resolveDataConflict, getPlayerNickname, nicknameOrDefault,
      sortByScoreDescending, DualBackupStorage.setItem, BackingStore.setItem,
      updateStorageHealth, emptyStore, sampleScoreData]
  · intro h
    have := h.2.2
    simp at this
  · simp [updateRanking, getRankingData, nicknameOrDefault, sortByScoreDescending, airborneAt]

/-! ## C27: the two stores -/

/-- C27 as the claim states it, at a concrete input: two working stores hold the
nicknames `Ann` and `Bob` under the same timestamp 5. `getItem` returns `Ann`, needs no
sync, and leaves the backup store with the record of `Bob`, which is not the returned
record. -/
theorem getItem_equal_timestamps_counterexample :
    tiedStorage.working ∧
    (tiedStorage.getItem StorageKey.jumpGamePlayerName).1 = some "Ann" ∧
    (((tiedStorage.getItem StorageKey.jumpGamePlayerName).2.primaryStorage.items
        StorageKey.jumpGamePlayerName).map fun data => (data.value, data.timestamp)) =
      some ("Ann", 5) ∧
    (((tiedStorage.getItem StorageKey.jumpGamePlayerName).2.backupStorage.items
        StorageKey.jumpGamePlayerName).map fun data => (data.value, data.timestamp)) =
      some ("Bob", 5) ∧
    (resolveDataConflict (tiedStorage.primaryStorage.items StorageKey.jumpGamePlayerName)
      (tiedStorage.backupStorage.items StorageKey.jumpGamePlayerName)).needsSync = false := by
  refine ⟨⟨rfl, rfl, rfl, rfl⟩, ?_, ?_, ?_, ?_⟩ <;>
    simp [DualBackupStorage.getItem, BackingStore.getItem, resolveDataConflict, tiedStorage,
      nicknameStore, emptyStore]

theorem resolveDataConflict_needsSync {V : Type} (primaryData backupData : Option (StoredRecord V α)) :
    (resolveDataConflict primaryData backupData).needsSync = true ↔
      (primaryData.isSome ≠ backupData.isSome ∨
        ∃ primary backup, primaryData = some primary ∧ backupData = some backup ∧
          primary.timestamp ≠ backup.timestamp) := by
  cases primaryData with
  | none =>
    cases backupData with
    | none => simp [resolveDataConflict]
    | some backup => simp [resolveDataConflict]
  | some primary =>
    cases backupData with
    | none => simp [resolveDataConflict]
    | some backup =>
      simp only [resolveDataConflict, Option.isSome_some, ne_eq, not_true_eq_false,
        Option.some.injEq, false_or]
      by_cases h : primary.timestamp ≥ backup.timestamp
      · rw [if_pos h]
        simp only [decide_eq_true_eq, gt_iff_lt]
        constructor
        · intro hlt
          exact ⟨primary, backup, rfl, rfl, ne_of_gt hlt⟩
        · rintro ⟨p, b, rfl, rfl, hne⟩
          exact lt_of_le_of_ne h (Ne.symm hne)
      · rw [if_neg h]
        simp only [true_iff]
        exact ⟨primary, backup, rfl, rfl, fun heq => h (le_of_eq heq.symm)⟩

/-- What `getItem` does on two working stores. -/
theorem getItem_of_working (key : StorageKey) (d : DualBackupStorage α) (hw : d.working) :
    (d.getItem key).1 =
      (resolveDataConflict (d.primaryStorage.items key) (d.backupStorage.items key)).data.map
        (fun data => data.value) ∧
    (d.getItem key).2.primaryStorage.items key =
      (resolveDataConflict (d.primaryStorage.items key) (d.backupStorage.items key)).data ∧
    (((d.getItem key).2.backupStorage.items key).map fun data => data.timestamp) =
      (resolveDataConflict (d.primaryStorage.items key) (d.backupStorage.items key)).data.map
        (fun data => data.timestamp) ∧
    ((resolveDataConflict (d.primaryStorage.items key) (d.backupStorage.items key)).needsSync =
        true →
      (d.getItem key).2.backupStorage.items key =
        (resolveDataConflict (d.primaryStorage.items key) (d.backupStorage.items key)).data) ∧
    ((resolveDataConflict (d.primaryStorage.items key) (d.backupStorage.items key)).needsSync =
        false → (d.getItem key).2 = d) := by
  obtain ⟨h1, h2, h3, h4⟩ := hw
  cases hp : d.primaryStorage.items key with
  | none =>
    cases hb : d.backupStorage.items key with
    | none =>
      simp [DualBackupStorage.getItem, BackingStore.getItem, resolveDataConflict, h1, h3, hp, hb]
    | some backup =>
      simp [DualBackupStorage.getItem, BackingStore.getItem, BackingStore.setItem,
        resolveDataConflict, syncData, h1, h2, h3, h4, hp, hb]
  | some primary =>
    cases hb : d.backupStorage.items key with
    | none =>
      simp [DualBackupStorage.getItem, BackingStore.getItem, BackingStore.setItem,
        resolveDataConflict, syncData, h1, h2, h3, h4, hp, hb]
    | some backup =>
      by_cases h : primary.timestamp ≥ backup.timestamp
      · by_cases hlt : primary.timestamp > backup.timestamp
        · simp [DualBackupStorage.getItem, BackingStore.getItem, BackingStore.setItem,
            resolveDataConflict, syncData, h1, h2, h3, h4, hp, hb, h, hlt]
        · have heq : backup.timestamp = primary.timestamp :=
            le_antisymm h (not_lt.mp hlt)
          simp [DualBackupStorage.getItem, BackingStore.getItem, BackingStore.setItem,
            resolveDataConflict, syncData, h1, h2, h3, h4, hp, hb, heq]
      · simp [DualBackupStorage.getItem, BackingStore.getItem, BackingStore.setItem,
          resolveDataConflict, syncData, h1, h2, h3, h4, hp, hb, h]

/-- What `setItem` does: each write succeeds exactly when its store does not throw, and a
store whose write succeeded holds the new record. -/
theorem setItem_spec {β : Type} (env : Env β) (key : StorageKey) (value : key.Value β)
    (d : DualBackupStorage β) :
    (d.setItem env key value).1.success =
      ((d.setItem env key value).1.primarySuccess ||
        (d.setItem env key value).1.backupSuccess) ∧
    (d.setItem env key value).1.primarySuccess = !d.primaryStorage.setItemThrows ∧
    (d.setItem env key value).1.backupSuccess = !d.backupStorage.setItemThrows ∧
    (d.primaryStorage.setItemThrows = false →
      (d.setItem env key value).2.primaryStorage.items key =
        some { value := value, timestamp := env.now, version := 1 }) ∧
    (d.backupStorage.setItemThrows = false →
      (d.setItem env key value).2.backupStorage.items key =
        some { value := value, timestamp := env.now, version := 1 }) ∧
    (d.primaryStorage.setItemThrows = true →
      (d.setItem env key value).2.primaryStorage = d.primaryStorage) ∧
    (d.backupStorage.setItemThrows = true →
      (d.setItem env key value).2.backupStorage = d.backupStorage) ∧
    (d.working → (d.setItem env key value).2.working) := by
  cases hp : d.primaryStorage.setItemThrows <;> cases hb : d.backupStorage.setItemThrows <;>
    simp [DualBackupStorage.setItem, BackingStore.setItem, updateStorageHealth,
      DualBackupStorage.working, hp, hb]

/-- C27, amended. `resolveDataConflict` returns no data when neither store has a record,
the only record when one store has it, and otherwise the record with the larger
timestamp, the primary one on a tie; `needsSync` holds exactly when one record is missing
or the timestamps are unequal. After `getItem(key)` on two working stores the value
returned is that of the resolved record, the primary store holds the resolved record and
the backup store a record with the same timestamp; the backup store holds the resolved
record itself when a sync was needed, and when none was needed (no record at all, or
equal timestamps) the stores are left as they are, whatever the two values are.
`setItem` reports success exactly when at least one of the two stores did not throw, a
store that did not throw holds the new record, and on two working stores a following
`getItem` returns the value written. -/
theorem dual_storage_resolution {V : Type} (primaryData backupData : Option (StoredRecord V α))
    (env : Env α) (key : StorageKey) (value : key.Value α) (d : DualBackupStorage α) :
    ((resolveDataConflict (none : Option (StoredRecord V α)) none).data = none ∧
      (∀ backup : StoredRecord V α, (resolveDataConflict none (some backup)).data = some backup) ∧
      (∀ primary : StoredRecord V α,
        (resolveDataConflict (some primary) none).data = some primary) ∧
      (∀ primary backup : StoredRecord V α,
        (resolveDataConflict (some primary) (some backup)).data =
          some (if primary.timestamp ≥ backup.timestamp then primary else backup))) ∧
    ((resolveDataConflict primaryData backupData).needsSync = true ↔
      (primaryData.isSome ≠ backupData.isSome ∨
        ∃ primary backup, primaryData = some primary ∧ backupData = some backup ∧
          primary.timestamp ≠ backup.timestamp)) ∧
    (d.working →
      (d.getItem key).1 =
        (resolveDataConflict (d.primaryStorage.items key) (d.backupStorage.items key)).data.map
          (fun data => data.value) ∧
      (d.getItem key).2.primaryStorage.items key =
        (resolveDataConflict (d.primaryStorage.items key) (d.backupStorage.items key)).data ∧
      (((d.getItem key).2.backupStorage.items key).map fun data => data.timestamp) =
        (resolveDataConflict (d.primaryStorage.items key) (d.backupStorage.items key)).data.map
          (fun data => data.timestamp) ∧
      ((resolveDataConflict (d.primaryStorage.items key) (d.backupStorage.items key)).needsSync =
          true →
        (d.getItem key).2.backupStorage.items key =
          (resolveDataConflict (d.primaryStorage.items key) (d.backupStorage.items key)).data) ∧
      ((resolveDataConflict (d.primaryStorage.items key) (d.backupStorage.items key)).needsSync =
          false → (d.getItem key).2 = d)) ∧
    ((d.setItem env key value).1.success = true ↔
      d.primaryStorage.setItemThrows = false ∨ d.backupStorage.setItemThrows = false) ∧
    (d.primaryStorage.setItemThrows = false →
      (d.setItem env key value).1.primarySuccess = true ∧
      (d.setItem env key value).2.primaryStorage.items key =
        some { value := value, timestamp := env.now, version := 1 }) ∧
    (d.backupStorage.setItemThrows = false →
      (d.setItem env key value).1.backupSuccess = true ∧
      (d.setItem env key value).2.backupStorage.items key =
        some { value := value, timestamp := env.now, version := 1 }) ∧
    (d.working →
      (d.setItem env key value).1.success = true ∧
      ((d.setItem env key value).2.getItem key).1 = some value) := by
  obtain ⟨s1, s2, s3, s4, s5, -, -, s8⟩ := setItem_spec env key value d
  refine ⟨⟨rfl, fun _ => rfl, fun _ => rfl, ?_⟩, resolveDataConflict_needsSync _ _,
    getItem_of_working key d, ?_, ?_, ?_, ?_⟩
  · intro primary backup
    simp only [resolveDataConflict]
    split_ifs <;> rfl
  · rw [s1, s2, s3]
    cases d.primaryStorage.setItemThrows <;> cases d.backupStorage.setItemThrows <;> simp
  · intro h
    exact ⟨by rw [s2, h]; rfl, s4 h⟩
  · intro h
    exact ⟨by rw [s3, h]; rfl, s5 h⟩
  · intro hw
    have hw2 := s8 hw
    refine ⟨by rw [s1, s2, hw.2.1]; rfl, ?_⟩
    rw [(getItem_of_working key _ hw2).1, s4 hw.2.1, s5 hw.2.2.2]
    simp [resolveDataConflict]

/-- Witness of `dual_storage_resolution`: the nickname `Ann` written to two empty working
stores is read back, and on two stores that hold `Ann` and `Bob` under equal timestamps
`getItem` changes nothing. -/
theorem dual_storage_resolution_witness :
    ((emptyStorage.setItem sampleEnv StorageKey.jumpGamePlayerName "Ann").1.success = true ∧
      ((emptyStorage.setItem sampleEnv StorageKey.jumpGamePlayerName "Ann").2.getItem
        StorageKey.jumpGamePlayerName).1 = some "Ann") ∧
    (tiedStorage.getItem StorageKey.jumpGamePlayerName).2 = tiedStorage :=
  have h := dual_storage_resolution (none : Option (StoredRecord String ℚ)) none sampleEnv
    StorageKey.jumpGamePlayerName "Ann" emptyStorage
  have h2 := dual_storage_resolution (none : Option (StoredRecord String ℚ)) none sampleEnv
    StorageKey.jumpGamePlayerName "Ann" tiedStorage
  ⟨h.2.2.2.2.2.2 ⟨rfl, rfl, rfl, rfl⟩,
    (h2.2.2.1 ⟨rfl, rfl, rfl, rfl⟩).2.2.2.2 (by
      simp [resolveDataConflict, tiedStorage, nicknameStore, emptyStore])⟩

/-! ## C28: the platform loop lands on the first platform that passes -/

/-- One round of the loop on a platform that fails the test goes on with the rest, and
on a platform that passes it lands there and stops. -/
theorem platformLoop_cons (env : Env α) (platform : Platform α) (rest : List (Platform α))
    (s : GameState α) :
    platformLoop env (platform :: rest) s =
      if landingTest s.character platform = true then landOn env platform s
      else platformLoop env rest s := by
  rw [platformLoop]
  by_cases hsize : platform.width = 0 ∨ platform.height = 0 ∨ platform.width ≤ 0 ∨
      platform.height ≤ 0
  · have ht : landingTest s.character platform = false := by
      have hd : (decide (platform.width = 0) || decide (platform.height = 0) ||
          decide (platform.width ≤ 0) || decide (platform.height ≤ 0)) = true := by
        simpa [or_assoc] using hsize
      simp only [landingTest, hd]
      rfl
    rw [if_pos hsize, ht]
    simp
  · have hd : (decide (platform.width = 0) || decide (platform.height = 0) ||
        decide (platform.width ≤ 0) || decide (platform.height ≤ 0)) = false := by
      rw [Bool.eq_false_iff]
      intro h
      apply hsize
      simpa [or_assoc] using h
    rw [if_neg hsize]
    by_cases hcol : isColliding s.character.rect platform.rect = true
    · rw [if_pos hcol]
      by_cases hvy : s.character.vy > 0
      · rw [if_pos hvy]
        dsimp only
        by_cases hwin : s.character.y + s.character.height ≥ platform.y - 25 ∧
            s.character.y + s.character.height ≤ platform.y + 25
        · rw [if_pos hwin]
          by_cases hov : (decide (s.character.x < platform.x + platform.width) &&
              decide (s.character.x + s.character.width > platform.x)) = true
          · have ht : landingTest s.character platform = true := by
              simp only [landingTest, hd, hcol, hov, decide_eq_true hvy, decide_eq_true hwin.1,
                decide_eq_true hwin.2]
              rfl
            rw [if_pos hov, if_pos ht]
          · have ht : landingTest s.character platform = false := by
              rw [Bool.not_eq_true] at hov
              simp only [landingTest, hov, Bool.and_false]
            rw [if_neg hov, ht]
            simp
        · have ht : landingTest s.character platform = false := by
            have hw : (decide (s.character.y + s.character.height ≥ platform.y - 25) &&
                decide (s.character.y + s.character.height ≤ platform.y + 25)) = false := by
              rw [Bool.eq_false_iff]
              intro h
              apply hwin
              simpa using h
            simp only [landingTest, hw, Bool.and_false, Bool.false_and]
          rw [if_neg hwin, ht]
          simp
      · have ht : landingTest s.character platform = false := by
          simp only [landingTest, decide_eq_false hvy, Bool.and_false, Bool.false_and]
        rw [if_neg hvy, ht]
        simp
    · have ht : landingTest s.character platform = false := by
        rw [Bool.not_eq_true] at hcol
        simp only [landingTest, hcol, Bool.and_false, Bool.false_and]
      rw [if_neg hcol, ht]
      simp

/-- The loop is a search for the first platform that passes the test. -/
theorem platformLoop_eq_find (env : Env α) (platforms : List (Platform α)) (s : GameState α) :
    platformLoop env platforms s =
      (platforms.find? (landingTest s.character)).elim s fun platform =>
        landOn env platform s := by
  induction platforms with
  | nil => rfl
  | cons platform rest ih =>
    rw [platformLoop_cons]
    by_cases ht : landingTest s.character platform = true
    · rw [if_pos ht, List.find?_cons_of_pos _ ht]
      rfl
    · rw [if_neg ht, List.find?_cons_of_neg _ ht]
      exact ih

theorem checkCollisions_eq_platformLoop (env : Env α) (s s4 : GameState α)
    (hb : checkCollisionsBeforeLoop s = Except.ok s4) :
    checkCollisions env s = platformLoop env s4.platforms s4 := by
  rw [platformLoop_eq_find]
  cases hf : s4.platforms.find? (landingTest s4.character) <;>
    simp [checkCollisions, hb, hf]

theorem landOn_score (env : Env α) (q : Platform α) (t : GameState α) :
    (landOn env q t).score = t.score + 10 * (landOn env q t).combo ∨
    (landOn env q t).score = t.score + 5 * (landOn env q t).combo +
      10 * (landOn env q t).combo := by
  simp only [landOn, trackJumpLanding, perfectLanding]
  split_ifs
  · right; rfl
  · left; rfl

/-- C28: `checkCollisions` runs the platform loop on the state `s4` left by its first
four steps. For a descending character, if `p` is the first platform of the list, in list
order, that has positive width and height, overlaps the box of the character and has the
bottom edge of the character within 25 of its top, then the character lands on `p`
whatever the platforms after `p` are: the result is the landing on `p` alone, with `p`
attached and the score raised once (by 10 or 15 times the new combo). If no platform of
the list is such, nothing is landed on; a platform with width or height at most 0 is
never such, so it is never landed on. -/
theorem first_platform_landing (env : Env α) (s s4 : GameState α)
    (hb : checkCollisionsBeforeLoop s = Except.ok s4) (hvy : s4.character.vy > 0) :
    checkCollisions env s = platformLoop env s4.platforms s4 ∧
    (∀ (pre post : List (Platform α)) (p : Platform α),
      s4.platforms = pre ++ p :: post →
      (∀ q ∈ pre, ¬ (0 < q.width ∧ 0 < q.height ∧
        isColliding s4.character.rect q.rect = true ∧
        |s4.character.y + s4.character.height - q.y| ≤ 25)) →
      (0 < p.width ∧ 0 < p.height ∧ isColliding s4.character.rect p.rect = true ∧
        |s4.character.y + s4.character.height - p.y| ≤ 25) →
      landingPlatform s = some p ∧
      checkCollisions env s = landOn env p s4 ∧
      platformLoop env (pre ++ p :: post) s4 = platformLoop env (pre ++ [p]) s4 ∧
      (checkCollisions env s).attachedPlatform = some p ∧
      ((checkCollisions env s).score = s.score + 10 * (checkCollisions env s).combo ∨
        (checkCollisions env s).score = s.score + 5 * (checkCollisions env s).combo +
          10 * (checkCollisions env s).combo)) ∧
    ((∀ q ∈ s4.platforms, ¬ (0 < q.width ∧ 0 < q.height ∧
        isColliding s4.character.rect q.rect = true ∧
        |s4.character.y + s4.character.height - q.y| ≤ 25)) →
      landingPlatform s = none ∧ checkCollisions env s = s4) ∧
    (∀ p, landingPlatform s = some p → 0 < p.width ∧ 0 < p.height) := by
  have htest : ∀ q : Platform α, landingTest s4.character q = true ↔
      (0 < q.width ∧ 0 < q.height ∧ isColliding s4.character.rect q.rect = true ∧
        |s4.character.y + s4.character.height - q.y| ≤ 25) := by
    intro q
    rw [landingTest_iff]
    simp only [isColliding, Character.rect, Platform.rect, Bool.and_eq_true, decide_eq_true_eq,
      gt_iff_lt, abs_le]
    constructor
    · rintro ⟨⟨hw, hh⟩, ⟨h1, h2⟩, h3, h4, -, h5, h6⟩
      exact ⟨hw, hh, ⟨⟨⟨h1, h2⟩, h3⟩, h4⟩, by linarith, by linarith⟩
    · rintro ⟨hw, hh, ⟨⟨⟨h1, h2⟩, h3⟩, h4⟩, h5, h6⟩
      exact ⟨⟨hw, hh⟩, ⟨h1, h2⟩, h3, h4, hvy, by linarith, by linarith⟩
  have hloop := checkCollisions_eq_platformLoop env s s4 hb
  have hland : landingPlatform s = s4.platforms.find? (landingTest s4.character) := by
    simp only [landingPlatform, hb]
  have hscore : s4.score = s.score := by
    rw [checkCollisionsBeforeLoop_ok s s4 hb, (resetIfNotOnGround_fields (syncAttachment s)).1,
      (syncAttachment_fields s).1]
  refine ⟨hloop, ?_, ?_, ?_⟩
  · intro pre post p hpl hpre hp
    have hfind : ∀ tail : List (Platform α),
        (pre ++ p :: tail).find? (landingTest s4.character) = some p := by
      intro tail
      rw [List.find?_eq_some]
      exact ⟨(htest p).mpr hp, pre, tail, rfl, fun q hq => by
        have := hpre q hq
        rw [← htest q] at this
        simpa using this⟩
    have hres : checkCollisions env s = landOn env p s4 := by
      rw [hloop, platformLoop_eq_find, hpl, hfind post]
      rfl
    refine ⟨by rw [hland, hpl, hfind post], hres, ?_, ?_, ?_⟩
    · rw [platformLoop_eq_find, platformLoop_eq_find, hfind post, hfind []]
    · rw [hres]
      exact (landOn_fields env p s4).2.1
    · rw [hres, ← hscore]
      exact landOn_score env p s4
  · intro hnone
    have hfind : s4.platforms.find? (landingTest s4.character) = none := by
      rw [List.find?_eq_none]
      intro q hq
      have := hnone q hq
      rw [← htest q] at this
      exact this
    exact ⟨by rw [hland, hfind], by rw [hloop, platformLoop_eq_find, hfind]; rfl⟩
  · intro p hp
    rw [hland] at hp
    have := (htest p).mp (List.find?_some hp)
    exact ⟨this.1, this.2.1⟩

/-- Witness of `first_platform_landing`: over a platform without height, the first
platform and a shifted copy of it, all three under the character, the landing is on the
first platform. -/
theorem first_platform_landing_witness :
    landingPlatform overThreePlatforms = some firstPlatform ∧
    (checkCollisions sampleEnv overThreePlatforms).attachedPlatform = some firstPlatform :=
  have hb : checkCollisionsBeforeLoop overThreePlatforms = Except.ok overThreePlatforms := by
    norm_num [overThreePlatforms, airborneAt, firstPlatform, checkCollisionsBeforeLoop,
      syncAttachment, resetIfNotOnGround, isColliding, Character.rect]
  have h := (first_platform_landing sampleEnv overThreePlatforms overThreePlatforms hb
    (by norm_num [overThreePlatforms, airborneAt])).2.1
    [{ firstPlatform with height := 0, id := 0 }] [{ firstPlatform with x := 100, id := 2 }]
    firstPlatform rfl
    (by
      intro q hq
      simp only [List.mem_singleton] at hq
      subst hq
      norm_num)
    (by
      norm_num [overThreePlatforms, airborneAt, firstPlatform, isColliding, Character.rect,
        Platform.rect, abs_le])
  ⟨h.1, h.2.2.2.1⟩

/-! ## C29: the forecast returns to the launch height -/

/-- The platform kept by the search of `predictPlatformCollision` is the one it started
with or a platform of the list that passed the height test. -/
theorem nearestPlatform_foldl (landing : LandingPrediction α) (platforms : List (Platform α))
    (best : Option (Platform α) × Option α) (target : Platform α)
    (h : (platforms.foldl (nearestPlatformStep landing) best).1 = some target) :
    best.1 = some target ∨
    (target ∈ platforms ∧ landing.y ≥ target.y - 10 ∧ landing.y ≤ target.y + 20) := by
  induction platforms generalizing best with
  | nil => exact Or.inl h
  | cons platform rest ih =>
    rw [List.foldl_cons] at h
    rcases ih (nearestPlatformStep landing best platform) h with h1 | ⟨hm, hy⟩
    · unfold nearestPlatformStep at h1
      dsimp only at h1
      split_ifs at h1 with hc
      · right
        have : platform = target := by simpa using h1
        subst this
        exact ⟨List.mem_cons_self _ _, hc.2⟩
      · exact Or.inl h1
    · exact Or.inr ⟨List.mem_cons_of_mem _ hm, hy⟩

/-- C29: for every character position and every charge power (given or read from the
state), `predictLandingPosition` returns `time = −2 vy / 0.8`, `distance = vx × time`,
`x = startX + distance` with `startX` the centre of the character, and a landing `y` equal
to `character.y`; so when `predictPlatformCollision` reports a hit, the platform it
reports is a platform of the list with `platform.y − 10 ≤ character.y ≤ platform.y + 20`,
and without such a platform it reports no hit. -/
theorem forecast_returns_to_launch_height (env : Env α) (m : JsMath α) (power : Option α)
    (s : GameState α) :
    (predictLandingPosition env m power s).time =
      -2 * (predictLandingPosition env m power s).velocity.2 / 0.8 ∧
    (predictLandingPosition env m power s).distance =
      (predictLandingPosition env m power s).velocity.1 *
        (predictLandingPosition env m power s).time ∧
    (predictLandingPosition env m power s).x =
      s.character.x + s.character.width / 2 + (predictLandingPosition env m power s).distance ∧
    (predictLandingPosition env m power s).y = s.character.y ∧
    (predictPlatformCollision env m power s).landing = predictLandingPosition env m power s ∧
    ((predictPlatformCollision env m power s).willHit = true →
      ∃ platform ∈ s.platforms,
        (predictPlatformCollision env m power s).platform = some platform ∧
        platform.y - 10 ≤ s.character.y ∧ s.character.y ≤ platform.y + 20) ∧
    ((∀ platform ∈ s.platforms,
        ¬ (platform.y - 10 ≤ s.character.y ∧ s.character.y ≤ platform.y + 20)) →
      (predictPlatformCollision env m power s).willHit = false) := by
  have hy : (predictLandingPosition env m power s).y = s.character.y := by
    simp only [predictLandingPosition]
    have h8 : (0.8 : α) ≠ 0 := by norm_num
    field_simp
    ring
  have hhit : (predictPlatformCollision env m power s).willHit = true →
      ∃ platform ∈ s.platforms,
        (predictPlatformCollision env m power s).platform = some platform ∧
        platform.y - 10 ≤ s.character.y ∧ s.character.y ≤ platform.y + 20 := by
    intro hw
    unfold predictPlatformCollision at hw ⊢
    dsimp only at hw ⊢
    cases hbest : (s.platforms.foldl
        (nearestPlatformStep (predictLandingPosition env m power s)) (none, none)).1 with
    | none => simp [hbest] at hw
    | some target =>
      rcases nearestPlatform_foldl _ _ _ target hbest with h1 | ⟨hm, h2, h3⟩
      · simp at h1
      · rw [hy] at h2 h3
        exact ⟨target, hm, by simp, h2, h3⟩
  refine ⟨rfl, rfl, rfl, hy, ?_, hhit, ?_⟩
  · unfold predictPlatformCollision
    dsimp only
    cases (s.platforms.foldl
        (nearestPlatformStep (predictLandingPosition env m power s)) (none, none)).1 <;> rfl
  · intro hnone
    by_contra hw
    rw [Bool.not_eq_false] at hw
    obtain ⟨platform, hm, -, h2⟩ := hhit hw
    exact hnone platform hm h2

/-- Witness of `forecast_returns_to_launch_height`: the character standing on the first
platform at `y = 280` is forecast to come down at `y = 280`, 30 above the band of that
platform, so no hit is reported; a character at `y = 315`, inside the band, is reported to
hit a platform of the list. -/
theorem forecast_returns_to_launch_height_witness :
    ((predictLandingPosition sampleEnv sampleMath (some 50)
        (chargingState 50 none)).y = 280 ∧
      (predictPlatformCollision sampleEnv sampleMath (some 50)
        (chargingState 50 none)).willHit = false) ∧
    ∃ platform ∈ (airborneAt 140 315 0).platforms,
      (predictPlatformCollision sampleEnv sampleMath none
        (airborneAt 140 315 0)).platform = some platform ∧
      platform.y - 10 ≤ (airborneAt 140 315 0).character.y ∧
      (airborneAt 140 315 0).character.y ≤ platform.y + 20 :=
  have h := forecast_returns_to_launch_height sampleEnv sampleMath
    (some 50) (chargingState 50 none)
  ⟨⟨h.2.2.2.1, h.2.2.2.2.2.2 (by
      intro platform hm
      simp only [chargingState, List.mem_singleton] at hm
      subst hm
      norm_num [chargingState])⟩,
    (forecast_returns_to_launch_height sampleEnv sampleMath
      none (airborneAt 140 315 0)).2.2.2.2.2.1 (by
        norm_num [predictPlatformCollision, predictLandingPosition, nearestPlatformStep,
          airborneAt, firstPlatform, sampleEnv])⟩

/-! ## C30: the difficulty ramp -/

theorem coverageLoop_speeds (env : Env α) (draws : ℕ → PlatformDraws α) (k : ℕ)
    (s : GameState α) :
    (coverageLoop env draws k s).1.gameSpeed = s.gameSpeed ∧
    (coverageLoop env draws k s).1.platformSpeed = s.platformSpeed ∧
    (coverageLoop env draws k s).1.score = s.score := by
  induction k, s using coverageLoop.induct env draws with
  | case1 k s hc ih =>
    rw [coverageLoop, if_pos hc]
    exact ih
  | case2 k s hc =>
    rw [coverageLoop, if_neg hc]
    exact ⟨rfl, rfl, rfl⟩

theorem minimumLoop_speeds (env : Env α) (draws : ℕ → PlatformDraws α) (k : ℕ)
    (s : GameState α) :
    (minimumLoop env draws k s).1.gameSpeed = s.gameSpeed ∧
    (minimumLoop env draws k s).1.platformSpeed = s.platformSpeed ∧
    (minimumLoop env draws k s).1.score = s.score := by
  induction k, s using minimumLoop.induct env draws with
  | case1 k s hc ih =>
    rw [minimumLoop, if_pos hc]
    exact ih
  | case2 k s hc =>
    rw [minimumLoop, if_neg hc]
    exact ⟨rfl, rfl, rfl⟩

theorem ensurePlatformsContinuity_speeds (env : Env α) (draws : ℕ → PlatformDraws α)
    (s : GameState α) :
    (ensurePlatformsContinuity env draws s).gameSpeed = s.gameSpeed ∧
    (ensurePlatformsContinuity env draws s).platformSpeed = s.platformSpeed ∧
    (ensurePlatformsContinuity env draws s).score = s.score := by
  obtain ⟨c1, c2, c3⟩ := coverageLoop_speeds env draws 0 s
  obtain ⟨m1, m2, m3⟩ := minimumLoop_speeds env draws (coverageLoop env draws 0 s).2
    (coverageLoop env draws 0 s).1
  unfold ensurePlatformsContinuity
  dsimp only
  exact ⟨by rw [m1, c1], by rw [m2, c2], by rw [m3, c3]⟩

/-- One tick of `updatePlatforms`: the score is kept, and the two speeds grow by 0.1 and
0.05 exactly when the score is positive and divisible by 100. -/
theorem updatePlatforms_speeds (env : Env α) (draws : ℕ → PlatformDraws α) (s : GameState α) :
    (updatePlatforms env draws s).score = s.score ∧
    (s.score > 0 ∧ s.score % 100 = 0 →
      (updatePlatforms env draws s).gameSpeed = s.gameSpeed + 0.1 ∧
      (updatePlatforms env draws s).platformSpeed = s.platformSpeed + 0.05) ∧
    (¬ (s.score > 0 ∧ s.score % 100 = 0) →
      (updatePlatforms env draws s).gameSpeed = s.gameSpeed ∧
      (updatePlatforms env draws s).platformSpeed = s.platformSpeed) := by
  obtain ⟨e1, e2, e3⟩ := ensurePlatformsContinuity_speeds env draws
    { s with
      platforms := (s.platforms.map (movePlatform env s)).filter fun platform =>
        decide (platform.x + platform.width > -100)
      attachedPlatform := s.attachedPlatform.map fun platform =>
        if platform ∈ s.platforms then movePlatform env s platform else platform
      bottomCollisionLine := s.bottomCollisionLine.map fun line =>
        { line with x := 0, width := env.innerWidth } }
  dsimp only at e1 e2 e3
  unfold updatePlatforms
  dsimp only
  by_cases h : s.score > 0 ∧ s.score % 100 = 0
  · rw [if_pos (by rw [e3]; exact h)]
    dsimp only
    exact ⟨e3, fun _ => ⟨by rw [e1], by rw [e2]⟩, fun hn => absurd h hn⟩
  · rw [if_neg (by rw [e3]; exact h)]
    exact ⟨e3, fun hp => absurd hp h, fun _ => ⟨e1, e2⟩⟩

/-- C30: in `updatePlatforms` the ramp is applied on every tick. In a state whose score is
positive and divisible by 100 one call raises `gameSpeed` by 0.1 and `platformSpeed` by
0.05, and a run of `k` ticks (which leaves the score as it is) raises them by `0.1 k` and
`0.05 k`; in every other state one call, and so any run of ticks, leaves both speeds as
they are. Hence neither speed ever decreases. -/
theorem speed_ramp_per_tick (env : Env α) (draws : ℕ → PlatformDraws α) (s : GameState α)
    (ticks : List (Env α × (ℕ → PlatformDraws α))) :
    (updatePlatforms env draws s).score = s.score ∧
    (s.score > 0 ∧ s.score % 100 = 0 →
      ((updatePlatforms env draws s).gameSpeed = s.gameSpeed + 0.1 ∧
        (updatePlatforms env draws s).platformSpeed = s.platformSpeed + 0.05) ∧
      (updatePlatformsTicks ticks s).gameSpeed = s.gameSpeed + 0.1 * (ticks.length : α) ∧
      (updatePlatformsTicks ticks s).platformSpeed =
        s.platformSpeed + 0.05 * (ticks.length : α)) ∧
    (¬ (s.score > 0 ∧ s.score % 100 = 0) →
      ((updatePlatforms env draws s).gameSpeed = s.gameSpeed ∧
        (updatePlatforms env draws s).platformSpeed = s.platformSpeed) ∧
      (updatePlatformsTicks ticks s).gameSpeed = s.gameSpeed ∧
      (updatePlatformsTicks ticks s).platformSpeed = s.platformSpeed) ∧
    s.gameSpeed ≤ (updatePlatforms env draws s).gameSpeed ∧
    s.platformSpeed ≤ (updatePlatforms env draws s).platformSpeed ∧
    s.gameSpeed ≤ (updatePlatformsTicks ticks s).gameSpeed ∧
    s.platformSpeed ≤ (updatePlatformsTicks ticks s).platformSpeed := by
  have run : ∀ (ticks : List (Env α × (ℕ → PlatformDraws α))) (t : GameState α),
      (updatePlatformsTicks ticks t).score = t.score ∧
      (t.score > 0 ∧ t.score % 100 = 0 →
        (updatePlatformsTicks ticks t).gameSpeed = t.gameSpeed + 0.1 * (ticks.length : α) ∧
        (updatePlatformsTicks ticks t).platformSpeed =
          t.platformSpeed + 0.05 * (ticks.length : α)) ∧
      (¬ (t.score > 0 ∧ t.score % 100 = 0) →
        (updatePlatformsTicks ticks t).gameSpeed = t.gameSpeed ∧
        (updatePlatformsTicks ticks t).platformSpeed = t.platformSpeed) := by
    intro ticks
    induction ticks with
    | nil =>
      intro t
      simp [updatePlatformsTicks]
    | cons tick ticks ih =>
      intro t
      have hstep := updatePlatforms_speeds tick.1 tick.2 t
      have hrest := ih (updatePlatforms tick.1 tick.2 t)
      have hrun : updatePlatformsTicks (tick :: ticks) t =
          updatePlatformsTicks ticks (updatePlatforms tick.1 tick.2 t) := rfl
      rw [hrun]
      rw [hstep.1] at hrest
      refine ⟨hrest.1, ?_, ?_⟩
      · intro h
        rw [(hrest.2.1 h).1, (hrest.2.1 h).2, (hstep.2.1 h).1, (hstep.2.1 h).2]
        simp only [List.length_cons, Nat.cast_add, Nat.cast_one]
        constructor <;> ring
      · intro h
        rw [(hrest.2.2 h).1, (hrest.2.2 h).2, (hstep.2.2 h).1, (hstep.2.2 h).2]
        exact ⟨rfl, rfl⟩
  have hstep := updatePlatforms_speeds env draws s
  have hrun := run ticks s
  have hk : (0 : α) ≤ (ticks.length : α) := Nat.cast_nonneg _
  refine ⟨hstep.1, fun h => ⟨hstep.2.1 h, hrun.2.1 h⟩, fun h => ⟨hstep.2.2 h, hrun.2.2 h⟩,
    ?_, ?_, ?_, ?_⟩
  · by_cases h : s.score > 0 ∧ s.score % 100 = 0
    · rw [(hstep.2.1 h).1]; linarith
    · rw [(hstep.2.2 h).1]
  · by_cases h : s.score > 0 ∧ s.score % 100 = 0
    · rw [(hstep.2.1 h).2]; linarith
    · rw [(hstep.2.2 h).2]
  · by_cases h : s.score > 0 ∧ s.score % 100 = 0
    · rw [(hrun.2.1 h).1]; nlinarith
    · rw [(hrun.2.2 h).1]
  · by_cases h : s.score > 0 ∧ s.score % 100 = 0
    · rw [(hrun.2.1 h).2]; nlinarith
    · rw [(hrun.2.2 h).2]

/-- Witness of `speed_ramp_per_tick`: at score 100, three ticks raise `gameSpeed` from 1
to 1.3 and `platformSpeed` from 2 to 2.15. -/
theorem speed_ramp_per_tick_witness :
    (updatePlatformsTicks
      [(sampleEnv, fun _ => halfDraws), (sampleEnv, fun _ => halfDraws),
        (sampleEnv, fun _ => halfDraws)]
      { airborneAt 140 280 0 with score := 100 }).gameSpeed =
      ({ airborneAt 140 280 0 with score := 100 } : GameState ℚ).gameSpeed + 0.1 * 3 ∧
    (updatePlatformsTicks
      [(sampleEnv, fun _ => halfDraws), (sampleEnv, fun _ => halfDraws),
        (sampleEnv, fun _ => halfDraws)]
      { airborneAt 140 280 0 with score := 100 }).platformSpeed =
      ({ airborneAt 140 280 0 with score := 100 } : GameState ℚ).platformSpeed + 0.05 * 3 :=
  have h := (speed_ramp_per_tick sampleEnv (fun _ => halfDraws)
    { airborneAt 140 280 0 with score := 100 }
    [(sampleEnv, fun _ => halfDraws), (sampleEnv, fun _ => halfDraws),
      (sampleEnv, fun _ => halfDraws)]).2.1 (by decide)
  ⟨by simpa using h.2.1, by simpa using h.2.2⟩

end JumpGame
